import Mathlib

/-!
# GabsEats performance-testing harness: journeys, iteration functions, token store

A shallow embedding of the JavaScript sources

* `src/journeys/customer-journey.js`, `vendor-journey.js`, `rider-journey.js`
* `src/load-tests/load-test.js`, `stress-test.js`, `spike-test.js`, `smoke-test.js`
* `src/lib/auth.js`, `src/lib/metrics.js`, `src/lib/api-client.js`,
  `src/lib/data-generator.js`
* `src/scenarios/vendor/accept-order.js`, `src/scenarios/rider/update-status.js`,
  `src/scenarios/customer/track-order.js`

JavaScript control flow (exceptions, `return` inside `try`, `try`/`catch`) is
modelled by an explicit completion type threaded through a world state that
holds the event trace, the k6 metric series and the shared token store.

Modelling conventions.

* A scenario step called by a journey is an oracle: the environment fixes, for
  each call site, whether that call returns a result object or throws.
* A payload that the sources may leave `null`/`undefined`
  (`response.json ? response.json.order : null`) is an `Option`; reading a
  property of `none` throws a `TypeError`, as in JavaScript.
* A name that a module uses without importing or declaring it (`http` in
  `auth.js` and `api-client.js`, `sleep` in the scenario modules) is unbound:
  evaluating it throws a `ReferenceError`.
* A named import of a binding that the imported module exports only as its
  default (`placeOrder`, `trackOrder`, `viewOrders`, `acceptOrder`,
  `viewAssignments` in the journeys) is `undefined`: calling it throws a
  `TypeError`.
* `response.json()` throws when the body is not a JSON document.
* `Math.random()` is a rational number supplied by the environment.
* `Date.now()` readings and the ISO timestamp are supplied by the environment.
* The think time and the journey weights are computed in binary64 arithmetic
  (section "Binary64 arithmetic"); the remaining numbers (durations, counters,
  rates, indexes) are exact integers and rationals.
-/

namespace GabsEats

/-! ## JavaScript completions -/

/-- The value carried by a JavaScript exception (its message). -/
abbrev Exn := String

/-- Names of the functions whose invocation is traced: the scenario steps that
the three journeys import as bound names, and `refreshToken` of `auth.js`. -/
inductive StepName where
  | customerLogin | browseVendors | viewMenu | buildRealisticCart | getCart
  | completeOrderTrackingExperience
  | vendorLogin | viewPendingOrders | getOrderDetails | processOrderFlow
  | riderLogin | viewAvailableAssignments | getAssignmentDetails
  | completeDeliveryFlow | acceptAssignment | updateLocation
  | refreshToken
  deriving DecidableEq, Repr

/-- Observable events of a run, in program order. -/
inductive Event where
  /-- A scenario step function was invoked. -/
  | call (step : StepName)
  /-- The invoked scenario step threw an exception. -/
  | raised (step : StepName)
  /-- The think time `sleep(generateDelay(lo, hi) / 1000)`. -/
  | think (lo hi : Nat)
  /-- An HTTP request was sent to the given endpoint. -/
  | http (endpoint : String)
  /-- One predicate of a k6 `check` was evaluated. -/
  | check (name : String) (passed : Bool)
  /-- A `console.error` line. -/
  | consoleError (message : String)
  deriving DecidableEq, Repr

/-- The k6 metric series declared in `metrics.js` lines 3-25: a Rate is the list
of its boolean samples, a Trend the list of its numeric samples, a Counter its
running total. -/
structure Metrics where
  orderSuccessRate : List Bool := []
  loginSuccessRate : List Bool := []
  deliveryCompletionRate : List Bool := []
  customerJourneyTime : List Int := []
  vendorJourneyTime : List Int := []
  riderJourneyTime : List Int := []
  authResponseTime : List Int := []
  vendorBrowseTime : List Int := []
  menuLoadTime : List Int := []
  orderPlacementTime : List Int := []
  orderTrackingTime : List Int := []
  ordersPlaced : Nat := 0
  ordersAccepted : Nat := 0
  deliveriesCompleted : Nat := 0
  menuViews : Nat := 0
  vendorBrowses : Nat := 0
  deriving DecidableEq, Repr

/-- The actor kinds that key the token store of `auth.js`. -/
inductive UserType where
  | customer | vendor | rider
  deriving DecidableEq, Repr

/-- A slot of the token store: `none` is `null`/`undefined`. -/
abbrev Token := Option String

/-- The module-level `tokens` object of `auth.js` lines 10-14. -/
structure Tokens where
  customer : Token := none
  vendor : Token := none
  rider : Token := none
  deriving DecidableEq, Repr

/-- The state shared by everything that runs in one virtual user. -/
structure World where
  events : List Event := []
  metrics : Metrics := {}
  tokens : Tokens := {}
  deriving DecidableEq, Repr

/-- How a block of statements completes: normally with a value, by a `return`
statement carrying the function result, or by a thrown exception. -/
inductive Completion (ρ α : Type) where
  | normal (a : α)
  | ret (r : ρ)
  | throw (e : Exn)
  deriving DecidableEq, Repr

/-- A block of statements of a function whose result type is `ρ`. -/
def JsM (ρ α : Type) : Type := World → Completion ρ α × World

namespace JsM

/-- Normal completion with a value. -/
def pure {ρ α : Type} (a : α) : JsM ρ α := fun w => (.normal a, w)

/-- Sequencing: a `return` or a thrown exception skips the rest of the block. -/
def bind {ρ α β : Type} (x : JsM ρ α) (f : α → JsM ρ β) : JsM ρ β := fun w =>
  match x w with
  | (.normal a, w1) => f a w1
  | (.ret r, w1) => (.ret r, w1)
  | (.throw e, w1) => (.throw e, w1)

instance {ρ : Type} : Monad (JsM ρ) where
  pure := JsM.pure
  bind := JsM.bind

end JsM

/-- The statement `return r;`. -/
def jsReturn {ρ α : Type} (r : ρ) : JsM ρ α := fun w => (.ret r, w)

/-- The statement `throw e;`. -/
def jsThrow {ρ α : Type} (e : Exn) : JsM ρ α := fun w => (.throw e, w)

/-- The statement `if (c) { return r; }`. -/
def returnIf {ρ : Type} (c : Bool) (r : ρ) : JsM ρ Unit := fun w =>
  if c then (.ret r, w) else (.normal (), w)

/-- The statement `if (c) { block }` without an `else`. -/
def jsWhen {ρ : Type} (c : Bool) (block : JsM ρ Unit) : JsM ρ Unit := fun w =>
  if c then block w else (.normal (), w)

/-- Appends an event to the trace. -/
def emit {ρ : Type} (e : Event) : JsM ρ Unit :=
  fun w => (.normal (), { w with events := w.events ++ [e] })

/-- The block `try { body } catch (error) { handler }`: only a thrown exception
enters the handler; a `return` inside `body` leaves the function. -/
def tryCatch {ρ α : Type} (body : JsM ρ α) (handler : Exn → JsM ρ α) : JsM ρ α := fun w =>
  match body w with
  | (.throw e, w1) => handler e w1
  | (.normal a, w1) => (.normal a, w1)
  | (.ret r, w1) => (.ret r, w1)

/-- Calling a function whose body is `body`: the caller sees the returned value
or the exception that escaped the body. -/
def callFn {ρ : Type} (body : JsM ρ ρ) (w : World) : Except Exn ρ × World :=
  match body w with
  | (.normal r, w1) => (.ok r, w1)
  | (.ret r, w1) => (.ok r, w1)
  | (.throw e, w1) => (.error e, w1)

/-- Invoking a scenario step: the call is traced, then it returns or throws as
the environment decides; a throw is traced as well. -/
def step {ρ α : Type} (name : StepName) (outcome : Except Exn α) : JsM ρ α := fun w =>
  match outcome with
  | .ok a => (.normal a, { w with events := w.events ++ [Event.call name] })
  | .error e =>
    (.throw e, { w with events := w.events ++ [Event.call name, Event.raised name] })

/-- Calling a function from inside a block: its returned value is the value of
the call expression, an exception that escapes it is thrown at the call. -/
def invoke {ρ σ : Type} (f : World → Except Exn σ × World) : JsM ρ σ := fun w =>
  match f w with
  | (.ok v, w1) => (.normal v, w1)
  | (.error e, w1) => (.throw e, w1)

/-- Reading a property of a payload: `TypeError` when the payload is `null` or
`undefined`. -/
def deref {ρ α : Type} (payload : Option α) : JsM ρ α := fun w =>
  match payload with
  | some a => (.normal a, w)
  | none => (.throw "TypeError", w)

/-- The statement `sleep(generateDelay(lo, hi) / 1000)` in a module that imports
`sleep` from `k6`: the three journeys. -/
def think {ρ : Type} (lo hi : Nat) : JsM ρ Unit := emit (Event.think lo hi)

/-- A call `f(...)` where `f` is a named import from a module that exports `f`
only as its default: the binding is `undefined`, the call throws a `TypeError`
and no function is invoked. -/
def callUndefined {ρ α : Type} : JsM ρ α := jsThrow "TypeError"

/-- The expression `http.post(...)`, `http.get(...)`, ... in a module that does
not import `k6/http`: evaluating the identifier `http` throws a
`ReferenceError` before any request is built.  `response`, the answer the server
would give to the request, is never obtained. -/
def httpUnbound {ρ α : Type} (_response : α) : JsM ρ α := jsThrow "ReferenceError"

/-- The statement `sleep(generateDelay(lo, hi) / 1000)` in a module that does
not import `sleep`: evaluating the identifier throws a `ReferenceError`. -/
def sleepUnbound {ρ : Type} (_lo _hi : Nat) : JsM ρ Unit := jsThrow "ReferenceError"

/-- The index `Math.floor(Math.random() * length)`. -/
def randomIndex (random : ℚ) (length : Nat) : Nat := ⌊random * (length : ℚ)⌋₊

/-! ## Journey results and the journey-time metrics (`metrics.js` lines 42-79) -/

/-- The object returned by a journey.  A step-failure `return` carries `error`
and `step` (or `message` and `step`); the final `return` carries `duration` and
`timestamp`.  A field the object literal does not mention is `none`. -/
structure JourneyResult where
  success : Bool
  error : Option String := none
  message : Option String := none
  step : Option String := none
  duration : Option Int := none
  timestamp : Option String := none
  deriving DecidableEq, Repr

/-- The function `recordCustomerJourneyMetrics(startTime, endTime, success)`:
one sample on the `customer_journey_time` Trend; `success` only selects the
console message. -/
def recordCustomerJourneyMetrics {ρ : Type} (startTime endTime : Int) (_success : Bool) :
    JsM ρ Unit := fun w =>
  let duration := endTime - startTime
  (.normal (), { w with metrics :=
    { w.metrics with customerJourneyTime := w.metrics.customerJourneyTime ++ [duration] } })

/-- The function `recordVendorJourneyMetrics(startTime, endTime, success)`. -/
def recordVendorJourneyMetrics {ρ : Type} (startTime endTime : Int) (_success : Bool) :
    JsM ρ Unit := fun w =>
  let duration := endTime - startTime
  (.normal (), { w with metrics :=
    { w.metrics with vendorJourneyTime := w.metrics.vendorJourneyTime ++ [duration] } })

/-- The function `recordRiderJourneyMetrics(startTime, endTime, success)`. -/
def recordRiderJourneyMetrics {ρ : Type} (startTime endTime : Int) (_success : Bool) :
    JsM ρ Unit := fun w =>
  let duration := endTime - startTime
  (.normal (), { w with metrics :=
    { w.metrics with riderJourneyTime := w.metrics.riderJourneyTime ++ [duration] } })

/-! ## Result objects of the scenario steps -/

/-- The `user` object of a login response. -/
structure User where
  id : Nat
  deriving DecidableEq, Repr

/-- The result of `loginCustomer` / `loginVendor` / `loginRider`, passed through by
the login scenarios: `{ token, user, success: true }` or
`{ success: false, error: response.body }`. -/
structure LoginResult where
  success : Bool
  token : Token := none
  user : Option User := none
  error : Option String := none
  deriving DecidableEq, Repr

/-- An element of the `vendors` array. -/
structure Vendor where
  id : Nat
  name : String
  deriving DecidableEq, Repr

/-- The result of `browseVendors`: `vendors` is `response.json.vendors`, which is
`undefined` when the document has no such field. -/
structure BrowseResult where
  success : Bool
  vendors : Option (List Vendor)
  deriving DecidableEq, Repr

/-- An element of the `menu` array. -/
structure MenuItem where
  id : Nat
  deriving DecidableEq, Repr

/-- The result of `viewMenu`. -/
structure MenuResult where
  success : Bool
  menu : Option (List MenuItem)
  deriving DecidableEq, Repr

/-- The result of `buildRealisticCart`: `cartItems` is a locally built array. -/
structure CartResult where
  success : Bool
  cartItems : List Nat
  deriving DecidableEq, Repr

/-- The `cart` object of a cart listing. -/
structure Cart where
  total : Int
  deriving DecidableEq, Repr

/-- The result of `getCart`. -/
structure CartReview where
  success : Bool
  cart : Option Cart
  deriving DecidableEq, Repr

/-- An order object (`id`, `status`, `total`). -/
structure Order where
  id : Nat
  status : String := "pending"
  total : Int := 0
  deriving DecidableEq, Repr

/-- The result of `placeOrder`, of the vendor-side `getOrderDetails` and of
`acceptOrder`: `order` is `null` when the response has no document. -/
structure OrderResult where
  success : Bool
  order : Option Order
  deriving DecidableEq, Repr

/-- The `tracking` object of a tracking response. -/
structure Tracking where
  status : String
  deriving DecidableEq, Repr

/-- The result of `trackOrder`. -/
structure TrackingResult where
  success : Bool
  tracking : Option Tracking
  deriving DecidableEq, Repr

/-- One entry of the `steps` array of a multi-step flow. -/
structure FlowStep where
  step : String
  success : Bool
  deriving DecidableEq, Repr

/-- The object returned by `completeOrderTrackingExperience`, `processOrderFlow`
and `completeDeliveryFlow`: `{ orderId, steps: [...], success }`. -/
structure FlowResult where
  steps : List FlowStep
  success : Bool
  deriving DecidableEq, Repr

/-! ## The customer journey (`customer-journey.js` lines 17-136) -/

/-- What the environment decides in one run of `customerJourney`. -/
structure CustomerEnv where
  /-- The first `Date.now()`. -/
  journeyStartTime : Int
  /-- The second `Date.now()`. -/
  journeyEndTime : Int
  /-- The value of `new Date().toISOString()`. -/
  isoTimestamp : String
  /-- The `Math.random()` of the vendor selection. -/
  random : ℚ
  customerLogin : Except Exn LoginResult
  browseVendors : Except Exn BrowseResult
  viewMenu : Except Exn MenuResult
  buildRealisticCart : Except Exn CartResult
  getCart : Except Exn CartReview
  completeOrderTrackingExperience : Except Exn FlowResult

/-- The statements inside the `try` block of `customerJourney` (lines 22-120);
the normal completion carries the final value of `journeySuccess`.  `placeOrder`
and `trackOrder` are named imports (lines 10-11), but `checkout.js` line 9 and
`track-order.js` line 9 export them only as default: both bindings are
`undefined`. -/
def customerJourneyTry (env : CustomerEnv) : JsM JourneyResult Bool := do
  -- Step 1: Customer Login
  let loginResult ← step .customerLogin env.customerLogin
  returnIf (!loginResult.success)
    { success := false, error := some "Login failed", step := some "login" }
  think 3 8
  -- Step 2: Browse Vendors
  let browseResult ← step .browseVendors env.browseVendors
  returnIf (!browseResult.success)
    { success := false, error := some "Vendor browsing failed", step := some "browse" }
  let vendors ← deref browseResult.vendors
  returnIf (vendors.length = 0)
    { success := false, error := some "Vendor browsing failed", step := some "browse" }
  -- line 45: the selected vendor; line 46 reads `selectedVendor.name`
  let _selectedVendor ← deref vendors[randomIndex env.random vendors.length]?
  think 2 5
  -- Step 3: View Menu
  let menuResult ← step .viewMenu env.viewMenu
  returnIf (!menuResult.success)
    { success := false, error := some "Menu viewing failed", step := some "menu" }
  let menu ← deref menuResult.menu
  returnIf (menu.length = 0)
    { success := false, error := some "Menu viewing failed", step := some "menu" }
  think 3 8
  -- Step 4: Build Cart
  let cartResult ← step .buildRealisticCart env.buildRealisticCart
  returnIf (!cartResult.success || cartResult.cartItems.length = 0)
    { success := false, error := some "Cart building failed", step := some "cart" }
  think 2 4
  -- Step 5: Review Cart
  let cartReview ← step .getCart env.getCart
  returnIf (!cartReview.success)
    { success := false, error := some "Cart review failed", step := some "cart_review" }
  -- line 82 reads `cartReview.cart.total`
  let _cart ← deref cartReview.cart
  think 2 5
  -- Step 6: Place Order; the argument `loginResult.user.id` is read first
  let _user ← deref loginResult.user
  let orderResult : OrderResult ← callUndefined
  returnIf (!orderResult.success)
    { success := false, error := some "Order placement failed", step := some "order" }
  -- line 94 reads `orderResult.order.id`
  let _order ← deref orderResult.order
  think 3 6
  -- Step 7: Track Order
  let trackingResult : TrackingResult ← callUndefined
  returnIf (!trackingResult.success)
    { success := false, error := some "Order tracking failed", step := some "tracking" }
  -- line 106 reads `trackingResult.tracking.status`
  let _tracking ← deref trackingResult.tracking
  think 2 4
  -- Step 8: Complete Order Tracking Experience; a failure is only warned about
  let _trackingExperience ←
    step .completeOrderTrackingExperience env.completeOrderTrackingExperience
  -- journeySuccess = true
  pure true

/-- The body of `customerJourney`: the `try` block, the `catch` that resets
`journeySuccess`, and the statements after it (lines 127-135). -/
def customerJourneyBody (env : CustomerEnv) : JsM JourneyResult JourneyResult := do
  let journeyStartTime := env.journeyStartTime
  let journeySuccess ← tryCatch (customerJourneyTry env) (fun _error => pure false)
  let journeyEndTime := env.journeyEndTime
  recordCustomerJourneyMetrics journeyStartTime journeyEndTime journeySuccess
  jsReturn { success := journeySuccess,
             duration := some (journeyEndTime - journeyStartTime),
             timestamp := some env.isoTimestamp }

/-- A call `customerJourney(baseUrl)` in world `w`. -/
def customerJourney (env : CustomerEnv) (w : World) : Except Exn JourneyResult × World :=
  callFn (customerJourneyBody env) w

/-! ## The vendor journey (`vendor-journey.js` lines 14-135) -/

/-- The result of `viewPendingOrders` and of `viewOrders`: `orders` is
`response.json.orders`. -/
structure OrdersResult where
  success : Bool
  orders : Option (List Order)
  deriving DecidableEq, Repr

/-- What the environment decides in one run of `vendorJourney`. -/
structure VendorEnv where
  journeyStartTime : Int
  journeyEndTime : Int
  isoTimestamp : String
  /-- The `Math.random()` of the order selection. -/
  random : ℚ
  vendorLogin : Except Exn LoginResult
  viewPendingOrders : Except Exn OrdersResult
  getOrderDetails : Except Exn OrderResult
  processOrderFlow : Except Exn FlowResult

/-- The statements inside the `try` block of `vendorJourney` (lines 19-119).
Lines 7-8 import `viewOrders` and `acceptOrder` by name, but `view-orders.js`
line 8 and `accept-order.js` line 9 export them only as default: both bindings
are `undefined`. -/
def vendorJourneyTry (env : VendorEnv) : JsM JourneyResult Bool := do
  -- Step 1: Vendor Login
  let loginResult ← step .vendorLogin env.vendorLogin
  returnIf (!loginResult.success)
    { success := false, error := some "Login failed", step := some "login" }
  think 2 5
  -- Step 2: View Pending Orders
  let pendingOrdersResult ← step .viewPendingOrders env.viewPendingOrders
  returnIf (!pendingOrdersResult.success)
    { success := false, error := some "View pending orders failed", step := some "view_orders" }
  let pendingOrders ← deref pendingOrdersResult.orders
  jsWhen (pendingOrders.length = 0) (do
    -- Try viewing all orders instead
    let allOrdersResult : OrdersResult ← callUndefined
    returnIf (!allOrdersResult.success)
      { success := true, message := some "No orders to process", step := some "no_orders" }
    let allOrders ← deref allOrdersResult.orders
    returnIf (allOrders.length = 0)
      { success := true, message := some "No orders to process", step := some "no_orders" })
  think 2 4
  -- Step 3: Select and Process Order
  let ordersToProcess ←
    (if pendingOrders.length > 0 then pure pendingOrders
     else (do
       let reloaded : OrdersResult ← callUndefined
       deref reloaded.orders))
  returnIf (ordersToProcess.length = 0)
    { success := true, message := some "No orders to process", step := some "no_orders" }
  -- line 68: the selected order; line 69 reads `selectedOrder.id`
  let selectedOrder ← deref ordersToProcess[randomIndex env.random ordersToProcess.length]?
  think 1 3
  -- Step 4: Get Order Details
  let orderDetailsResult ← step .getOrderDetails env.getOrderDetails
  returnIf (!orderDetailsResult.success)
    { success := false, error := some "Get order details failed", step := some "order_details" }
  -- line 81 reads `orderDetailsResult.order.total`
  let _order ← deref orderDetailsResult.order
  think 1 2
  -- Step 5: Process Order Flow (if order is pending)
  (if selectedOrder.status = "pending" then (do
     let processResult ← step .processOrderFlow env.processOrderFlow
     returnIf (!processResult.success)
       { success := false, error := some "Order processing failed", step := some "process_order" })
   else (do
     let acceptResult : OrderResult ← callUndefined
     returnIf (!acceptResult.success)
       { success := false, error := some "Order acceptance failed", step := some "accept_order" }))
  think 2 4
  -- Step 6: View Updated Orders; a failure is only warned about
  let _updatedOrdersResult : OrdersResult ← callUndefined
  -- journeySuccess = true
  pure true

/-- The body of `vendorJourney`. -/
def vendorJourneyBody (env : VendorEnv) : JsM JourneyResult JourneyResult := do
  let journeyStartTime := env.journeyStartTime
  let journeySuccess ← tryCatch (vendorJourneyTry env) (fun _error => pure false)
  let journeyEndTime := env.journeyEndTime
  recordVendorJourneyMetrics journeyStartTime journeyEndTime journeySuccess
  jsReturn { success := journeySuccess,
             duration := some (journeyEndTime - journeyStartTime),
             timestamp := some env.isoTimestamp }

/-- A call `vendorJourney(baseUrl)` in world `w`. -/
def vendorJourney (env : VendorEnv) (w : World) : Except Exn JourneyResult × World :=
  callFn (vendorJourneyBody env) w

/-! ## The rider journey (`rider-journey.js` lines 14-139) -/

/-- An element of the `assignments` array. -/
structure Assignment where
  id : Nat
  orderId : Nat
  status : String
  deriving DecidableEq, Repr

/-- The result of `viewAvailableAssignments` and of `viewAssignments`. -/
structure AssignmentsResult where
  success : Bool
  assignments : Option (List Assignment)
  deriving DecidableEq, Repr

/-- The result of `getAssignmentDetails` and of `acceptAssignment`. -/
structure AssignmentResult where
  success : Bool
  assignment : Option Assignment
  deriving DecidableEq, Repr

/-- The result of `updateLocation`. -/
structure LocationResult where
  success : Bool
  deriving DecidableEq, Repr

/-- What the environment decides in one run of `riderJourney`. -/
structure RiderEnv where
  journeyStartTime : Int
  journeyEndTime : Int
  isoTimestamp : String
  /-- The `Math.random()` of the assignment selection. -/
  random : ℚ
  riderLogin : Except Exn LoginResult
  viewAvailableAssignments : Except Exn AssignmentsResult
  getAssignmentDetails : Except Exn AssignmentResult
  completeDeliveryFlow : Except Exn FlowResult
  acceptAssignment : Except Exn AssignmentResult
  updateLocation : Except Exn LocationResult

/-- The statements inside the `try` block of `riderJourney` (lines 19-123).
Line 7 imports `viewAssignments` by name, but `view-assignments.js` line 8
exports it only as default: the binding is `undefined`. -/
def riderJourneyTry (env : RiderEnv) : JsM JourneyResult Bool := do
  -- Step 1: Rider Login
  let loginResult ← step .riderLogin env.riderLogin
  returnIf (!loginResult.success)
    { success := false, error := some "Login failed", step := some "login" }
  think 2 5
  -- Step 2: View Available Assignments
  let availableAssignmentsResult ← step .viewAvailableAssignments env.viewAvailableAssignments
  returnIf (!availableAssignmentsResult.success)
    { success := false, error := some "View assignments failed", step := some "view_assignments" }
  let available ← deref availableAssignmentsResult.assignments
  jsWhen (available.length = 0) (do
    -- Try viewing all assignments instead
    let allAssignmentsResult : AssignmentsResult ← callUndefined
    returnIf (!allAssignmentsResult.success)
      { success := true, message := some "No assignments to process", step := some "no_assignments" }
    let allAssignments ← deref allAssignmentsResult.assignments
    returnIf (allAssignments.length = 0)
      { success := true, message := some "No assignments to process", step := some "no_assignments" })
  think 2 4
  -- Step 3: Select and Process Assignment
  let assignmentsToProcess ←
    (if available.length > 0 then pure available
     else (do
       let reloaded : AssignmentsResult ← callUndefined
       deref reloaded.assignments))
  returnIf (assignmentsToProcess.length = 0)
    { success := true, message := some "No assignments to process", step := some "no_assignments" }
  -- line 68: the selected assignment; line 69 reads `selectedAssignment.id`
  let selectedAssignment ←
    deref assignmentsToProcess[randomIndex env.random assignmentsToProcess.length]?
  think 1 3
  -- Step 4: Get Assignment Details
  let assignmentDetailsResult ← step .getAssignmentDetails env.getAssignmentDetails
  returnIf (!assignmentDetailsResult.success)
    { success := false, error := some "Get assignment details failed", step := some "assignment_details" }
  -- line 81 reads `assignmentDetailsResult.assignment.pickupLocation`
  let _assignment ← deref assignmentDetailsResult.assignment
  think 1 2
  -- Step 5: Complete Delivery Flow (if assignment is available)
  (if selectedAssignment.status = "available" then (do
     let deliveryResult ← step .completeDeliveryFlow env.completeDeliveryFlow
     returnIf (!deliveryResult.success)
       { success := false, error := some "Delivery flow failed", step := some "delivery_flow" })
   else (do
     let acceptResult ← step .acceptAssignment env.acceptAssignment
     returnIf (!acceptResult.success)
       { success := false, error := some "Assignment acceptance failed", step := some "accept_assignment" }))
  think 2 4
  -- Step 6: Update Location; a failure is only warned about
  let _locationUpdateResult ← step .updateLocation env.updateLocation
  -- journeySuccess = true
  pure true

/-- The body of `riderJourney`. -/
def riderJourneyBody (env : RiderEnv) : JsM JourneyResult JourneyResult := do
  let journeyStartTime := env.journeyStartTime
  let journeySuccess ← tryCatch (riderJourneyTry env) (fun _error => pure false)
  let journeyEndTime := env.journeyEndTime
  recordRiderJourneyMetrics journeyStartTime journeyEndTime journeySuccess
  jsReturn { success := journeySuccess,
             duration := some (journeyEndTime - journeyStartTime),
             timestamp := some env.isoTimestamp }

/-- A call `riderJourney(baseUrl)` in world `w`. -/
def riderJourney (env : RiderEnv) (w : World) : Except Exn JourneyResult × World :=
  callFn (riderJourneyBody env) w

/-! ## Binary64 arithmetic

A JavaScript number is an IEEE 754 binary64 value, and every arithmetic
operation returns its exact result rounded to the nearest such value, a tie
going to the value with an even significand.  A finite binary64 value is a
rational `m * 2 ^ (k - 52)` with `|m| < 2 ^ 53` and `-1022 <= k <= 1023`; `fl`
rounds a rational to the nearest of them.  Overflow to `Infinity` is left out:
every number rounded in this development is below `2 ^ 54`. -/

/-- Rounding of a rational to the nearest integer, a tie going to the even
neighbour. -/
def roundHalfEven (a : ℚ) : ℤ :=
  if a - ⌊a⌋ < 1 / 2 then ⌊a⌋
  else if 1 / 2 < a - ⌊a⌋ then ⌊a⌋ + 1
  else if ⌊a⌋ % 2 = 0 then ⌊a⌋ else ⌊a⌋ + 1

/-- The binary64 exponent of a rational: the `k` with `2 ^ k <= |q| < 2 ^ (k + 1)`,
and the least normal exponent `-1022` for zero and for the subnormal range. -/
def binade (q : ℚ) : ℤ := max (Int.log 2 |q|) (-1022)

/-- The spacing of the binary64 values around `q`: a significand has 52 fraction
bits. -/
def ulp (q : ℚ) : ℚ := 2 ^ (binade q - 52)

/-- The binary64 value of a rational: the nearest multiple of the spacing, ties
to even. -/
def fl (q : ℚ) : ℚ := roundHalfEven (q / ulp q) * ulp q

/-! ## The iteration functions of the load tests

`load-test.js` lines 34-76, `stress-test.js` lines 37-79, `spike-test.js` lines
40-82, `smoke-test.js` lines 30-66.  The imported journeys are parameters. -/

/-- A journey as an iteration function sees it: the call returns an object,
returns `undefined` (`none`), or throws. -/
abbrev JourneyFn := World → Except Exn (Option JourneyResult) × World

/-- The constant `CUSTOMER_WEIGHT = 1000 / 1500`, a binary64 quotient. -/
def CUSTOMER_WEIGHT : ℚ := fl (1000 / 1500)

/-- The constant `VENDOR_WEIGHT = 200 / 1500`, a binary64 quotient. -/
def VENDOR_WEIGHT : ℚ := fl (200 / 1500)

/-- The constant `RIDER_WEIGHT = 300 / 1500`, a binary64 quotient. -/
def RIDER_WEIGHT : ℚ := fl (300 / 1500)

/-- The first two predicates of `check(result, {...})`: `r.success === true` and
`r.duration < limit`.  Reading `r.success` of `undefined` throws; a missing
`duration` compares false. -/
def checkJourney {ρ : Type} (result : Option JourneyResult) (durationCheck : String)
    (limit : Int) : JsM ρ JourneyResult := do
  let r ← deref result
  emit (Event.check "journey completed successfully" r.success)
  emit (Event.check durationCheck
    (match r.duration with
     | some d => decide (d < limit)
     | none => false))
  pure r

/-- The third predicate of the load, stress and spike checks:
`r.timestamp !== undefined`. -/
def checkTimestamp {ρ : Type} (r : JourneyResult) : JsM ρ Unit :=
  emit (Event.check "journey has valid timestamp" r.timestamp.isSome)

/-- The weighted choice of a journey, `if (random < CUSTOMER_WEIGHT) ... else if
(random < CUSTOMER_WEIGHT + VENDOR_WEIGHT) ... else ...`; the sum is a binary64
sum. -/
def weightedJourney {ρ : Type} (random : ℚ) (customerJourney vendorJourney riderJourney : JourneyFn) :
    JsM ρ (Option JourneyResult) :=
  if random < CUSTOMER_WEIGHT then invoke customerJourney
  else if random < fl (CUSTOMER_WEIGHT + VENDOR_WEIGHT) then invoke vendorJourney
  else invoke riderJourney

/-- The statement `if (!result.success) console.error(...)` with the message
`result.error || 'Unknown error'`. -/
def reportFailure {ρ : Type} (label : String) (r : JourneyResult) : JsM ρ Unit :=
  jsWhen (!r.success)
    (emit (Event.consoleError (label ++ (match r.error with
      | some e => if e = "" then "Unknown error" else e
      | none => "Unknown error"))))

/-- The default function of `load-test.js`. -/
def loadTestDefault (random : ℚ) (customerJourney vendorJourney riderJourney : JourneyFn) :
    JsM Unit Unit :=
  tryCatch (do
      let result ← weightedJourney random customerJourney vendorJourney riderJourney
      let r ← checkJourney result "journey duration is reasonable" 120000
      checkTimestamp r
      reportFailure "Journey failed: " r)
    (fun _error => emit (Event.consoleError "Load test failed"))

/-- The default function of `stress-test.js`. -/
def stressTestDefault (random : ℚ) (customerJourney vendorJourney riderJourney : JourneyFn) :
    JsM Unit Unit :=
  tryCatch (do
      let result ← weightedJourney random customerJourney vendorJourney riderJourney
      let r ← checkJourney result "journey duration is acceptable under stress" 300000
      checkTimestamp r
      reportFailure "Journey failed under stress: " r)
    (fun _error => emit (Event.consoleError "Stress test failed"))

/-- The default function of `spike-test.js`. -/
def spikeTestDefault (random : ℚ) (customerJourney vendorJourney riderJourney : JourneyFn) :
    JsM Unit Unit :=
  tryCatch (do
      let result ← weightedJourney random customerJourney vendorJourney riderJourney
      let r ← checkJourney result "journey duration is acceptable during spike" 180000
      checkTimestamp r
      reportFailure "Journey failed during spike: " r)
    (fun _error => emit (Event.consoleError "Spike test failed"))

/-- The default function of `smoke-test.js`: the journey is selected by
`__VU % 3`; a `switch` without a matching case leaves `result` undefined. -/
def smokeTestDefault (vu : Nat) (customerJourney vendorJourney riderJourney : JourneyFn) :
    JsM Unit Unit :=
  tryCatch (do
      let result ←
        match vu % 3 with
        | 0 => invoke customerJourney
        | 1 => invoke vendorJourney
        | 2 => invoke riderJourney
        | _ => pure none
      let r ← checkJourney result "journey duration is reasonable" 60000
      reportFailure "Journey failed: " r)
    (fun _error => emit (Event.consoleError "Smoke test failed"))

/-- One iteration of a test: a call of its default function. -/
def iteration (body : JsM Unit Unit) (w : World) : Except Exn Unit × World :=
  callFn body w

/-! ## The token store (`auth.js`) -/

/-- The slot `tokens[userType]`. -/
def Tokens.get (t : Tokens) : UserType → Token
  | .customer => t.customer
  | .vendor => t.vendor
  | .rider => t.rider

/-- The assignment `tokens[userType] = value`. -/
def Tokens.set (t : Tokens) (userType : UserType) (value : Token) : Tokens :=
  match userType with
  | .customer => { t with customer := value }
  | .vendor => { t with vendor := value }
  | .rider => { t with rider := value }

/-- JavaScript truthiness of a slot, as tested by `if (!token)`: `null`,
`undefined` and the empty string are falsy. -/
def truthy : Token → Bool
  | some s => s != ""
  | none => false

/-- What the code reads of an HTTP response: `status`, `body`, `json('token')`,
`json('user')` and `timings.duration`. -/
structure Response where
  status : Nat
  body : String := ""
  token : Token := none
  user : Option User := none
  duration : Int := 0
  /-- The exception that `response.json(...)` throws when the body is empty or not
  a JSON document; `none` when the body parses. -/
  notJson : Option Exn := none
  deriving DecidableEq, Repr

/-- A call `response.json(selector)`: it throws when the body does not parse. -/
def readJson {ρ : Type} (response : Response) : JsM ρ Unit :=
  match response.notJson with
  | some e => jsThrow e
  | none => pure ()

/-- Reads `tokens[userType]`. -/
def getToken {ρ : Type} (userType : UserType) : JsM ρ Token :=
  fun w => (.normal (w.tokens.get userType), w)

/-- Writes `tokens[userType] = value`. -/
def setToken {ρ : Type} (userType : UserType) (value : Token) : JsM ρ Unit :=
  fun w => (.normal (), { w with tokens := w.tokens.set userType value })

/-- Lines 37-55 of `loginCustomer`: the statements that follow the request, for
the response `response`.  The second predicate of the `check` calls
`r.json('token')`. -/
def loginCustomerAfterRequest (response : Response) : JsM LoginResult LoginResult := do
  emit (Event.check "customer login successful" (response.status = 200))
  readJson response
  emit (Event.check "customer login has token" response.token.isSome)
  emit (Event.check "customer login response time < 2000ms" (response.duration < 2000))
  jsWhen (response.status = 200) (do
    setToken .customer response.token
    let stored ← getToken .customer
    jsReturn { token := stored, user := response.user, success := true })
  jsReturn { success := false, error := some response.body }

/-- The body of `loginCustomer` (lines 19-56) from the request on; `response` is
what the server would answer.  Line 35 calls `http.post`, but `auth.js` imports
only `check` and `SharedArray` (lines 1-2).  Lines 20-33 before it build the
payload from the credentials (the arguments, or an entry of the test data);
they send no request and write no token. -/
def loginCustomerBody (response : Response) : JsM LoginResult LoginResult := do
  let response ← httpUnbound response
  emit (Event.http "/auth/customer/login")
  loginCustomerAfterRequest response

/-- Lines 79-97 of `loginVendor`: the statements that follow the request. -/
def loginVendorAfterRequest (response : Response) : JsM LoginResult LoginResult := do
  emit (Event.check "vendor login successful" (response.status = 200))
  readJson response
  emit (Event.check "vendor login has token" response.token.isSome)
  emit (Event.check "vendor login response time < 2000ms" (response.duration < 2000))
  jsWhen (response.status = 200) (do
    setToken .vendor response.token
    let stored ← getToken .vendor
    jsReturn { token := stored, user := response.user, success := true })
  jsReturn { success := false, error := some response.body }

/-- The body of `loginVendor` (lines 61-98) from the request on; line 77 calls
`http.post`. -/
def loginVendorBody (response : Response) : JsM LoginResult LoginResult := do
  let response ← httpUnbound response
  emit (Event.http "/auth/vendor/login")
  loginVendorAfterRequest response

/-- Lines 121-139 of `loginRider`: the statements that follow the request. -/
def loginRiderAfterRequest (response : Response) : JsM LoginResult LoginResult := do
  emit (Event.check "rider login successful" (response.status = 200))
  readJson response
  emit (Event.check "rider login has token" response.token.isSome)
  emit (Event.check "rider login response time < 2000ms" (response.duration < 2000))
  jsWhen (response.status = 200) (do
    setToken .rider response.token
    let stored ← getToken .rider
    jsReturn { token := stored, user := response.user, success := true })
  jsReturn { success := false, error := some response.body }

/-- The body of `loginRider` (lines 103-140) from the request on; line 119 calls
`http.post`. -/
def loginRiderBody (response : Response) : JsM LoginResult LoginResult := do
  let response ← httpUnbound response
  emit (Event.http "/auth/rider/login")
  loginRiderAfterRequest response

/-- A call `loginCustomer(baseUrl, email, password)`. -/
def loginCustomer (response : Response) (w : World) : Except Exn LoginResult × World :=
  callFn (loginCustomerBody response) w

/-- A call `loginVendor(baseUrl, email, password)`. -/
def loginVendor (response : Response) (w : World) : Except Exn LoginResult × World :=
  callFn (loginVendorBody response) w

/-- A call `loginRider(baseUrl, email, password)`. -/
def loginRider (response : Response) (w : World) : Except Exn LoginResult × World :=
  callFn (loginRiderBody response) w

/-- The body of `refreshToken(baseUrl, userType)` (lines 145-172); `response` is
what the server would answer to `/auth/refresh`.  Line 159 calls `http.post`,
but `auth.js` imports only `check` and `SharedArray`. -/
def refreshTokenBody (response : Response) (userType : UserType) : JsM Bool Bool := do
  emit (Event.call .refreshToken)
  let token ← getToken userType
  jsWhen (!truthy token) (do
    emit (Event.consoleError "No token found")
    jsReturn false)
  let response ← httpUnbound response
  emit (Event.http "/auth/refresh")
  emit (Event.check "token refresh successful" (response.status = 200))
  readJson response
  emit (Event.check "token refresh has new token" response.token.isSome)
  jsWhen (response.status = 200) (do
    setToken userType response.token
    jsReturn true)
  jsReturn false

/-- A call `refreshToken(baseUrl, userType)`. -/
def refreshToken (response : Response) (userType : UserType) (w : World) :
    Except Exn Bool × World :=
  callFn (refreshTokenBody response userType) w

/-- The body of `ensureValidToken(baseUrl, userType)` (lines 193-208); `random` is
the value of `Math.random()` and `response` what the server would answer to a
refresh request. -/
def ensureValidTokenBody (random : ℚ) (response : Response) (userType : UserType) :
    JsM Bool Bool := do
  let token ← getToken userType
  returnIf (!truthy token) false
  -- 10% chance to refresh: `Math.random() < 0.1`
  let shouldRefresh : Bool := decide (random < 1 / 10)
  jsWhen shouldRefresh (do
    let refreshed ← invoke (refreshToken response userType)
    jsReturn refreshed)
  jsReturn true

/-- A call `ensureValidToken(baseUrl, userType)`. -/
def ensureValidToken (random : ℚ) (response : Response) (userType : UserType) (w : World) :
    Except Exn Bool × World :=
  callFn (ensureValidTokenBody random response userType) w

/-! ## Vocabulary of the properties -/

/-- The events a call appended to the trace of the world it started in. -/
def newEvents {α : Type} (w : World) (out : α × World) : List Event :=
  out.2.events.drop w.events.length

/-- The `success` flag of the object a journey call returned; `false` when the
call threw. -/
def journeySucceeded (out : Except Exn JourneyResult × World) : Bool :=
  match out.1 with
  | .ok r => r.success
  | .error _ => false

/-- The call returned (it did not throw). -/
def returned {α : Type} : Except Exn α → Bool
  | .ok _ => true
  | .error _ => false

/-- A login call returned `success: true`. -/
def loginSucceeds : Except Exn LoginResult → Bool
  | .ok r => r.success
  | .error _ => false

/-- Browsing returned `success: true` with at least one vendor. -/
def browseSucceeds : Except Exn BrowseResult → Bool
  | .ok r => r.success && (match r.vendors with
      | some vs => decide (0 < vs.length)
      | none => false)
  | .error _ => false

/-- The menu view returned `success: true` with at least one item. -/
def menuSucceeds : Except Exn MenuResult → Bool
  | .ok r => r.success && (match r.menu with
      | some items => decide (0 < items.length)
      | none => false)
  | .error _ => false

/-- Cart building returned `success: true` with at least one cart item. -/
def cartSucceeds : Except Exn CartResult → Bool
  | .ok r => r.success && decide (0 < r.cartItems.length)
  | .error _ => false

/-- The cart review returned `success: true`. -/
def cartReviewSucceeds : Except Exn CartReview → Bool
  | .ok r => r.success
  | .error _ => false

/-- A call returned `success: true` (order placement, order details, acceptance). -/
def orderSucceeds : Except Exn OrderResult → Bool
  | .ok r => r.success
  | .error _ => false

/-- A multi-step flow returned `success: true`. -/
def flowSucceeds : Except Exn FlowResult → Bool
  | .ok r => r.success
  | .error _ => false

/-- An order listing returned `success: true`. -/
def ordersSucceeds : Except Exn OrdersResult → Bool
  | .ok r => r.success
  | .error _ => false

/-- The critical conditions of the customer journey up to the cart review, in
order: login succeeds, browse succeeds with at least one vendor, menu view
succeeds with at least one item, cart building succeeds with at least one cart
item, cart review succeeds. -/
def customerStepsSucceed (env : CustomerEnv) : Bool :=
  loginSucceeds env.customerLogin && browseSucceeds env.browseVendors &&
  menuSucceeds env.viewMenu && cartSucceeds env.buildRealisticCart &&
  cartReviewSucceeds env.getCart

/-- The steps of the vendor journey that precede the final `viewOrders` and
that the journey can call report success: login, the pending-orders listing, the
order details and the order processing flow. -/
def vendorStepsSucceed (env : VendorEnv) : Bool :=
  loginSucceeds env.vendorLogin && ordersSucceeds env.viewPendingOrders &&
  orderSucceeds env.getOrderDetails && flowSucceeds env.processOrderFlow

/-- An assignment listing returned `success: true` with at least one
assignment. -/
def assignmentsAvailable : Except Exn AssignmentsResult → Bool
  | .ok r => r.success && (match r.assignments with
      | some l => decide (0 < l.length)
      | none => false)
  | .error _ => false

/-- The assignment details returned `success: true` with the `assignment`
object. -/
def assignmentDetailsSucceed : Except Exn AssignmentResult → Bool
  | .ok r => r.success && r.assignment.isSome
  | .error _ => false

/-- An assignment acceptance returned `success: true`. -/
def assignmentSucceeds : Except Exn AssignmentResult → Bool
  | .ok r => r.success
  | .error _ => false

/-- The steps of the rider journey that precede the final `updateLocation`
report success (login, the listing of available assignments with at least one
entry, the assignment details, the delivery flow and the acceptance), and the
final `updateLocation` returns. -/
def riderStepsSucceed (env : RiderEnv) : Bool :=
  loginSucceeds env.riderLogin && assignmentsAvailable env.viewAvailableAssignments &&
  assignmentDetailsSucceed env.getAssignmentDetails &&
  flowSucceeds env.completeDeliveryFlow && assignmentSucceeds env.acceptAssignment &&
  returned env.updateLocation

/-- A block that only appends events to the world, throws as soon as a step
raises, and returns early only objects satisfying `P`. -/
def Block {ρ α : Type} (P : ρ → Prop) (x : JsM ρ α) : Prop :=
  ∀ w, ∃ l, (x w).2 = { w with events := w.events ++ l } ∧
    ((∃ s, Event.raised s ∈ l) → ∃ e, (x w).1 = .throw e) ∧
    (∀ r, (x w).1 = .ret r → P r)

/-- The shape of an object returned from inside the `try` block of a journey:
it names a step and has neither `duration` nor `timestamp`. -/
def StepFailure (r : JourneyResult) : Prop :=
  r.step.isSome = true ∧ r.duration = none ∧ r.timestamp = none

/-! ## Concrete runs -/

/-- A customer run in which every step the journey can call succeeds except the
optional tracking experience, which reports `success: false`. -/
def customerEnvOptionalFails : CustomerEnv where
  journeyStartTime := 1000
  journeyEndTime := 61000
  isoTimestamp := "2024-01-01T00:01:01.000Z"
  random := 0
  customerLogin := .ok { success := true, token := some "jwt", user := some { id := 7 } }
  browseVendors := .ok { success := true, vendors := some [{ id := 1, name := "Gabs" }] }
  viewMenu := .ok { success := true, menu := some [{ id := 11 }] }
  buildRealisticCart := .ok { success := true, cartItems := [11] }
  getCart := .ok { success := true, cart := some { total := 25 } }
  completeOrderTrackingExperience :=
    .ok { success := false, steps := [{ step := "initial_tracking", success := false }] }

/-- A customer run whose login returns `{ success: false, error }`. -/
def customerEnvLoginFails : CustomerEnv :=
  { customerEnvOptionalFails with
    customerLogin := .ok { success := false, error := some "Unauthorized" } }

/-- A customer run whose cart review returns `success: false`. -/
def customerEnvCartReviewFails : CustomerEnv :=
  { customerEnvOptionalFails with getCart := .ok { success := false, cart := none } }

/-- A customer run whose menu step throws. -/
def customerEnvMenuThrows : CustomerEnv :=
  { customerEnvOptionalFails with viewMenu := .error "GoError: invalid JSON" }

/-- A vendor run with one pending order whose details and processing flow
succeed. -/
def vendorEnvOptionalFails : VendorEnv where
  journeyStartTime := 1000
  journeyEndTime := 91000
  isoTimestamp := "2024-01-01T00:01:31.000Z"
  random := 0
  vendorLogin := .ok { success := true, token := some "jwt", user := some { id := 3 } }
  viewPendingOrders := .ok { success := true, orders := some [{ id := 501 }] }
  getOrderDetails := .ok { success := true, order := some { id := 501 } }
  processOrderFlow := .ok { success := true, steps := [] }

/-- A vendor run whose login returns `{ success: false, error }`. -/
def vendorEnvLoginFails : VendorEnv :=
  { vendorEnvOptionalFails with
    vendorLogin := .ok { success := false, error := some "Unauthorized" } }

/-- A vendor run whose order-details step throws. -/
def vendorEnvDetailsThrows : VendorEnv :=
  { vendorEnvOptionalFails with getOrderDetails := .error "GoError: invalid JSON" }

/-- A rider run with one available assignment that is delivered; the final
`updateLocation` reports `success: false`. -/
def riderEnvOptionalFails : RiderEnv where
  journeyStartTime := 1000
  journeyEndTime := 121000
  isoTimestamp := "2024-01-01T00:02:01.000Z"
  random := 0
  riderLogin := .ok { success := true, token := some "jwt", user := some { id := 5 } }
  viewAvailableAssignments :=
    .ok { success := true, assignments := some [{ id := 9, orderId := 501, status := "available" }] }
  getAssignmentDetails :=
    .ok { success := true, assignment := some { id := 9, orderId := 501, status := "available" } }
  completeDeliveryFlow := .ok { success := true, steps := [] }
  acceptAssignment :=
    .ok { success := true, assignment := some { id := 9, orderId := 501, status := "active" } }
  updateLocation := .ok { success := false }

/-- A rider run whose login returns `{ success: false, error }`. -/
def riderEnvLoginFails : RiderEnv :=
  { riderEnvOptionalFails with
    riderLogin := .ok { success := false, error := some "Unauthorized" } }

/-- A rider run whose delivery flow throws. -/
def riderEnvDeliveryThrows : RiderEnv :=
  { riderEnvOptionalFails with completeDeliveryFlow := .error "TypeError" }

/-! ## The token store, continued (`auth.js` lines 174-216) -/

/-- A JavaScript object literal: its own keys in insertion order, each with its
value. -/
abbrev JsObject (α : Type) := List (String × α)

/-- The assignment `o[key] = value` on an object: an existing key keeps its
position, a new key is appended. -/
def JsObject.setKey {α : Type} (o : JsObject α) (key : String) (value : α) : JsObject α :=
  if o.any (fun kv => kv.1 == key) then
    o.map (fun kv => if kv.1 == key then (key, value) else kv)
  else o ++ [(key, value)]

/-- The object spread `{ ...a, ...b }`. -/
def JsObject.spread {α : Type} (a b : JsObject α) : JsObject α :=
  b.foldl (fun acc kv => acc.setKey kv.1 kv.2) a

/-- The property read `o[key]`; `none` is `undefined`. -/
def JsObject.get {α : Type} (o : JsObject α) (key : String) : Option α :=
  o.lookup key

/-- Request and response headers. -/
abbrev Headers := JsObject String

/-- The text a token contributes to a template literal. -/
def tokenText : Token → String
  | some s => s
  | none => "null"

/-- The body of `getAuthHeaders(userType)` (lines 177-188). -/
def getAuthHeadersBody (userType : UserType) : JsM Headers Headers := do
  let token ← getToken userType
  jsWhen (!truthy token) (do
    emit (Event.consoleError "No token found")
    jsReturn [])
  jsReturn [("Authorization", "Bearer " ++ tokenText token),
            ("Content-Type", "application/json")]

/-- A call `getAuthHeaders(userType)`. -/
def getAuthHeaders (userType : UserType) (w : World) : Except Exn Headers × World :=
  callFn (getAuthHeadersBody userType) w

/-- The body of `logout(userType)` (lines 213-216). -/
def logoutBody (userType : UserType) : JsM Bool Bool := do
  setToken userType none
  jsReturn true

/-- A call `logout(userType)`. -/
def logout (userType : UserType) (w : World) : Except Exn Bool × World :=
  callFn (logoutBody userType) w

/-! ## The API client (`api-client.js` lines 7-153) -/

/-- The `timings` object of a response. -/
structure Timings where
  duration : Int
  deriving DecidableEq, Repr

/-- What the call `response.json()` does: it returns the parsed document, or it
throws when the body is empty or not a JSON document. -/
inductive JsonCall where
  | parsed (document : String)
  | throws (e : Exn)
  deriving DecidableEq, Repr

/-- What the client reads of an HTTP response: `status`, `body` (`none` is
`undefined`), the call `json()`, `headers` and `timings`. -/
structure HttpResponse where
  status : Nat
  body : Option String := none
  json : JsonCall
  headers : Headers := []
  timings : Timings := { duration := 0 }
  deriving DecidableEq, Repr

/-- A request handed to `http.get`, `http.post`, `http.put`, `http.patch` or
`http.del`. -/
structure HttpRequest where
  method : String
  url : String
  headers : Headers
  body : Option String := none
  deriving DecidableEq, Repr

/-- The `params` argument of a client method, as far as the request is
concerned: its `headers` key, when it has one. -/
structure RequestParams where
  headers : Option Headers := none
  deriving DecidableEq, Repr

/-- The object returned by `handleResponse`. -/
structure ApiResult where
  status : Nat
  body : Option String
  json : String
  headers : Headers
  timings : Timings
  success : Bool
  deriving DecidableEq, Repr

/-- What the environment decides for one client call: the draw used by
`ensureValidToken`, and what the server would answer to a refresh request and to
each request of the client. -/
structure ApiEnv where
  random : ℚ
  refreshResponse : Response
  http : HttpRequest → HttpResponse

/-- The body of `handleResponse(response, method, endpoint)` (lines 128-152).  The
object literal of the `return` statement calls `response.json()` (line 147). -/
def handleResponseBody (response : HttpResponse) (method endpoint : String) :
    JsM ApiResult ApiResult := do
  emit (Event.check (method ++ " " ++ endpoint ++ " status check")
    (decide (response.status ≥ 200) && decide (response.status < 300)))
  emit (Event.check (method ++ " " ++ endpoint ++ " response time")
    (decide (response.timings.duration < 5000)))
  emit (Event.check (method ++ " " ++ endpoint ++ " has body") response.body.isSome)
  -- Log errors for debugging
  jsWhen (decide (response.status ≥ 400))
    (emit (Event.consoleError (method ++ " " ++ endpoint ++ " failed:")))
  let json ←
    (match response.json with
     | .parsed document => pure document
     | .throws e => jsThrow e)
  jsReturn { status := response.status,
             body := response.body,
             json := json,
             headers := response.headers,
             timings := response.timings,
             success := decide (response.status ≥ 200) && decide (response.status < 300) }

/-- A call `this.handleResponse(response, method, endpoint)`. -/
def handleResponse (response : HttpResponse) (method endpoint : String) (w : World) :
    Except Exn ApiResult × World :=
  callFn (handleResponseBody response method endpoint) w

/-- The first statements of every client method (lines 16-21, 35-40, 60-65,
85-90, 110-115): `let headers = { 'Content-Type': 'application/json' }` and, when
a `userType` is given, `ensureValidToken(...)` followed by
`headers = { ...headers, ...getAuthHeaders(userType) }`. -/
def requestHeaders {ρ : Type} (env : ApiEnv) (userType : Option UserType) : JsM ρ Headers :=
  match userType with
  | some u => do
    let _valid ← invoke (ensureValidToken env.random env.refreshResponse u)
    let auth ← invoke (getAuthHeaders u)
    pure (JsObject.spread [("Content-Type", "application/json")] auth)
  | none => pure [("Content-Type", "application/json")]

/-- The object `{ headers, ...params }`: a `headers` key of `params` replaces the
computed headers. -/
def withParams (headers : Headers) (params : RequestParams) : Headers :=
  match params.headers with
  | some h => h
  | none => headers

/-- The request body of `post`, `put` and `patch`: set only for a truthy
payload. -/
def requestBody (payload : Option String) : Option String :=
  if truthy payload then payload else none

/-- The body of `get(endpoint, userType, params)` (lines 15-29).  Line 23 calls
`http.get`, but `api-client.js` imports only `check`, `getAuthHeaders` and
`ensureValidToken` (lines 1-2); the same holds for `http.post`, `http.put`,
`http.patch` and `http.del` in the other four methods. -/
def ApiClient.getBody (env : ApiEnv) (baseUrl endpoint : String) (userType : Option UserType)
    (params : RequestParams) : JsM ApiResult ApiResult := do
  let headers ← requestHeaders env userType
  let response ← httpUnbound (env.http
    { method := "GET", url := baseUrl ++ endpoint, headers := withParams headers params })
  let result ← invoke (handleResponse response "GET" endpoint)
  jsReturn result

/-- The body of `post(endpoint, payload, userType, params)` (lines 34-54). -/
def ApiClient.postBody (env : ApiEnv) (baseUrl endpoint : String) (payload : Option String)
    (userType : Option UserType) (params : RequestParams) : JsM ApiResult ApiResult := do
  let headers ← requestHeaders env userType
  let response ← httpUnbound (env.http
    { method := "POST", url := baseUrl ++ endpoint, headers := withParams headers params,
      body := requestBody payload })
  let result ← invoke (handleResponse response "POST" endpoint)
  jsReturn result

/-- The body of `put(endpoint, payload, userType, params)` (lines 59-79). -/
def ApiClient.putBody (env : ApiEnv) (baseUrl endpoint : String) (payload : Option String)
    (userType : Option UserType) (params : RequestParams) : JsM ApiResult ApiResult := do
  let headers ← requestHeaders env userType
  let response ← httpUnbound (env.http
    { method := "PUT", url := baseUrl ++ endpoint, headers := withParams headers params,
      body := requestBody payload })
  let result ← invoke (handleResponse response "PUT" endpoint)
  jsReturn result

/-- The body of `patch(endpoint, payload, userType, params)` (lines 84-104). -/
def ApiClient.patchBody (env : ApiEnv) (baseUrl endpoint : String) (payload : Option String)
    (userType : Option UserType) (params : RequestParams) : JsM ApiResult ApiResult := do
  let headers ← requestHeaders env userType
  let response ← httpUnbound (env.http
    { method := "PATCH", url := baseUrl ++ endpoint, headers := withParams headers params,
      body := requestBody payload })
  let result ← invoke (handleResponse response "PATCH" endpoint)
  jsReturn result

/-- The body of `delete(endpoint, userType, params)` (lines 109-123). -/
def ApiClient.deleteBody (env : ApiEnv) (baseUrl endpoint : String)
    (userType : Option UserType) (params : RequestParams) : JsM ApiResult ApiResult := do
  let headers ← requestHeaders env userType
  let response ← httpUnbound (env.http
    { method := "DELETE", url := baseUrl ++ endpoint, headers := withParams headers params })
  let result ← invoke (handleResponse response "DELETE" endpoint)
  jsReturn result

/-- A call `client.get(endpoint, userType, params)`. -/
def ApiClient.get (env : ApiEnv) (baseUrl endpoint : String) (userType : Option UserType)
    (params : RequestParams) (w : World) : Except Exn ApiResult × World :=
  callFn (ApiClient.getBody env baseUrl endpoint userType params) w

/-- A call `client.post(endpoint, payload, userType, params)`. -/
def ApiClient.post (env : ApiEnv) (baseUrl endpoint : String) (payload : Option String)
    (userType : Option UserType) (params : RequestParams) (w : World) :
    Except Exn ApiResult × World :=
  callFn (ApiClient.postBody env baseUrl endpoint payload userType params) w

/-- A call `client.put(endpoint, payload, userType, params)`. -/
def ApiClient.put (env : ApiEnv) (baseUrl endpoint : String) (payload : Option String)
    (userType : Option UserType) (params : RequestParams) (w : World) :
    Except Exn ApiResult × World :=
  callFn (ApiClient.putBody env baseUrl endpoint payload userType params) w

/-- A call `client.patch(endpoint, payload, userType, params)`. -/
def ApiClient.patch (env : ApiEnv) (baseUrl endpoint : String) (payload : Option String)
    (userType : Option UserType) (params : RequestParams) (w : World) :
    Except Exn ApiResult × World :=
  callFn (ApiClient.patchBody env baseUrl endpoint payload userType params) w

/-- A call `client.delete(endpoint, userType, params)`. -/
def ApiClient.delete (env : ApiEnv) (baseUrl endpoint : String) (userType : Option UserType)
    (params : RequestParams) (w : World) : Except Exn ApiResult × World :=
  callFn (ApiClient.deleteBody env baseUrl endpoint userType params) w

/-- A 204 response: no body, so `response.json()` throws. -/
def responseNoContent : HttpResponse where
  status := 204
  body := some ""
  json := .throws "GoError: unexpected end of JSON input"

/-! ## Thresholds (`metrics.js` lines 3-25 and 120-182) -/

/-- The kinds of k6 metric. -/
inductive MetricKind where
  | rate | trend | counter
  deriving DecidableEq, Repr

/-- The custom metrics declared in `metrics.js` lines 3-25, by name. -/
def declaredMetrics : List (String × MetricKind) :=
  [("order_success_rate", .rate),
   ("login_success_rate", .rate),
   ("delivery_completion_rate", .rate),
   ("customer_journey_time", .trend),
   ("vendor_journey_time", .trend),
   ("rider_journey_time", .trend),
   ("auth_response_time", .trend),
   ("vendor_browse_time", .trend),
   ("menu_load_time", .trend),
   ("order_placement_time", .trend),
   ("order_tracking_time", .trend),
   ("orders_placed", .counter),
   ("orders_accepted", .counter),
   ("deliveries_completed", .counter),
   ("menu_views", .counter),
   ("vendor_browses", .counter)]

/-- The k6 built-in metrics the thresholds name: `http_req_duration` is a Trend,
`http_req_failed` a Rate. -/
def builtinMetrics : List (String × MetricKind) :=
  [("http_req_duration", .trend), ("http_req_failed", .rate)]

/-- The kind of the metric registered under a name, built-in or declared. -/
def metricKind (name : String) : Option MetricKind :=
  (builtinMetrics ++ declaredMetrics).lookup name

/-- The aggregate a threshold expression reads: `rate`, `p(95)` or `p(99)`. -/
inductive Stat where
  | rate | p95 | p99
  deriving DecidableEq, Repr

/-- The comparison of a threshold expression. -/
inductive Cmp where
  | lt | gt
  deriving DecidableEq, Repr

/-- A threshold expression: `'p(95)<2000'` is `⟨.p95, .lt, 2000⟩`, `'rate>0.95'`
is `⟨.rate, .gt, 95 / 100⟩`. -/
structure ThresholdExpr where
  stat : Stat
  cmp : Cmp
  bound : ℚ
  deriving DecidableEq, Repr

/-- The object `baseThresholds` of `getThresholds` (lines 124-144). -/
def baseThresholds : JsObject (List ThresholdExpr) :=
  [("http_req_duration", [⟨.p95, .lt, 2000⟩, ⟨.p99, .lt, 5000⟩]),
   ("http_req_failed", [⟨.rate, .lt, 5 / 100⟩]),
   ("order_success_rate", [⟨.rate, .gt, 95 / 100⟩]),
   ("login_success_rate", [⟨.rate, .gt, 98 / 100⟩]),
   ("delivery_completion_rate", [⟨.rate, .gt, 90 / 100⟩]),
   ("customer_journey_time", [⟨.p95, .lt, 30000⟩]),
   ("vendor_journey_time", [⟨.p95, .lt, 15000⟩]),
   ("rider_journey_time", [⟨.p95, .lt, 20000⟩]),
   ("auth_response_time", [⟨.p95, .lt, 2000⟩]),
   ("vendor_browse_time", [⟨.p95, .lt, 3000⟩]),
   ("menu_load_time", [⟨.p95, .lt, 2000⟩]),
   ("order_placement_time", [⟨.p95, .lt, 5000⟩]),
   ("order_tracking_time", [⟨.p95, .lt, 2000⟩])]

/-- The function `getThresholds(testType = 'load')` (lines 123-182); `none` is an
omitted argument.  Each case returns `{ ...baseThresholds, key: value, ... }`. -/
def getThresholds (testTypeArg : Option String) : JsObject (List ThresholdExpr) :=
  let testType := testTypeArg.getD "load"
  if testType = "smoke" then
    JsObject.spread baseThresholds
      [("http_req_duration", [⟨.p95, .lt, 1000⟩, ⟨.p99, .lt, 2000⟩]),
       ("customer_journey_time", [⟨.p95, .lt, 15000⟩]),
       ("vendor_journey_time", [⟨.p95, .lt, 10000⟩]),
       ("rider_journey_time", [⟨.p95, .lt, 12000⟩])]
  else if testType = "stress" then
    JsObject.spread baseThresholds
      [("http_req_duration", [⟨.p95, .lt, 5000⟩, ⟨.p99, .lt, 10000⟩]),
       ("http_req_failed", [⟨.rate, .lt, 10 / 100⟩]),
       ("order_success_rate", [⟨.rate, .gt, 85 / 100⟩]),
       ("customer_journey_time", [⟨.p95, .lt, 60000⟩]),
       ("vendor_journey_time", [⟨.p95, .lt, 30000⟩]),
       ("rider_journey_time", [⟨.p95, .lt, 40000⟩])]
  else if testType = "spike" then
    JsObject.spread baseThresholds
      [("http_req_duration", [⟨.p95, .lt, 3000⟩, ⟨.p99, .lt, 8000⟩]),
       ("http_req_failed", [⟨.rate, .lt, 8 / 100⟩]),
       ("customer_journey_time", [⟨.p95, .lt, 45000⟩]),
       ("vendor_journey_time", [⟨.p95, .lt, 20000⟩]),
       ("rider_journey_time", [⟨.p95, .lt, 25000⟩])]
  else baseThresholds

/-- The keys of an object, in order. -/
def JsObject.keys {α : Type} (o : JsObject α) : List String := o.map Prod.fst

/-- One entry of a threshold table refers to an existing metric of the right
kind: its name is a built-in or a declared Rate or Trend, a `rate` expression
sits on a Rate and a `p(95)`/`p(99)` expression on a Trend. -/
def entryWellFormed (entry : String × List ThresholdExpr) : Prop :=
  (metricKind entry.1 = some .rate ∧ ∀ e ∈ entry.2, e.stat = .rate) ∨
  (metricKind entry.1 = some .trend ∧ ∀ e ∈ entry.2, e.stat = .p95 ∨ e.stat = .p99)

instance (entry : String × List ThresholdExpr) : Decidable (entryWellFormed entry) := by
  unfold entryWellFormed
  infer_instance

/-- The keys the `smoke` case replaces. -/
def smokeKeys : List String :=
  ["http_req_duration", "customer_journey_time", "vendor_journey_time", "rider_journey_time"]

/-- The keys the `stress` case replaces. -/
def stressKeys : List String :=
  ["http_req_duration", "http_req_failed", "order_success_rate", "customer_journey_time",
   "vendor_journey_time", "rider_journey_time"]

/-- The keys the `spike` case replaces. -/
def spikeKeys : List String :=
  ["http_req_duration", "http_req_failed", "customer_journey_time", "vendor_journey_time",
   "rider_journey_time"]

/-- The entries of a table whose key is not among `keys`. -/
def JsObject.without {α : Type} (o : JsObject α) (keys : List String) : JsObject α :=
  o.filter (fun kv => !keys.contains kv.1)
/-! ## The performance grade (`metrics.js` lines 187-253) -/

/-- The numeric fields of the report built by `generatePerformanceReport`. -/
structure Report where
  testDuration : ℚ := 0
  totalRequests : ℚ := 0
  totalErrors : ℚ := 0
  errorRate : ℚ
  avgResponseTime : ℚ := 0
  p95ResponseTime : ℚ
  p99ResponseTime : ℚ := 0
  requestsPerSecond : ℚ := 0
  orderSuccessRate : ℚ
  loginSuccessRate : ℚ
  deliveryCompletionRate : ℚ
  avgCustomerJourneyTime : ℚ
  avgVendorJourneyTime : ℚ
  avgRiderJourneyTime : ℚ
  ordersPlaced : ℚ := 0
  ordersAccepted : ℚ := 0
  deliveriesCompleted : ℚ := 0
  menuViews : ℚ := 0
  vendorBrowses : ℚ := 0

/-- The grades `'A'`, `'B'`, `'C'`, `'D'`, `'F'`. -/
inductive Grade where
  | A | B | C | D | F
  deriving DecidableEq, Repr

/-- The score computed by `assessPerformance` (lines 228-245). -/
def performanceScore (report : Report) : Int :=
  let score : Int := 100
  -- Deduct points for high error rates
  let score := if report.errorRate > 5 then score - 20
    else if report.errorRate > 2 then score - 10 else score
  -- Deduct points for slow response times
  let score := if report.p95ResponseTime > 5000 then score - 20
    else if report.p95ResponseTime > 3000 then score - 10 else score
  -- Deduct points for low business success rates
  let score := if report.orderSuccessRate < 90 then score - 15 else score
  let score := if report.loginSuccessRate < 95 then score - 10 else score
  let score := if report.deliveryCompletionRate < 85 then score - 10 else score
  -- Deduct points for slow journey times
  let score := if report.avgCustomerJourneyTime > 45000 then score - 10 else score
  let score := if report.avgVendorJourneyTime > 20000 then score - 5 else score
  let score := if report.avgRiderJourneyTime > 25000 then score - 5 else score
  score

/-- The function `assessPerformance(report)` (lines 227-253). -/
def assessPerformance (report : Report) : Grade :=
  let score := performanceScore report
  if score ≥ 90 then .A
  else if score ≥ 80 then .B
  else if score ≥ 70 then .C
  else if score ≥ 60 then .D
  else .F

/-- A report with no deduction. -/
def reportBest : Report where
  errorRate := 0
  p95ResponseTime := 100
  orderSuccessRate := 100
  loginSuccessRate := 100
  deliveryCompletionRate := 100
  avgCustomerJourneyTime := 20000
  avgVendorJourneyTime := 10000
  avgRiderJourneyTime := 10000

/-- The report `reportBest` with the three journey times above their limits. -/
def reportSlowJourneys : Report :=
  { reportBest with
    avgCustomerJourneyTime := 50000
    avgVendorJourneyTime := 25000
    avgRiderJourneyTime := 30000 }

/-! ## Think time (`data-generator.js` lines 225-227) -/

/-- The function `generateDelay(minSeconds, maxSeconds)`, in milliseconds:
`(Math.random() * (maxSeconds - minSeconds) + minSeconds) * 1000`, each of the
four operations rounded to binary64; `random` is the value of `Math.random()`. -/
def generateDelay (random minSeconds maxSeconds : ℚ) : ℚ :=
  fl (fl (fl (random * fl (maxSeconds - minSeconds)) + minSeconds) * 1000)

/-- The call `generateDelay()` with the defaults `minSeconds = 1`,
`maxSeconds = 5`. -/
def generateDelayDefault (random : ℚ) : ℚ := generateDelay random 1 5

/-! ## Ramp profiles (`options.stages` of the four load tests) -/

/-- A k6 duration literal: `'30s'` or `'2m'`. -/
inductive Duration where
  | s (n : Nat)
  | m (n : Nat)
  deriving DecidableEq, Repr

/-- The length of a duration in seconds. -/
def Duration.seconds : Duration → Nat
  | .s n => n
  | .m n => 60 * n

/-- One stage `{ duration, target }`. -/
structure Stage where
  duration : Duration
  target : Int
  deriving DecidableEq, Repr

/-- The stages of `smoke-test.js` lines 16-20. -/
def smokeStages : List Stage :=
  [⟨.s 30, 5⟩, ⟨.m 1, 10⟩, ⟨.s 30, 0⟩]

/-- The stages of `load-test.js` lines 16-30. -/
def loadStages : List Stage :=
  [⟨.m 2, 150⟩, ⟨.m 3, 500⟩, ⟨.m 3, 1000⟩, ⟨.m 2, 1500⟩,
   ⟨.m 10, 1500⟩,
   ⟨.m 2, 1000⟩, ⟨.m 2, 500⟩, ⟨.m 1, 0⟩]

/-- The stages of `stress-test.js` lines 16-33. -/
def stressStages : List Stage :=
  [⟨.m 2, 1000⟩,
   ⟨.m 3, 2000⟩, ⟨.m 3, 3000⟩, ⟨.m 3, 4000⟩, ⟨.m 2, 5000⟩,
   ⟨.m 5, 5000⟩,
   ⟨.m 3, 2000⟩, ⟨.m 2, 1000⟩, ⟨.m 1, 0⟩]

/-- The stages of `spike-test.js` lines 19-36. -/
def spikeStages : List Stage :=
  [⟨.m 1, 500⟩,
   ⟨.s 30, 2000⟩, ⟨.m 1, 2000⟩, ⟨.s 30, 500⟩,
   ⟨.m 1, 500⟩,
   ⟨.s 30, 3000⟩, ⟨.m 1, 3000⟩, ⟨.s 30, 500⟩,
   ⟨.m 1, 500⟩, ⟨.s 30, 0⟩]

/-- The largest target of a profile. -/
def peakTarget (stages : List Stage) : Int :=
  stages.foldl (fun peak stage => max peak stage.target) 0

/-- A profile is well formed: it is non-empty, every duration is positive, every
target is non-negative and the last stage has target 0. -/
def wellFormedProfile (stages : List Stage) : Prop :=
  stages ≠ [] ∧ (∀ stage ∈ stages, 0 < stage.duration.seconds ∧ 0 ≤ stage.target) ∧
  (stages.getLast?.map Stage.target) = some 0

instance (stages : List Stage) : Decidable (wellFormedProfile stages) := by
  unfold wellFormedProfile
  infer_instance

/-! ## Metric recording (`metrics.js` lines 30-37 and 84-118) -/

/-- The function `recordAuthMetrics(response, userType, success)`; `duration` is
`response.timings.duration`. -/
def recordAuthMetrics (duration : Int) (_userType : UserType) (success : Bool) (m : Metrics) :
    Metrics :=
  { m with
    loginSuccessRate := m.loginSuccessRate ++ [success]
    authResponseTime := m.authResponseTime ++ [duration] }

/-- The function `recordOrderMetrics(response, action, success)`: a `switch` on
`action` without a default case. -/
def recordOrderMetrics (duration : Int) (action : String) (success : Bool) (m : Metrics) :
    Metrics :=
  if action = "place" then
    let m1 := { m with
      orderSuccessRate := m.orderSuccessRate ++ [success]
      orderPlacementTime := m.orderPlacementTime ++ [duration] }
    if success then { m1 with ordersPlaced := m1.ordersPlaced + 1 } else m1
  else if action = "accept" then
    { m with ordersAccepted := m.ordersAccepted + 1 }
  else if action = "track" then
    { m with orderTrackingTime := m.orderTrackingTime ++ [duration] }
  else if action = "deliver" then
    let m1 := { m with deliveryCompletionRate := m.deliveryCompletionRate ++ [success] }
    if success then { m1 with deliveriesCompleted := m1.deliveriesCompleted + 1 } else m1
  else m

/-- The function `recordBrowsingMetrics(response, action)`. -/
def recordBrowsingMetrics (duration : Int) (action : String) (m : Metrics) : Metrics :=
  if action = "vendors" then
    { m with
      vendorBrowseTime := m.vendorBrowseTime ++ [duration]
      vendorBrowses := m.vendorBrowses + 1 }
  else if action = "menu" then
    { m with
      menuLoadTime := m.menuLoadTime ++ [duration]
      menuViews := m.menuViews + 1 }
  else m

/-- One metric-recording call with its arguments. -/
inductive MetricCall where
  | auth (duration : Int) (userType : UserType) (success : Bool)
  | order (duration : Int) (action : String) (success : Bool)
  | browsing (duration : Int) (action : String)
  deriving DecidableEq, Repr

/-- The effect of one recording call on the metrics. -/
def MetricCall.apply (m : Metrics) : MetricCall → Metrics
  | .auth duration userType success => recordAuthMetrics duration userType success m
  | .order duration action success => recordOrderMetrics duration action success m
  | .browsing duration action => recordBrowsingMetrics duration action m

/-- The metrics after a sequence of recording calls. -/
def runCalls (m : Metrics) (calls : List MetricCall) : Metrics :=
  calls.foldl MetricCall.apply m

/-- No Counter of `m1` is above the same Counter of `m2`. -/
def countersLe (m1 m2 : Metrics) : Prop :=
  m1.ordersPlaced ≤ m2.ordersPlaced ∧ m1.ordersAccepted ≤ m2.ordersAccepted ∧
  m1.deliveriesCompleted ≤ m2.deliveriesCompleted ∧ m1.menuViews ≤ m2.menuViews ∧
  m1.vendorBrowses ≤ m2.vendorBrowses

/-- The counters of orders placed and deliveries completed equal the numbers of
`true` samples of their rates. -/
def CountersMatchRates (m : Metrics) : Prop :=
  m.ordersPlaced = m.orderSuccessRate.count true ∧
  m.deliveriesCompleted = m.deliveryCompletionRate.count true

/-! ## Journey selection by weight (`load-test.js` lines 34-60) -/

/-- A journey that only leaves the trace of its login call and returns a
successful result; used to observe which journey an iteration runs. -/
def markedJourney (login : StepName) : JourneyFn := fun w =>
  (.ok (some { success := true, duration := some 0, timestamp := some "t" }),
   { w with events := w.events ++ [Event.call login] })

/-- The step functions called in a run, in order. -/
def callsOf (events : List Event) : List StepName :=
  events.filterMap (fun e =>
    match e with
    | .call s => some s
    | _ => none)

/-! ## The grade order -/

/-- The position of a grade in the order `A > B > C > D > F`. -/
def Grade.rank : Grade → Nat
  | .A => 4
  | .B => 3
  | .C => 2
  | .D => 1
  | .F => 0

/-- The report `r2` is no better than `r1` in every graded field. -/
def noBetter (r1 r2 : Report) : Prop :=
  r1.errorRate ≤ r2.errorRate ∧ r1.p95ResponseTime ≤ r2.p95ResponseTime ∧
  r1.avgCustomerJourneyTime ≤ r2.avgCustomerJourneyTime ∧
  r1.avgVendorJourneyTime ≤ r2.avgVendorJourneyTime ∧
  r1.avgRiderJourneyTime ≤ r2.avgRiderJourneyTime ∧
  r2.orderSuccessRate ≤ r1.orderSuccessRate ∧ r2.loginSuccessRate ≤ r1.loginSuccessRate ∧
  r2.deliveryCompletionRate ≤ r1.deliveryCompletionRate

/-! ## The performance report (`metrics.js` lines 187-222 and 258-286) -/

/-- The `values` of a Trend in the k6 summary. -/
structure TrendValues where
  avg : ℚ
  p95 : ℚ
  p99 : ℚ

/-- What `generatePerformanceReport` reads of the k6 summary `data`.  The HTTP
metrics are present; a custom metric that the summary lacks is `none`. -/
structure Summary where
  /-- The field `data.state.testRunDuration`. -/
  testRunDuration : ℚ
  /-- The field `data.metrics.http_reqs.values.count`. -/
  httpReqsCount : ℚ
  /-- The field `data.metrics.http_reqs.values.rate`. -/
  httpReqsRate : ℚ
  /-- The field `data.metrics.http_req_failed.values.rate`. -/
  httpReqFailedRate : ℚ
  /-- The field `data.metrics.http_req_duration.values`. -/
  httpReqDuration : TrendValues
  /-- The field `data.metrics.order_success_rate.values.rate`. -/
  orderSuccessRate : Option ℚ := none
  loginSuccessRate : Option ℚ := none
  deliveryCompletionRate : Option ℚ := none
  /-- The field `data.metrics.customer_journey_time.values.avg`. -/
  customerJourneyTimeAvg : Option ℚ := none
  vendorJourneyTimeAvg : Option ℚ := none
  riderJourneyTimeAvg : Option ℚ := none
  /-- The field `data.metrics.orders_placed.values.count`. -/
  ordersPlaced : Option ℚ := none
  ordersAccepted : Option ℚ := none
  deliveriesCompleted : Option ℚ := none
  menuViews : Option ℚ := none
  vendorBrowses : Option ℚ := none

/-- The expression `metric ? metric.values.x * factor : 0`. -/
def valueOrZero (metric : Option ℚ) (factor : ℚ) : ℚ :=
  match metric with
  | some x => x * factor
  | none => 0

/-- The function `generateRecommendations(report)` (lines 258-286). -/
def generateRecommendations (report : Report) : List String :=
  let recommendations : List String := []
  let recommendations :=
    if report.errorRate > 5 then
      recommendations ++
        ["High error rate detected. Investigate server errors and API failures."]
    else recommendations
  let recommendations :=
    if report.p95ResponseTime > 5000 then
      recommendations ++
        ["Slow response times detected. Consider database optimization and caching."]
    else recommendations
  let recommendations :=
    if report.orderSuccessRate < 90 then
      recommendations ++
        ["Low order success rate. Review order placement flow and payment processing."]
    else recommendations
  let recommendations :=
    if report.loginSuccessRate < 95 then
      recommendations ++
        ["Authentication issues detected. Review login flow and token management."]
    else recommendations
  let recommendations :=
    if report.avgCustomerJourneyTime > 45000 then
      recommendations ++
        ["Customer journey is too slow. Optimize UI/UX and reduce API calls."]
    else recommendations
  let recommendations :=
    if recommendations.length = 0 then
      recommendations ++ ["Performance is within acceptable limits. Continue monitoring."]
    else recommendations
  recommendations

/-- The object returned by `generatePerformanceReport`: the numeric fields, the
grade and the recommendations. -/
structure PerformanceReport where
  report : Report
  performanceGrade : Grade
  recommendations : List String

/-- The numeric fields of the report (lines 188-214). -/
def reportOf (data : Summary) : Report where
  testDuration := data.testRunDuration
  totalRequests := data.httpReqsCount
  totalErrors := data.httpReqFailedRate * data.httpReqsCount
  errorRate := data.httpReqFailedRate * 100
  avgResponseTime := data.httpReqDuration.avg
  p95ResponseTime := data.httpReqDuration.p95
  p99ResponseTime := data.httpReqDuration.p99
  requestsPerSecond := data.httpReqsRate
  orderSuccessRate := valueOrZero data.orderSuccessRate 100
  loginSuccessRate := valueOrZero data.loginSuccessRate 100
  deliveryCompletionRate := valueOrZero data.deliveryCompletionRate 100
  avgCustomerJourneyTime := valueOrZero data.customerJourneyTimeAvg 1
  avgVendorJourneyTime := valueOrZero data.vendorJourneyTimeAvg 1
  avgRiderJourneyTime := valueOrZero data.riderJourneyTimeAvg 1
  ordersPlaced := valueOrZero data.ordersPlaced 1
  ordersAccepted := valueOrZero data.ordersAccepted 1
  deliveriesCompleted := valueOrZero data.deliveriesCompleted 1
  menuViews := valueOrZero data.menuViews 1
  vendorBrowses := valueOrZero data.vendorBrowses 1

/-- The function `generatePerformanceReport(data)` (lines 187-222). -/
def generatePerformanceReport (data : Summary) : PerformanceReport :=
  let report := reportOf data
  { report := report
    performanceGrade := assessPerformance report
    recommendations := generateRecommendations report }

/-- The five conditions of `generateRecommendations` with their messages, in
order. -/
def recommendationRules (report : Report) : List (Bool × String) :=
  [(decide (report.errorRate > 5),
      "High error rate detected. Investigate server errors and API failures."),
   (decide (report.p95ResponseTime > 5000),
      "Slow response times detected. Consider database optimization and caching."),
   (decide (report.orderSuccessRate < 90),
      "Low order success rate. Review order placement flow and payment processing."),
   (decide (report.loginSuccessRate < 95),
      "Authentication issues detected. Review login flow and token management."),
   (decide (report.avgCustomerJourneyTime > 45000),
      "Customer journey is too slow. Optimize UI/UX and reduce API calls.")]

/-- The messages of the conditions that hold, in order. -/
def messagesThatApply (report : Report) : List String :=
  ((recommendationRules report).filter (fun rule => rule.1)).map (fun rule => rule.2)

/-- A summary with the HTTP metrics only: 1% errors, p95 of 800 ms. -/
def summaryHttpOnly : Summary where
  testRunDuration := 600000
  httpReqsCount := 1000
  httpReqsRate := 5 / 3
  httpReqFailedRate := 1 / 100
  httpReqDuration := { avg := 300, p95 := 800, p99 := 1500 }

/-! ## The multi-step flows

`accept-order.js` lines 9-129, `update-status.js` lines 9-189 and
`track-order.js` lines 9-221.  The environment fixes the outcome of every client
call; the k6 checks of the scenario functions only record pass or fail and are
left out.  The three modules import only `check` from `k6` (line 1 of each) and
call `sleep` all the same.  Of a step entry the model keeps `step` and
`success`: the entries' `status` and `hasLocation` fields are guarded reads and
`location` is the generated request payload, none of which can throw, while
`historyCount` and `notificationCount` read the `length` of an array that may be
missing. -/

/-- What a scenario function reads of the object a client call returned:
`success`, `timings.duration`, and `json` with the one field the function
extracts.  The outer `none` is a falsy `json`, the inner `none` a document
without that field. -/
structure Reply (α : Type) where
  success : Bool
  duration : Int := 0
  json : Option (Option α) := none

/-- The expression `response.json ? response.json.field : fallback`. -/
def fieldOr {α : Type} (json : Option (Option α)) (fallback : Option α) : Option α :=
  match json with
  | some field => field
  | none => fallback

/-- A client call: the request is traced, then the call returns or throws as
the environment decides. -/
def apiCall {ρ α : Type} (endpoint : String) (outcome : Except Exn α) : JsM ρ α := fun w =>
  match outcome with
  | .ok a => (.normal a, { w with events := w.events ++ [Event.http endpoint] })
  | .error e => (.throw e, { w with events := w.events ++ [Event.http endpoint] })

/-- Applies a recording function to the metrics. -/
def modifyMetrics {ρ : Type} (f : Metrics → Metrics) : JsM ρ Unit :=
  fun w => (.normal (), { w with metrics := f w.metrics })

/-- The vendor scenario `acceptOrder(baseUrl, orderId)` (`accept-order.js` lines
9-41). -/
def acceptOrder (response : Except Exn (Reply Order)) (w : World) :
    Except Exn OrderResult × World :=
  callFn (do
    let response ← apiCall "/vendor/orders/:id/accept" response
    modifyMetrics (recordOrderMetrics response.duration "accept" response.success)
    sleepUnbound 2 4
    jsReturn { success := response.success, order := fieldOr response.json none }) w

/-- The vendor scenario `updateOrderStatus(baseUrl, orderId, status)`
(`accept-order.js` lines 46-64), behind `startPreparingOrder` and
`markOrderReadyForPickup`. -/
def vendorUpdateOrderStatus (response : Except Exn (Reply Order)) (w : World) :
    Except Exn OrderResult × World :=
  callFn (do
    let response ← apiCall "/vendor/orders/:id/status" response
    jsReturn { success := response.success, order := fieldOr response.json none }) w

/-- What the environment decides in one run of `processOrderFlow`. -/
structure ProcessOrderEnv where
  accept : Except Exn (Reply Order)
  preparing : Except Exn (Reply Order)
  readyForPickup : Except Exn (Reply Order)

/-- The body of `processOrderFlow(baseUrl, orderId)` (`accept-order.js` lines
83-129). -/
def processOrderFlowBody (env : ProcessOrderEnv) : JsM FlowResult FlowResult := do
  let steps : List FlowStep := []
  -- Step 1: Accept order
  let acceptResult ← invoke (acceptOrder env.accept)
  let steps := steps ++ [{ step := "accept", success := acceptResult.success }]
  returnIf (!acceptResult.success) { steps := steps, success := false }
  -- Step 2: Start preparing
  let preparingResult ← invoke (vendorUpdateOrderStatus env.preparing)
  let steps := steps ++ [{ step := "preparing", success := preparingResult.success }]
  returnIf (!preparingResult.success) { steps := steps, success := false }
  -- Simulate preparation time
  sleepUnbound 30 120
  -- Step 3: Mark ready for pickup
  let readyResult ← invoke (vendorUpdateOrderStatus env.readyForPickup)
  let steps := steps ++ [{ step := "ready_for_pickup", success := readyResult.success }]
  jsReturn { steps := steps, success := steps.all (fun step => step.success) }

/-- A call `processOrderFlow(baseUrl, orderId)`. -/
def processOrderFlow (env : ProcessOrderEnv) (w : World) : Except Exn FlowResult × World :=
  callFn (processOrderFlowBody env) w

/-- The rider scenario `updateOrderStatus(baseUrl, orderId, status)`
(`update-status.js` lines 9-37), behind `markOrderPickedUp`, `markOrderInTransit`
and `markOrderDelivered`: every call is recorded with the action `'deliver'`. -/
def riderUpdateOrderStatus (response : Except Exn (Reply Order)) (w : World) :
    Except Exn OrderResult × World :=
  callFn (do
    let response ← apiCall "/rider/orders/:id/status" response
    modifyMetrics (recordOrderMetrics response.duration "deliver" response.success)
    sleepUnbound 2 4
    jsReturn { success := response.success, order := fieldOr response.json none }) w

/-- The rider scenario `acceptAssignment(baseUrl, orderId)` (`update-status.js`
lines 42-60). -/
def acceptAssignment (response : Except Exn (Reply Assignment)) (w : World) :
    Except Exn AssignmentResult × World :=
  callFn (do
    let response ← apiCall "/rider/assignments/:id/accept" response
    jsReturn { success := response.success, assignment := fieldOr response.json none }) w

/-- The rider scenario `updateLocation(baseUrl, location)` (`update-status.js`
lines 86-104). -/
def updateLocation (response : Except Exn (Reply Unit)) (w : World) :
    Except Exn LocationResult × World :=
  callFn (do
    let response ← apiCall "/rider/location" response
    jsReturn { success := response.success }) w

/-- What the environment decides in one run of `completeDeliveryFlow`. -/
structure DeliveryEnv where
  acceptAssignment : Except Exn (Reply Assignment)
  pickupLocation : Except Exn (Reply Unit)
  pickedUp : Except Exn (Reply Order)
  inTransit : Except Exn (Reply Order)
  deliveryLocation : Except Exn (Reply Unit)
  delivered : Except Exn (Reply Order)

/-- The body of `completeDeliveryFlow(baseUrl, orderId)` (`update-status.js`
lines 109-189). -/
def completeDeliveryFlowBody (env : DeliveryEnv) : JsM FlowResult FlowResult := do
  let steps : List FlowStep := []
  -- Step 1: Accept assignment
  let acceptResult ← invoke (acceptAssignment env.acceptAssignment)
  let steps := steps ++ [{ step := "accept_assignment", success := acceptResult.success }]
  returnIf (!acceptResult.success) { steps := steps, success := false }
  -- Step 2: Update location (simulate traveling to pickup)
  let locationUpdate ← invoke (updateLocation env.pickupLocation)
  let steps := steps ++ [{ step := "update_location", success := locationUpdate.success }]
  sleepUnbound 60 300
  -- Step 3: Mark as picked up
  let pickedUpResult ← invoke (riderUpdateOrderStatus env.pickedUp)
  let steps := steps ++ [{ step := "picked_up", success := pickedUpResult.success }]
  returnIf (!pickedUpResult.success) { steps := steps, success := false }
  -- Step 4: Mark as in transit
  let inTransitResult ← invoke (riderUpdateOrderStatus env.inTransit)
  let steps := steps ++ [{ step := "in_transit", success := inTransitResult.success }]
  returnIf (!inTransitResult.success) { steps := steps, success := false }
  sleepUnbound 120 600
  -- Step 5: Update location (simulate arriving at delivery)
  let deliveryLocationUpdate ← invoke (updateLocation env.deliveryLocation)
  let steps := steps ++
    [{ step := "delivery_location", success := deliveryLocationUpdate.success }]
  -- Step 6: Mark as delivered
  let deliveredResult ← invoke (riderUpdateOrderStatus env.delivered)
  let steps := steps ++ [{ step := "delivered", success := deliveredResult.success }]
  jsReturn { steps := steps, success := steps.all (fun step => step.success) }

/-- A call `completeDeliveryFlow(baseUrl, orderId)`. -/
def completeDeliveryFlow (env : DeliveryEnv) (w : World) : Except Exn FlowResult × World :=
  callFn (completeDeliveryFlowBody env) w

/-- The customer scenario `trackOrder(baseUrl, orderId)` (`track-order.js` lines
9-38). -/
def trackOrder (response : Except Exn (Reply Tracking)) (w : World) :
    Except Exn TrackingResult × World :=
  callFn (do
    let response ← apiCall "/customer/order/track" response
    modifyMetrics (recordOrderMetrics response.duration "track" response.success)
    sleepUnbound 2 4
    jsReturn { success := response.success, tracking := fieldOr response.json none }) w

/-- The result of `getOrderStatusHistory` and of `getDeliveryNotifications`: the
array is `response.json ? response.json.field : []`. -/
structure ListResult where
  success : Bool
  items : Option (List String)
  deriving DecidableEq, Repr

/-- The scenario `getOrderStatusHistory(baseUrl, orderId)` (`track-order.js` lines
67-91). -/
def getOrderStatusHistory (response : Except Exn (Reply (List String))) (w : World) :
    Except Exn ListResult × World :=
  callFn (do
    let response ← apiCall "/orders/:id/status-history" response
    jsReturn { success := response.success, items := fieldOr response.json (some []) }) w

/-- The scenario `trackOrderWithLocation(baseUrl, orderId)` (`track-order.js`
lines 43-62). -/
def trackOrderWithLocation (response : Except Exn (Reply Unit)) (w : World) :
    Except Exn LocationResult × World :=
  callFn (do
    let response ← apiCall "/orders/:id/track/location" response
    jsReturn { success := response.success }) w

/-- The scenario `getDeliveryNotifications(baseUrl)` (`track-order.js` lines
153-170). -/
def getDeliveryNotifications (response : Except Exn (Reply (List String))) (w : World) :
    Except Exn ListResult × World :=
  callFn (do
    let response ← apiCall "/notifications/delivery" response
    jsReturn { success := response.success, items := fieldOr response.json (some []) }) w

/-- What the environment decides in one run of
`completeOrderTrackingExperience`. -/
structure TrackingEnv where
  initialTracking : Except Exn (Reply Tracking)
  statusHistory : Except Exn (Reply (List String))
  locationTracking : Except Exn (Reply Unit)
  notifications : Except Exn (Reply (List String))

/-- The body of `completeOrderTrackingExperience(baseUrl, orderId)`
(`track-order.js` lines 175-221). -/
def completeOrderTrackingExperienceBody (env : TrackingEnv) : JsM FlowResult FlowResult := do
  let steps : List FlowStep := []
  -- Step 1: Initial order tracking
  let initialTracking ← invoke (trackOrder env.initialTracking)
  let steps := steps ++ [{ step := "initial_tracking", success := initialTracking.success }]
  returnIf (!initialTracking.success) { steps := steps, success := false }
  -- Step 2: Get status history; line 199 reads `statusHistory.statusHistory.length`
  let statusHistory ← invoke (getOrderStatusHistory env.statusHistory)
  let _history ← deref statusHistory.items
  let steps := steps ++ [{ step := "status_history", success := statusHistory.success }]
  -- Step 3: Track with location (if available)
  let locationTracking ← invoke (trackOrderWithLocation env.locationTracking)
  let steps := steps ++ [{ step := "location_tracking", success := locationTracking.success }]
  -- Step 4: Get delivery notifications; line 215 reads `notifications.notifications.length`
  let notifications ← invoke (getDeliveryNotifications env.notifications)
  let _list ← deref notifications.items
  let steps := steps ++ [{ step := "notifications", success := notifications.success }]
  jsReturn { steps := steps, success := steps.all (fun step => step.success) }

/-- A call `completeOrderTrackingExperience(baseUrl, orderId)`. -/
def completeOrderTrackingExperience (env : TrackingEnv) (w : World) :
    Except Exn FlowResult × World :=
  callFn (completeOrderTrackingExperienceBody env) w

/-- A client call returned `success: true`. -/
def replySucceeds {α : Type} : Except Exn (Reply α) → Bool
  | .ok r => r.success
  | .error _ => false

/-- The `success` flag of the object a flow returned; `false` when the call
threw. -/
def flowSucceeded (out : Except Exn FlowResult × World) : Bool :=
  match out.1 with
  | .ok r => r.success
  | .error _ => false

/-- All six client calls of `completeDeliveryFlow` return `success: true`. -/
def DeliveryEnv.allSucceed (env : DeliveryEnv) : Bool :=
  replySucceeds env.acceptAssignment && replySucceeds env.pickupLocation &&
  replySucceeds env.pickedUp && replySucceeds env.inTransit &&
  replySucceeds env.deliveryLocation && replySucceeds env.delivered

/-- All four client calls of `completeOrderTrackingExperience` return `success:
true`. -/
def TrackingEnv.allSucceed (env : TrackingEnv) : Bool :=
  replySucceeds env.initialTracking && replySucceeds env.statusHistory &&
  replySucceeds env.locationTracking && replySucceeds env.notifications

/-- A tracking run in which all four calls answer 200 with their payloads. -/
def trackingEnvOk : TrackingEnv where
  initialTracking := .ok { success := true, json := some (some { status := "preparing" }) }
  statusHistory := .ok { success := true, json := some (some []) }
  locationTracking := .ok { success := true }
  notifications := .ok { success := true, json := some (some []) }

/-- A delivery run in which all six calls answer 200. -/
def deliveryEnvOk : DeliveryEnv where
  acceptAssignment := .ok { success := true }
  pickupLocation := .ok { success := true }
  pickedUp := .ok { success := true }
  inTransit := .ok { success := true }
  deliveryLocation := .ok { success := true }
  delivered := .ok { success := true }

/-- A delivery run whose assignment is refused. -/
def deliveryEnvRefused : DeliveryEnv :=
  { deliveryEnvOk with acceptAssignment := .ok { success := false } }

/-- An order-processing run in which all three calls answer 200. -/
def processOrderEnvOk : ProcessOrderEnv where
  accept := .ok { success := true }
  preparing := .ok { success := true }
  readyForPickup := .ok { success := true }

/-- A client call returned `success: false`. -/
def replyFails {α : Type} : Except Exn (Reply α) → Bool
  | .ok r => !r.success
  | .error _ => false

/-- All three client calls of `processOrderFlow` return `success: true`. -/
def ProcessOrderEnv.allSucceed (env : ProcessOrderEnv) : Bool :=
  replySucceeds env.accept && replySucceeds env.preparing && replySucceeds env.readyForPickup

/-! ## Journeys with nothing to process (`vendor-journey.js` lines 33-65,
`rider-journey.js` lines 33-65) -/

/-- An orders call returned `success: true` with an empty `orders` array. -/
def ordersEmpty : Except Exn OrdersResult → Bool
  | .ok r => r.success && r.orders == some []
  | .error _ => false

/-- An assignments call returned `success: true` with an empty `assignments`
array. -/
def assignmentsEmpty : Except Exn AssignmentsResult → Bool
  | .ok r => r.success && r.assignments == some []
  | .error _ => false

/-- A vendor run with no pending orders. -/
def vendorEnvNoOrders : VendorEnv :=
  { vendorEnvOptionalFails with
    viewPendingOrders := .ok { success := true, orders := some [] } }

/-- A rider run with no available assignments. -/
def riderEnvNoAssignments : RiderEnv :=
  { riderEnvOptionalFails with
    viewAvailableAssignments := .ok { success := true, assignments := some [] } }

/-! ## Order status updates (`data-generator.js` lines 187-203) -/

/-- The object literal `statusFlow`. -/
def statusFlow : JsObject (List String) :=
  [("pending", ["accepted", "cancelled"]),
   ("accepted", ["preparing"]),
   ("preparing", ["ready_for_pickup"]),
   ("ready_for_pickup", ["picked_up"]),
   ("picked_up", ["in_transit"]),
   ("in_transit", ["delivered"]),
   ("delivered", []),
   ("cancelled", [])]

/-- What `generateStatusUpdate` reads of a property that `statusFlow` inherits:
the `length` of its value, `none` when the value has no `length`. -/
abbrev Inherited := Option Nat

/-- The properties that an object literal inherits from `Object.prototype`: the
constructor `Object` and the methods, each with the `length` of the function,
and the accessor `__proto__`, whose value is the prototype object itself. -/
def objectPrototype : JsObject Inherited :=
  [("constructor", some 1),
   ("toString", some 0),
   ("toLocaleString", some 0),
   ("valueOf", some 0),
   ("hasOwnProperty", some 1),
   ("isPrototypeOf", some 1),
   ("propertyIsEnumerable", some 1),
   ("__defineGetter__", some 2),
   ("__defineSetter__", some 2),
   ("__lookupGetter__", some 1),
   ("__lookupSetter__", some 1),
   ("__proto__", none)]

/-- The function `generateStatusUpdate(currentStatus)`, with the draw of
`Math.random()` made explicit.  The read `statusFlow[currentStatus]` finds an own
property, else an inherited one, else `undefined`, which `|| []` replaces by the
empty array.  An inherited value is a function or an object without indexed
properties: a function whose `length` is 0 passes the test of line 200, any
other inherited value is indexed and gives `undefined`.  The result `none` is
`undefined`. -/
def generateStatusUpdate (random : ℚ) (currentStatus : String) : Option String :=
  match statusFlow.get currentStatus with
  | some possibleStatuses =>
    if possibleStatuses.length = 0 then some currentStatus
    else possibleStatuses[randomIndex random possibleStatuses.length]?
  | none =>
    match objectPrototype.get currentStatus with
    | some (some length) => if length = 0 then some currentStatus else none
    | some none => none
    | none => some currentStatus

/-- The status after applying `generateStatusUpdate` once per draw, each time to
the previous result; `none` when an application returned `undefined`. -/
def statusAfter : List ℚ → String → Option String
  | [], status => some status
  | random :: draws, status =>
    match generateStatusUpdate random status with
    | some next => statusAfter draws next
    | none => none

/-! ## Symbolic execution lemmas -/

@[simp] theorem bind_apply {ρ α β : Type} (x : JsM ρ α) (f : α → JsM ρ β) (w : World) :
    (x >>= f) w = match x w with
      | (.normal a, w1) => f a w1
      | (.ret r, w1) => (.ret r, w1)
      | (.throw e, w1) => (.throw e, w1) := rfl

@[simp] theorem pure_apply {ρ α : Type} (a : α) (w : World) :
    (pure a : JsM ρ α) w = (.normal a, w) := rfl

theorem Block.pure {ρ α : Type} (P : ρ → Prop) (a : α) : Block P (pure a : JsM ρ α) := by
  intro w; exact ⟨[], by simp, by simp, by simp⟩

theorem Block.think {ρ : Type} (P : ρ → Prop) (lo hi : Nat) :
    Block P (think lo hi : JsM ρ Unit) := by
  intro w
  exact ⟨[Event.think lo hi], by simp [GabsEats.think, emit], by simp [GabsEats.think, emit],
    by simp [GabsEats.think, emit]⟩

theorem Block.deref {ρ α : Type} (P : ρ → Prop) (o : Option α) :
    Block P (deref o : JsM ρ α) := by
  intro w; refine ⟨[], ?_, ?_, ?_⟩ <;> cases o <;> simp [GabsEats.deref]

theorem Block.step {ρ α : Type} (P : ρ → Prop) (n : StepName) (o : Except Exn α) :
    Block P (step n o : JsM ρ α) := by
  intro w
  cases o with
  | error e =>
    exact ⟨[Event.call n, Event.raised n], by simp [GabsEats.step], by simp [GabsEats.step],
      by simp [GabsEats.step]⟩
  | ok a =>
    exact ⟨[Event.call n], by simp [GabsEats.step], by simp [GabsEats.step],
      by simp [GabsEats.step]⟩

theorem Block.callUndefined {ρ α : Type} (P : ρ → Prop) :
    Block P (callUndefined : JsM ρ α) := by
  intro w; exact ⟨[], by simp [GabsEats.callUndefined, jsThrow],
    by simp [GabsEats.callUndefined, jsThrow], by simp [GabsEats.callUndefined, jsThrow]⟩

theorem Block.returnIf {ρ : Type} (P : ρ → Prop) (c : Bool) (r : ρ) (h : P r) :
    Block P (returnIf c r) := by
  intro w; refine ⟨[], ?_, ?_, ?_⟩ <;> cases c <;> simp [GabsEats.returnIf, h]

theorem Block.jsWhen {ρ : Type} (P : ρ → Prop) (c : Bool) (b : JsM ρ Unit) (h : Block P b) :
    Block P (jsWhen c b) := by
  intro w
  cases c with
  | false =>
    exact ⟨[], by simp [GabsEats.jsWhen], by simp [GabsEats.jsWhen], by simp [GabsEats.jsWhen]⟩
  | true => simpa [GabsEats.jsWhen] using h w

theorem Block.bind {ρ α β : Type} (P : ρ → Prop) (x : JsM ρ α) (f : α → JsM ρ β)
    (hx : Block P x) (hf : ∀ a, Block P (f a)) : Block P (x >>= f) := by
  intro w
  obtain ⟨l1, h1, h2, h3⟩ := hx w
  rcases hxw : x w with ⟨c, w1⟩
  rw [hxw] at h1 h2 h3
  simp only at h1 h2 h3
  cases c with
  | throw e => exact ⟨l1, by simp [hxw, h1], by simp [hxw], by simp [hxw]⟩
  | ret r => exact ⟨l1, by simp [hxw, h1], by simpa [hxw] using h2, by simpa [hxw] using h3⟩
  | normal a =>
    obtain ⟨l2, g1, g2, g3⟩ := hf a w1
    refine ⟨l1 ++ l2, ?_, ?_, ?_⟩
    · simp [hxw, g1]
      simp [h1]
    · rintro ⟨s, hs⟩
      rcases List.mem_append.1 hs with hs | hs
      · obtain ⟨e, he⟩ := h2 ⟨s, hs⟩
        cases he
      · simpa [hxw] using g2 ⟨s, hs⟩
    · simpa [hxw] using g3

theorem customerJourneyTry_block (env : CustomerEnv) :
    Block StepFailure (customerJourneyTry env) := by
  unfold customerJourneyTry
  repeat' first
    | exact Block.pure _ _
    | exact Block.think _ _ _
    | exact Block.deref _ _
    | exact Block.step _ _ _
    | exact Block.callUndefined _
    | exact Block.returnIf _ _ _ (by simp [StepFailure])
    | refine Block.bind _ _ _ ?_ (fun _ => ?_)

theorem vendorJourneyTry_block (env : VendorEnv) :
    Block StepFailure (vendorJourneyTry env) := by
  unfold vendorJourneyTry
  repeat' first
    | exact Block.pure _ _
    | exact Block.think _ _ _
    | exact Block.deref _ _
    | exact Block.step _ _ _
    | exact Block.callUndefined _
    | exact Block.returnIf _ _ _ (by simp [StepFailure])
    | refine Block.bind _ _ _ ?_ (fun _ => ?_)
    | refine Block.jsWhen _ _ _ ?_
    | split

theorem riderJourneyTry_block (env : RiderEnv) :
    Block StepFailure (riderJourneyTry env) := by
  unfold riderJourneyTry
  repeat' first
    | exact Block.pure _ _
    | exact Block.think _ _ _
    | exact Block.deref _ _
    | exact Block.step _ _ _
    | exact Block.callUndefined _
    | exact Block.returnIf _ _ _ (by simp [StepFailure])
    | refine Block.bind _ _ _ ?_ (fun _ => ?_)
    | refine Block.jsWhen _ _ _ ?_
    | split


theorem randomIndex_lt (r : ℚ) (n : Nat) (h0 : 0 ≤ r) (h1 : r < 1) (hn : 0 < n) :
    randomIndex r n < n := by
  unfold randomIndex
  have hn' : (0 : ℚ) < (n : ℚ) := by exact_mod_cast hn
  rw [Nat.floor_lt (mul_nonneg h0 hn'.le)]
  calc r * (n : ℚ) < 1 * (n : ℚ) := by exact mul_lt_mul_of_pos_right h1 hn'
    _ = n := one_mul _

theorem getElem?_randomIndex {α : Type} (r : ℚ) (a : α) (l : List α) (h0 : 0 ≤ r)
    (h1 : r < 1) : ∃ x, (a :: l)[randomIndex r (l.length + 1)]? = some x := by
  have h := randomIndex_lt r (l.length + 1) h0 h1 (Nat.succ_pos _)
  exact ⟨(a :: l)[randomIndex r (l.length + 1)], List.getElem?_eq_getElem (by simpa using h)⟩

/-- What a journey function makes of its `try` block: the call always returns an
object; that object is either a step-failure object returned from inside the
block, or the final object with the duration and the timestamp; and when a step
raised it is the final object with `success: false`. -/
theorem journey_of_try (tryBlock : JsM JourneyResult Bool) (start stop : Int) (iso : String)
    (record : Int → Int → Bool → JsM JourneyResult Unit)
    (hrec : ∀ a b c w, ∃ w1, record a b c w = (.normal (), w1) ∧ w1.events = w.events)
    (h : Block StepFailure tryBlock) (w : World) :
    ∃ r, (callFn (do
        let journeySuccess ← tryCatch tryBlock (fun _error => pure false)
        record start stop journeySuccess
        jsReturn { success := journeySuccess, duration := some (stop - start),
                   timestamp := some iso }) w).1 = .ok r ∧
      ((∃ s, Event.raised s ∈ newEvents w (callFn (do
        let journeySuccess ← tryCatch tryBlock (fun _error => pure false)
        record start stop journeySuccess
        jsReturn { success := journeySuccess, duration := some (stop - start),
                   timestamp := some iso }) w)) →
        r = { success := false, duration := some (stop - start), timestamp := some iso }) ∧
      (StepFailure r ∨
        ∃ b, r = { success := b, duration := some (stop - start), timestamp := some iso }) := by
  obtain ⟨l, h1, h2, h3⟩ := h w
  rcases hc : tryBlock w with ⟨c, w1⟩
  rw [hc] at h1 h2 h3
  simp only at h1 h2 h3
  subst h1
  cases c with
  | normal b =>
    obtain ⟨w2, hw2, hev⟩ := hrec start stop b { w with events := w.events ++ l }
    refine ⟨{ success := b, duration := some (stop - start), timestamp := some iso },
      by simp [callFn, tryCatch, hc, hw2, jsReturn], ?_, Or.inr ⟨b, rfl⟩⟩
    intro hr
    simp [callFn, tryCatch, hc, hw2, jsReturn, newEvents, hev] at hr
    obtain ⟨e, he⟩ := h2 hr
    cases he
  | ret r =>
    refine ⟨r, by simp [callFn, tryCatch, hc], ?_, Or.inl (h3 r rfl)⟩
    intro hr
    simp [callFn, tryCatch, hc, newEvents] at hr
    obtain ⟨e, he⟩ := h2 hr
    cases he
  | throw e =>
    obtain ⟨w2, hw2, hev⟩ := hrec start stop false { w with events := w.events ++ l }
    exact ⟨{ success := false, duration := some (stop - start), timestamp := some iso },
      by simp [callFn, tryCatch, hc, hw2, jsReturn], fun _ => rfl, Or.inr ⟨false, rfl⟩⟩

theorem customerJourney_shape (env : CustomerEnv) (w : World) :
    ∃ r, (customerJourney env w).1 = .ok r ∧
      ((∃ s, Event.raised s ∈ newEvents w (customerJourney env w)) →
        r = { success := false,
              duration := some (env.journeyEndTime - env.journeyStartTime),
              timestamp := some env.isoTimestamp }) ∧
      (StepFailure r ∨
        ∃ b, r = { success := b,
                   duration := some (env.journeyEndTime - env.journeyStartTime),
                   timestamp := some env.isoTimestamp }) :=
  journey_of_try _ _ _ _ recordCustomerJourneyMetrics
    (fun _ _ _ _ => ⟨_, rfl, rfl⟩) (customerJourneyTry_block env) w

theorem vendorJourney_shape (env : VendorEnv) (w : World) :
    ∃ r, (vendorJourney env w).1 = .ok r ∧
      ((∃ s, Event.raised s ∈ newEvents w (vendorJourney env w)) →
        r = { success := false,
              duration := some (env.journeyEndTime - env.journeyStartTime),
              timestamp := some env.isoTimestamp }) ∧
      (StepFailure r ∨
        ∃ b, r = { success := b,
                   duration := some (env.journeyEndTime - env.journeyStartTime),
                   timestamp := some env.isoTimestamp }) :=
  journey_of_try _ _ _ _ recordVendorJourneyMetrics
    (fun _ _ _ _ => ⟨_, rfl, rfl⟩) (vendorJourneyTry_block env) w

theorem riderJourney_shape (env : RiderEnv) (w : World) :
    ∃ r, (riderJourney env w).1 = .ok r ∧
      ((∃ s, Event.raised s ∈ newEvents w (riderJourney env w)) →
        r = { success := false,
              duration := some (env.journeyEndTime - env.journeyStartTime),
              timestamp := some env.isoTimestamp }) ∧
      (StepFailure r ∨
        ∃ b, r = { success := b,
                   duration := some (env.journeyEndTime - env.journeyStartTime),
                   timestamp := some env.isoTimestamp }) :=
  journey_of_try _ _ _ _ recordRiderJourneyMetrics
    (fun _ _ _ _ => ⟨_, rfl, rfl⟩) (riderJourneyTry_block env) w

/-- A `try` block none of whose completions lets the journey report success:
it never completes normally with `true` and every object it returns early has
`success: false`. -/
theorem journey_fails_of_try (tryBlock : JsM JourneyResult Bool) (start stop : Int)
    (iso : String) (record : Int → Int → Bool → JsM JourneyResult Unit)
    (hrec : ∀ a b c w, ∃ w1, record a b c w = (.normal (), w1))
    (h : ∀ w, match (tryBlock w).1 with
      | .normal b => b = false
      | .ret r => r.success = false
      | .throw _ => True) (w : World) :
    journeySucceeded (callFn (do
        let journeySuccess ← tryCatch tryBlock (fun _error => pure false)
        record start stop journeySuccess
        jsReturn { success := journeySuccess, duration := some (stop - start),
                   timestamp := some iso }) w) = false := by
  have hw := h w
  rcases hc : tryBlock w with ⟨c, w1⟩
  rw [hc] at hw
  cases c with
  | normal b =>
    simp only at hw
    subst hw
    obtain ⟨w2, hw2⟩ := hrec start stop false w1
    simp [journeySucceeded, callFn, tryCatch, hc, hw2, jsReturn]
  | ret r =>
    simp only at hw
    simp [journeySucceeded, callFn, tryCatch, hc, hw]
  | throw e =>
    obtain ⟨w2, hw2⟩ := hrec start stop false w1
    simp [journeySucceeded, callFn, tryCatch, hc, hw2, jsReturn]

/-- What every completion of the `try` block of `customerJourney` is: an early
`return` of a failure object, or the exception thrown at a step or at a read of
a missing payload or at the call of `placeOrder`. -/
theorem customerJourneyTry_fails (env : CustomerEnv) (w : World) :
    match (customerJourneyTry env w).1 with
    | .normal b => b = false
    | .ret r => r.success = false
    | .throw _ => True := by
  obtain ⟨t0, t1, iso, rnd, login, browse, menu, cart, review, exp⟩ := env
  simp only [customerJourneyTry, bind_apply, pure_apply, step, deref, think, emit, returnIf,
    callUndefined, jsThrow]
  rcases login with e | ⟨ls, ltok, luser, lerr⟩ <;> simp
  cases ls <;> simp
  rcases browse with e | ⟨bs, bv⟩ <;> simp
  cases bs <;> simp
  rcases bv with _ | bv <;> simp
  rcases bv with _ | ⟨v, bv⟩ <;> simp
  cases (v :: bv)[randomIndex rnd (bv.length + 1)]? <;> simp
  rcases menu with e | ⟨ms, mv⟩ <;> simp
  cases ms <;> simp
  rcases mv with _ | mv <;> simp
  rcases mv with _ | ⟨m, mv⟩ <;> simp
  rcases cart with e | ⟨cs, cv⟩ <;> simp
  cases cs <;> simp
  rcases cv with _ | ⟨c, cv⟩ <;> simp
  rcases review with e | ⟨rs, rv⟩ <;> simp
  cases rs <;> simp
  cases rv <;> simp
  cases luser <;> simp

/-- What every completion of the `try` block of `vendorJourney` is: an early
`return` of a failure object or a thrown exception.  The three `return`
statements with `success: true` follow a call of `viewOrders` or need an empty
list that was just found non-empty. -/
theorem vendorJourneyTry_fails (env : VendorEnv) (w : World) :
    match (vendorJourneyTry env w).1 with
    | .normal b => b = false
    | .ret r => r.success = false
    | .throw _ => True := by
  obtain ⟨t0, t1, iso, rnd, login, pending, details, process⟩ := env
  simp only [vendorJourneyTry, bind_apply, pure_apply, step, deref, think, emit, returnIf,
    jsWhen, callUndefined, jsThrow]
  rcases login with e | ⟨ls, ltok, luser, lerr⟩ <;> simp
  cases ls <;> simp
  rcases pending with e | ⟨ps, pv⟩ <;> simp
  cases ps <;> simp
  rcases pv with _ | pv <;> simp
  rcases pv with _ | ⟨p, pv⟩ <;> simp
  rcases hx : (p :: pv)[randomIndex rnd (pv.length + 1)]? with _ | x <;> simp
  rcases details with e | ⟨ds, dv⟩ <;> simp
  cases ds <;> simp
  cases dv <;> simp
  by_cases hst : x.status = "pending" <;> simp [hst, step, returnIf, callUndefined, jsThrow]
  rcases process with e | ⟨fsteps, fs⟩ <;> simp
  cases fs <;> simp

/-- A journey whose `try` block throws returns `{ success: false, duration,
timestamp }`. -/
theorem journey_of_throw (tryBlock : JsM JourneyResult Bool) (start stop : Int) (iso : String)
    (record : Int → Int → Bool → JsM JourneyResult Unit)
    (hrec : ∀ a b c w, ∃ w1, record a b c w = (.normal (), w1)) (w : World)
    (h : ∃ e w1, tryBlock w = (.throw e, w1)) :
    (callFn (do
        let journeySuccess ← tryCatch tryBlock (fun _error => pure false)
        record start stop journeySuccess
        jsReturn { success := journeySuccess, duration := some (stop - start),
                   timestamp := some iso }) w).1 =
      .ok { success := false, duration := some (stop - start), timestamp := some iso } := by
  obtain ⟨e, w1, hc⟩ := h
  obtain ⟨w2, hw2⟩ := hrec start stop false w1
  simp [callFn, tryCatch, hc, hw2, jsReturn]

/-- With the five steps before the order placement succeeding, the `try` block
of `customerJourney` ends in an exception: at the latest the call of
`placeOrder` throws. -/
theorem customerJourneyTry_throws (env : CustomerEnv) (w : World)
    (h : customerStepsSucceed env = true) :
    ∃ e w1, customerJourneyTry env w = (.throw e, w1) := by
  obtain ⟨t0, t1, iso, rnd, login, browse, menu, cart, review, exp⟩ := env
  simp only [customerStepsSucceed, loginSucceeds, browseSucceeds, menuSucceeds, cartSucceeds,
    cartReviewSucceeds, Bool.and_eq_true] at h
  obtain ⟨⟨⟨⟨hl, hb⟩, hm⟩, hc⟩, hr⟩ := h
  simp only [customerJourneyTry, bind_apply, pure_apply, step, deref, think, emit, returnIf,
    callUndefined, jsThrow]
  rcases login with e | ⟨ls, ltok, luser, lerr⟩ <;> simp at hl
  subst hl
  rcases browse with e | ⟨bs, bv⟩ <;> simp at hb
  obtain ⟨rfl, hbv⟩ := hb
  rcases bv with _ | bv <;> simp at hbv
  rcases bv with _ | ⟨v, bv⟩ <;> simp at hbv
  rcases menu with e | ⟨ms, mv⟩ <;> simp at hm
  obtain ⟨rfl, hmv⟩ := hm
  rcases mv with _ | mv <;> simp at hmv
  rcases mv with _ | ⟨m, mv⟩ <;> simp at hmv
  rcases cart with e | ⟨cs, cv⟩ <;> simp at hc
  obtain ⟨rfl, hcv⟩ := hc
  rcases cv with _ | ⟨c, cv⟩ <;> simp at hcv
  rcases review with e | ⟨rs, rv⟩ <;> simp at hr
  subst hr
  simp
  cases (v :: bv)[randomIndex rnd (bv.length + 1)]? <;> simp
  cases rv <;> simp
  cases luser <;> simp

/-- With login, the pending-orders listing, the order details and the processing
flow succeeding, the `try` block of `vendorJourney` ends in an exception: at the
latest the final call of `viewOrders` throws. -/
theorem vendorJourneyTry_throws (env : VendorEnv) (w : World)
    (h : vendorStepsSucceed env = true) :
    ∃ e w1, vendorJourneyTry env w = (.throw e, w1) := by
  obtain ⟨t0, t1, iso, rnd, login, pending, details, process⟩ := env
  simp only [vendorStepsSucceed, loginSucceeds, ordersSucceeds, orderSucceeds, flowSucceeds,
    Bool.and_eq_true] at h
  obtain ⟨⟨⟨hl, hp⟩, hd⟩, hf⟩ := h
  simp only [vendorJourneyTry, bind_apply, pure_apply, step, deref, think, emit, returnIf,
    jsWhen, callUndefined, jsThrow]
  rcases login with e | ⟨ls, ltok, luser, lerr⟩ <;> simp at hl
  subst hl
  rcases pending with e | ⟨ps, pv⟩ <;> simp at hp
  subst hp
  rcases details with e | ⟨ds, dv⟩ <;> simp at hd
  subst hd
  rcases process with e | ⟨fsteps, fs⟩ <;> simp at hf
  subst hf
  simp
  rcases pv with _ | pv <;> simp
  rcases pv with _ | ⟨p, pv⟩ <;> simp
  rcases hx : (p :: pv)[randomIndex rnd (pv.length + 1)]? with _ | x <;> simp
  cases dv <;> simp
  by_cases hst : x.status = "pending" <;> simp [hst, step, returnIf, callUndefined, jsThrow]

/-- With login succeeding and no pending order, the `try` block of
`vendorJourney` throws at the call of `viewOrders` in line 44. -/
theorem vendorJourneyTry_throws_no_orders (env : VendorEnv) (w : World)
    (h1 : loginSucceeds env.vendorLogin = true)
    (h2 : ordersEmpty env.viewPendingOrders = true) :
    ∃ e w1, vendorJourneyTry env w = (.throw e, w1) := by
  obtain ⟨t0, t1, iso, rnd, login, pending, details, process⟩ := env
  rcases login with e | ⟨ls, ltok, luser, lerr⟩ <;> simp [loginSucceeds] at h1
  rcases pending with e | ⟨ps, pv⟩ <;> simp [ordersEmpty] at h2
  obtain ⟨rfl, rfl⟩ := h2
  subst h1
  simp [vendorJourneyTry, step, deref, think, emit, returnIf, jsWhen, callUndefined, jsThrow]

/-- With login succeeding and no available assignment, the `try` block of
`riderJourney` throws at the call of `viewAssignments` in line 44. -/
theorem riderJourneyTry_throws_no_assignments (env : RiderEnv) (w : World)
    (h1 : loginSucceeds env.riderLogin = true)
    (h2 : assignmentsEmpty env.viewAvailableAssignments = true) :
    ∃ e w1, riderJourneyTry env w = (.throw e, w1) := by
  obtain ⟨t0, t1, iso, rnd, login, available, details, flow, accept, location⟩ := env
  rcases login with e | ⟨ls, ltok, luser, lerr⟩ <;> simp [loginSucceeds] at h1
  rcases available with e | ⟨ps, pv⟩ <;> simp [assignmentsEmpty] at h2
  obtain ⟨rfl, rfl⟩ := h2
  subst h1
  simp [riderJourneyTry, step, deref, think, emit, returnIf, jsWhen, callUndefined, jsThrow]

/-- With an available assignment and every step before the final
`updateLocation` succeeding, the rider journey reports success, whatever that
final call reports. -/
theorem riderJourney_succeeds (env : RiderEnv) (w : World)
    (h0 : 0 ≤ env.random) (h1 : env.random < 1) (h : riderStepsSucceed env = true) :
    journeySucceeded (riderJourney env w) = true := by
  obtain ⟨t0, t1, iso, rnd, login, available, details, flow, accept, location⟩ := env
  simp only [riderStepsSucceed, loginSucceeds, assignmentsAvailable, assignmentDetailsSucceed,
    flowSucceeds, assignmentSucceeds, returned, Bool.and_eq_true] at h
  obtain ⟨⟨⟨⟨⟨hl, ha⟩, hd⟩, hf⟩, hc⟩, hu⟩ := h
  simp only at h0 h1
  rcases login with e | ⟨ls, ltok, luser, lerr⟩ <;> simp at hl
  subst hl
  rcases available with e | ⟨ps, pv⟩ <;> simp at ha
  obtain ⟨rfl, ha⟩ := ha
  rcases pv with _ | pv <;> simp at ha
  rcases pv with _ | ⟨p, pv⟩ <;> simp at ha
  rcases details with e | ⟨ds, dv⟩ <;> simp at hd
  obtain ⟨rfl, hd⟩ := hd
  rcases dv with _ | dv <;> simp at hd
  rcases flow with e | ⟨fsteps, fs⟩ <;> simp at hf
  subst hf
  rcases accept with e | ⟨cs, cv⟩ <;> simp at hc
  subst hc
  rcases location with e | ⟨us⟩ <;> simp at hu
  obtain ⟨x, hx⟩ := getElem?_randomIndex rnd p pv h0 h1
  simp only [riderJourney, callFn, riderJourneyBody, riderJourneyTry, tryCatch,
    bind_apply, pure_apply, step, deref, think, emit, returnIf, jsWhen, jsReturn,
    recordRiderJourneyMetrics, journeySucceeded]
  by_cases hst : x.status = "available" <;>
    simp [hx, hst, step, deref, returnIf]

/-! ## Binary64 rounding -/

theorem roundHalfEven_eq_of_lt (a : ℚ) (m : ℤ) (h1 : (m : ℚ) - 1 / 2 < a)
    (h2 : a < (m : ℚ) + 1 / 2) : roundHalfEven a = m := by
  unfold roundHalfEven
  by_cases hm : (m : ℚ) ≤ a
  · have hf : ⌊a⌋ = m := Int.floor_eq_iff.2 ⟨hm, by linarith⟩
    rw [hf, if_pos (by linarith)]
  · have hm' : a < m := not_le.1 hm
    have hf : ⌊a⌋ = m - 1 := Int.floor_eq_iff.2 ⟨by push_cast; linarith, by push_cast; linarith⟩
    rw [hf]
    push_cast
    rw [if_neg (by linarith), if_pos (by linarith)]
    ring

theorem roundHalfEven_intCast (m : ℤ) : roundHalfEven (m : ℚ) = m :=
  roundHalfEven_eq_of_lt _ m (by linarith) (by linarith)

theorem roundHalfEven_tie_odd (m : ℤ) (h : m % 2 = 1) :
    roundHalfEven ((m : ℚ) + 1 / 2) = m + 1 := by
  unfold roundHalfEven
  have hf : ⌊(m : ℚ) + 1 / 2⌋ = m := Int.floor_eq_iff.2 ⟨by linarith, by linarith⟩
  rw [hf, if_neg (by linarith), if_neg (by linarith), if_neg (by omega)]

theorem roundHalfEven_bounds (a : ℚ) :
    a - 1 / 2 ≤ (roundHalfEven a : ℚ) ∧ (roundHalfEven a : ℚ) ≤ a + 1 / 2 := by
  have h1 := Int.floor_le a
  have h2 := Int.lt_floor_add_one a
  unfold roundHalfEven
  split_ifs with ha hb hc
  · exact ⟨by linarith, by linarith⟩
  · push_cast; exact ⟨by linarith, by linarith⟩
  · have : a - ⌊a⌋ = 1 / 2 := le_antisymm (not_lt.1 hb) (not_lt.1 ha)
    exact ⟨by linarith, by linarith⟩
  · have : a - ⌊a⌋ = 1 / 2 := le_antisymm (not_lt.1 hb) (not_lt.1 ha)
    push_cast; exact ⟨by linarith, by linarith⟩

theorem roundHalfEven_mono {a b : ℚ} (h : a ≤ b) : roundHalfEven a ≤ roundHalfEven b := by
  by_contra hlt
  have hlt : roundHalfEven b + 1 ≤ roundHalfEven a := by omega
  have hq : (roundHalfEven b : ℚ) + 1 ≤ roundHalfEven a := by exact_mod_cast hlt
  have ha := roundHalfEven_bounds a
  have hb := roundHalfEven_bounds b
  have hab : a = b := by linarith [ha.2, hb.1]
  subst hab
  omega

theorem ulp_pos (q : ℚ) : 0 < ulp q := zpow_pos (by norm_num) _

theorem binade_eq (q : ℚ) (k : ℤ) (hk : -1022 ≤ k) (h1 : (2 : ℚ) ^ k ≤ |q|)
    (h2 : |q| < (2 : ℚ) ^ (k + 1)) : binade q = k := by
  have hpos : 0 < |q| := lt_of_lt_of_le (zpow_pos (by norm_num) _) h1
  have ha : k ≤ Int.log 2 |q| :=
    (Int.zpow_le_iff_le_log (by norm_num) hpos).1 (by exact_mod_cast h1)
  have hb : Int.log 2 |q| < k + 1 :=
    (Int.lt_zpow_iff_log_lt (by norm_num) hpos).1 (by exact_mod_cast h2)
  unfold binade
  rw [max_eq_left (by omega)]
  omega

theorem fl_eq_of (q : ℚ) (k : ℤ) (hk : -1022 ≤ k) (h1 : (2 : ℚ) ^ k ≤ |q|)
    (h2 : |q| < (2 : ℚ) ^ (k + 1)) :
    fl q = roundHalfEven (q / 2 ^ (k - 52)) * 2 ^ (k - 52) := by
  unfold fl ulp
  rw [binade_eq q k hk h1 h2]

theorem fl_zero : fl 0 = 0 := by
  unfold fl
  rw [zero_div, show ((0 : ℚ)) = ((0 : ℤ) : ℚ) by norm_num, roundHalfEven_intCast]
  simp

theorem fl_nonneg {q : ℚ} (h : 0 ≤ q) : 0 ≤ fl q := by
  unfold fl
  have h0 : roundHalfEven 0 ≤ roundHalfEven (q / ulp q) :=
    roundHalfEven_mono (div_nonneg h (ulp_pos q).le)
  rw [show ((0 : ℚ)) = ((0 : ℤ) : ℚ) by norm_num, roundHalfEven_intCast] at h0
  exact mul_nonneg (by exact_mod_cast h0) (ulp_pos q).le

theorem binade_mono {x y : ℚ} (hx : 0 < x) (h : x ≤ y) : binade x ≤ binade y := by
  unfold binade
  rw [abs_of_pos hx, abs_of_pos (lt_of_lt_of_le hx h)]
  exact max_le_max (Int.log_mono_right hx h) le_rfl

theorem fl_le_zpow {x : ℚ} (hx : 0 < x) : fl x ≤ 2 ^ (binade x + 1) := by
  have hlt : x < (2 : ℚ) ^ (binade x + 1) := by
    have h := Int.lt_zpow_succ_log_self (b := 2) (by norm_num) x
    have hle : Int.log 2 x + 1 ≤ binade x + 1 := by
      unfold binade; rw [abs_of_pos hx]; have := le_max_left (Int.log 2 x) (-1022); omega
    calc x < ((2 : ℕ) : ℚ) ^ (Int.log 2 x + 1) := h
      _ = (2 : ℚ) ^ (Int.log 2 x + 1) := by norm_num
      _ ≤ (2 : ℚ) ^ (binade x + 1) := zpow_le_zpow_right₀ (by norm_num) hle
  unfold fl
  have hu := ulp_pos x
  have hdiv : x / ulp x ≤ ((2 ^ 53 : ℤ) : ℚ) := by
    rw [div_le_iff₀ hu, show ((2 ^ 53 : ℤ) : ℚ) = 2 ^ (53 : ℤ) by norm_num]
    unfold ulp
    rw [← zpow_add₀ (by norm_num), show (53 : ℤ) + (binade x - 52) = binade x + 1 by ring]
    exact hlt.le
  have hr := roundHalfEven_mono hdiv
  rw [roundHalfEven_intCast] at hr
  have hr' : (roundHalfEven (x / ulp x) : ℚ) ≤ 2 ^ (53 : ℤ) := by
    have : (roundHalfEven (x / ulp x) : ℚ) ≤ ((2 ^ 53 : ℤ) : ℚ) := by exact_mod_cast hr
    rwa [show ((2 ^ 53 : ℤ) : ℚ) = 2 ^ (53 : ℤ) by norm_num] at this
  calc (roundHalfEven (x / ulp x) : ℚ) * ulp x ≤ 2 ^ (53 : ℤ) * ulp x :=
        mul_le_mul_of_nonneg_right hr' hu.le
    _ = 2 ^ (binade x + 1) := by
        unfold ulp
        rw [← zpow_add₀ (by norm_num)]
        congr 1; ring

theorem zpow_le_fl {y : ℚ} (hy : 0 < y) (hn : -1022 < binade y) : 2 ^ binade y ≤ fl y := by
  have hb : binade y = Int.log 2 y := by
    unfold binade at hn ⊢
    rw [abs_of_pos hy] at hn ⊢
    rcases max_cases (Int.log 2 y) (-1022) with h | h
    · exact h.1
    · omega
  have hle : (2 : ℚ) ^ binade y ≤ y := by
    rw [hb]
    have h := Int.zpow_log_le_self (b := 2) (by norm_num) hy
    simpa using h
  unfold fl
  have hu := ulp_pos y
  have hdiv : ((2 ^ 52 : ℤ) : ℚ) ≤ y / ulp y := by
    rw [le_div_iff₀ hu, show ((2 ^ 52 : ℤ) : ℚ) = 2 ^ (52 : ℤ) by norm_num]
    unfold ulp
    rw [← zpow_add₀ (by norm_num), show (52 : ℤ) + (binade y - 52) = binade y by ring]
    exact hle
  have hr := roundHalfEven_mono hdiv
  rw [roundHalfEven_intCast] at hr
  have hr' : (2 : ℚ) ^ (52 : ℤ) ≤ (roundHalfEven (y / ulp y) : ℚ) := by
    have : ((2 ^ 52 : ℤ) : ℚ) ≤ (roundHalfEven (y / ulp y) : ℚ) := by exact_mod_cast hr
    rwa [show ((2 ^ 52 : ℤ) : ℚ) = 2 ^ (52 : ℤ) by norm_num] at this
  calc (2 : ℚ) ^ binade y = 2 ^ (52 : ℤ) * ulp y := by
        unfold ulp
        rw [← zpow_add₀ (by norm_num)]
        congr 1; ring
    _ ≤ (roundHalfEven (y / ulp y) : ℚ) * ulp y := mul_le_mul_of_nonneg_right hr' hu.le

/-- Rounding to binary64 is monotone on the non-negative rationals. -/
theorem fl_mono {x y : ℚ} (hx : 0 ≤ x) (h : x ≤ y) : fl x ≤ fl y := by
  rcases hx.eq_or_lt with h0 | hpos
  · rw [← h0, fl_zero]; exact fl_nonneg (h0 ▸ h)
  have hy : 0 < y := lt_of_lt_of_le hpos h
  rcases (binade_mono hpos h).eq_or_lt with he | hl
  · unfold fl ulp
    rw [he]
    have hu : (0 : ℚ) < 2 ^ (binade y - 52) := zpow_pos (by norm_num) _
    have := roundHalfEven_mono (div_le_div_of_nonneg_right h hu.le)
    exact mul_le_mul_of_nonneg_right (by exact_mod_cast this) hu.le
  · have hn : -1022 < binade y := by
      have : -1022 ≤ binade x := le_max_right _ _
      omega
    calc fl x ≤ 2 ^ (binade x + 1) := fl_le_zpow hpos
      _ ≤ 2 ^ binade y := zpow_le_zpow_right₀ (by norm_num) (by omega)
      _ ≤ fl y := zpow_le_fl hy hn

theorem fl_eq_of_near (q : ℚ) (k m : ℤ) (hk : -1022 ≤ k) (h1 : (2 : ℚ) ^ k ≤ |q|)
    (h2 : |q| < (2 : ℚ) ^ (k + 1)) (ha : (m : ℚ) - 1 / 2 < q / 2 ^ (k - 52))
    (hb : q / 2 ^ (k - 52) < (m : ℚ) + 1 / 2) : fl q = m * 2 ^ (k - 52) := by
  rw [fl_eq_of q k hk h1 h2, roundHalfEven_eq_of_lt _ m ha hb]

theorem fl_eq_of_tie_odd (q : ℚ) (k m : ℤ) (hk : -1022 ≤ k) (h1 : (2 : ℚ) ^ k ≤ |q|)
    (h2 : |q| < (2 : ℚ) ^ (k + 1)) (hq : q / 2 ^ (k - 52) = (m : ℚ) + 1 / 2)
    (hm : m % 2 = 1) : fl q = (m + 1 : ℤ) * 2 ^ (k - 52) := by
  rw [fl_eq_of q k hk h1 h2, hq, roundHalfEven_tie_odd m hm]

theorem fl_eq_self_of (q : ℚ) (k m : ℤ) (hk : -1022 ≤ k) (h1 : (2 : ℚ) ^ k ≤ |q|)
    (h2 : |q| < (2 : ℚ) ^ (k + 1)) (hq : q = (m : ℚ) * 2 ^ (k - 52)) : fl q = q := by
  have hu : (2 : ℚ) ^ (k - 52) ≠ 0 := (zpow_pos (by norm_num) _).ne.symm
  rw [fl_eq_of q k hk h1 h2]
  have : q / 2 ^ (k - 52) = (m : ℚ) := by rw [hq]; field_simp
  rw [this, roundHalfEven_intCast, ← hq]

/-- A natural number below `2 ^ 53` is a binary64 value. -/
theorem fl_natCast (n : ℕ) (h : n < 2 ^ 53) : fl (n : ℚ) = n := by
  rcases Nat.eq_zero_or_pos n with h0 | hpos
  · subst h0; simpa using fl_zero
  have hk : Nat.log 2 n < 53 := Nat.log_lt_of_lt_pow hpos.ne.symm h
  have hlo : 2 ^ Nat.log 2 n ≤ n := Nat.pow_log_le_self 2 hpos.ne.symm
  have hhi : n < 2 ^ (Nat.log 2 n + 1) := Nat.lt_pow_succ_log_self (by norm_num) n
  have hq : (0 : ℚ) ≤ n := Nat.cast_nonneg n
  obtain ⟨j, hj⟩ : ∃ j : ℕ, Nat.log 2 n + j = 52 := ⟨52 - Nat.log 2 n, by omega⟩
  refine fl_eq_self_of (n : ℚ) (Nat.log 2 n : ℤ) ((n * 2 ^ j : ℕ) : ℤ) (by omega) ?_ ?_ ?_
  · rw [abs_of_nonneg hq, zpow_natCast]; exact_mod_cast hlo
  · rw [abs_of_nonneg hq, show ((Nat.log 2 n : ℤ) + 1) = ((Nat.log 2 n + 1 : ℕ) : ℤ) by
      push_cast; ring, zpow_natCast]
    exact_mod_cast hhi
  · have he : ((Nat.log 2 n : ℤ) - 52) = -(j : ℤ) := by omega
    rw [he, zpow_neg, zpow_natCast]
    push_cast
    field_simp

theorem CUSTOMER_WEIGHT_eq : CUSTOMER_WEIGHT = 6004799503160661 / 2 ^ 53 := by
  unfold CUSTOMER_WEIGHT
  rw [fl_eq_of_near (1000 / 1500) (-1) 6004799503160661 (by norm_num)
    (by rw [abs_of_nonneg (by norm_num)]; norm_num)
    (by rw [abs_of_nonneg (by norm_num)]; norm_num) (by norm_num) (by norm_num)]
  norm_num

theorem VENDOR_WEIGHT_eq : VENDOR_WEIGHT = 4803839602528529 / 2 ^ 55 := by
  unfold VENDOR_WEIGHT
  rw [fl_eq_of_near (200 / 1500) (-3) 4803839602528529 (by norm_num)
    (by rw [abs_of_nonneg (by norm_num)]; norm_num)
    (by rw [abs_of_nonneg (by norm_num)]; norm_num) (by norm_num) (by norm_num)]
  norm_num

theorem RIDER_WEIGHT_eq : RIDER_WEIGHT = 7205759403792794 / 2 ^ 55 := by
  unfold RIDER_WEIGHT
  rw [fl_eq_of_near (300 / 1500) (-3) 7205759403792794 (by norm_num)
    (by rw [abs_of_nonneg (by norm_num)]; norm_num)
    (by rw [abs_of_nonneg (by norm_num)]; norm_num) (by norm_num) (by norm_num)]
  norm_num

theorem vendorCut_eq : fl (CUSTOMER_WEIGHT + VENDOR_WEIGHT) = 7205759403792793 / 2 ^ 53 := by
  rw [CUSTOMER_WEIGHT_eq, VENDOR_WEIGHT_eq]
  rw [fl_eq_of_near _ (-1) 7205759403792793 (by norm_num)
    (by rw [abs_of_nonneg (by norm_num)]; norm_num)
    (by rw [abs_of_nonneg (by norm_num)]; norm_num) (by norm_num) (by norm_num)]
  norm_num

theorem weights_sum_eq : fl (fl (CUSTOMER_WEIGHT + VENDOR_WEIGHT) + RIDER_WEIGHT) = 1 := by
  rw [vendorCut_eq, RIDER_WEIGHT_eq]
  rw [fl_eq_of_tie_odd _ (-1) 9007199254740991 (by norm_num)
    (by rw [abs_of_nonneg (by norm_num)]; norm_num)
    (by rw [abs_of_nonneg (by norm_num)]; norm_num) (by norm_num) (by norm_num)]
  norm_num

theorem generateDelay_top : generateDelay (1 - 1 / 2 ^ 53) 1 5 = 5000 := by
  unfold generateDelay
  rw [show (5 : ℚ) - 1 = ((4 : ℕ) : ℚ) by norm_num, fl_natCast 4 (by norm_num)]
  rw [fl_eq_self_of ((1 - 1 / 2 ^ 53) * ((4 : ℕ) : ℚ)) 1 9007199254740991 (by norm_num)
    (by rw [abs_of_nonneg (by norm_num)]; norm_num)
    (by rw [abs_of_nonneg (by norm_num)]; norm_num) (by norm_num)]
  rw [fl_eq_of_tie_odd ((1 - 1 / 2 ^ 53) * ((4 : ℕ) : ℚ) + 1) 2 5629499534213119 (by norm_num)
    (by rw [abs_of_nonneg (by norm_num)]; norm_num)
    (by rw [abs_of_nonneg (by norm_num)]; norm_num) (by norm_num) (by norm_num)]
  rw [show (((5629499534213119 + 1 : ℤ) : ℚ) * 2 ^ ((2 : ℤ) - 52) * 1000) = ((5000 : ℕ) : ℚ) by
    norm_num, fl_natCast 5000 (by norm_num)]
  norm_num

/-- A binary64 value in `[1/2, 1)` is a multiple of `2 ^ (-53)`. -/
theorem fl_fixed_half (r : ℚ) (h : fl r = r) (h1 : 1 / 2 ≤ r) (h2 : r < 1) :
    ∃ m : ℤ, r = m / 2 ^ 53 := by
  refine ⟨roundHalfEven (r / 2 ^ ((-1 : ℤ) - 52)), ?_⟩
  have h0 : 0 ≤ r := by linarith
  have := fl_eq_of r (-1) (by norm_num) (by rw [abs_of_nonneg h0]; norm_num; linarith)
    (by rw [abs_of_nonneg h0]; norm_num; linarith)
  rw [h] at this
  rw [div_eq_mul_inv]
  convert this using 2
  norm_num [zpow_neg]

/-- A binary64 draw other than the two cut points is below a cut point exactly
when it is below the exact fraction that the cut point approximates. -/
theorem double_draw_cuts (r : ℚ) (h : fl r = r) (hc : r ≠ 6004799503160661 / 2 ^ 53)
    (hv : r ≠ 7205759403792793 / 2 ^ 53) :
    (r < 6004799503160661 / 2 ^ 53 ↔ r < 2 / 3) ∧
    (r < 7205759403792793 / 2 ^ 53 ↔ r < 4 / 5) := by
  rcases lt_or_le r (1 / 2) with h1 | h1
  · have a : r < 6004799503160661 / 2 ^ 53 := lt_trans h1 (by norm_num)
    have b : r < 7205759403792793 / 2 ^ 53 := lt_trans h1 (by norm_num)
    exact ⟨⟨fun _ => by linarith, fun _ => a⟩, ⟨fun _ => by linarith, fun _ => b⟩⟩
  rcases lt_or_le r 1 with h2 | h2
  · obtain ⟨m, rfl⟩ := fl_fixed_half r h h1 h2
    have p : (0 : ℚ) < 2 ^ 53 := by norm_num
    have e1 : ((m : ℚ) / 2 ^ 53 < 6004799503160661 / 2 ^ 53) ↔ m < 6004799503160661 := by
      rw [div_lt_div_iff_of_pos_right p]; exact_mod_cast Iff.rfl
    have e2 : ((m : ℚ) / 2 ^ 53 < 7205759403792793 / 2 ^ 53) ↔ m < 7205759403792793 := by
      rw [div_lt_div_iff_of_pos_right p]; exact_mod_cast Iff.rfl
    have n1 : m ≠ 6004799503160661 := by
      rintro rfl; exact hc (by norm_num)
    have n2 : m ≠ 7205759403792793 := by
      rintro rfl; exact hv (by norm_num)
    have f1 : ((m : ℚ) / 2 ^ 53 < 2 / 3) ↔ 3 * m < 2 ^ 54 := by
      rw [div_lt_iff₀ p]
      constructor
      · intro q
        have : ((3 * m : ℤ) : ℚ) < ((2 ^ 54 : ℤ) : ℚ) := by push_cast; linarith
        exact_mod_cast this
      · intro q
        have : ((3 * m : ℤ) : ℚ) < ((2 ^ 54 : ℤ) : ℚ) := by exact_mod_cast q
        push_cast at this; linarith
    have f2 : ((m : ℚ) / 2 ^ 53 < 4 / 5) ↔ 5 * m < 2 ^ 55 := by
      rw [div_lt_iff₀ p]
      constructor
      · intro q
        have : ((5 * m : ℤ) : ℚ) < ((2 ^ 55 : ℤ) : ℚ) := by push_cast; linarith
        exact_mod_cast this
      · intro q
        have : ((5 * m : ℤ) : ℚ) < ((2 ^ 55 : ℤ) : ℚ) := by exact_mod_cast q
        push_cast at this; linarith
    rw [e1, e2, f1, f2]
    constructor <;> constructor <;> intro q <;> omega
  · have a : ¬ r < 6004799503160661 / 2 ^ 53 := not_lt.2 (le_trans (by norm_num) h2)
    have b : ¬ r < 7205759403792793 / 2 ^ 53 := not_lt.2 (le_trans (by norm_num) h2)
    exact ⟨⟨fun q => absurd q a, fun q => by linarith⟩, ⟨fun q => absurd q b, fun q => by linarith⟩⟩

theorem generateDelay_between (random : ℚ) (n m : ℕ) (h0 : 0 ≤ random) (h1 : random < 1)
    (hnm : n ≤ m) (hm : m * 1000 < 2 ^ 53) :
    (n : ℚ) * 1000 ≤ generateDelay random n m ∧ generateDelay random n m ≤ (m : ℚ) * 1000 := by
  unfold generateDelay
  have hD : fl ((m : ℚ) - n) = ((m - n : ℕ) : ℚ) := by
    rw [← Nat.cast_sub hnm]; exact fl_natCast _ (by omega)
  rw [hD]
  have hDn : ((m - n : ℕ) : ℚ) + n = m := by rw [Nat.cast_sub hnm]; ring
  generalize ((m - n : ℕ) : ℚ) = D at hDn
  have hn0 : (0 : ℚ) ≤ n := Nat.cast_nonneg n
  have hD0 : 0 ≤ D := by
    have : (n : ℚ) ≤ m := by exact_mod_cast hnm
    linarith
  have hp0 : 0 ≤ random * D := mul_nonneg h0 hD0
  have hpD : random * D ≤ D := by nlinarith
  have hfD : fl D = D := by
    have : D = ((m - n : ℕ) : ℚ) := by rw [Nat.cast_sub hnm]; linarith
    rw [this]; exact fl_natCast _ (by omega)
  have p0 : 0 ≤ fl (random * D) := fl_nonneg hp0
  have pD : fl (random * D) ≤ D := by
    have := fl_mono hp0 hpD
    rwa [hfD] at this
  have s0 : (n : ℚ) ≤ fl (fl (random * D) + n) := by
    have := fl_mono hn0 (show (n : ℚ) ≤ fl (random * D) + n by linarith)
    rwa [fl_natCast n (by omega)] at this
  have sD : fl (fl (random * D) + n) ≤ m := by
    have := fl_mono (show 0 ≤ fl (random * D) + n by linarith)
      (show fl (random * D) + n ≤ ((m : ℕ) : ℚ) by linarith)
    rwa [fl_natCast m (by omega)] at this
  constructor
  · have := fl_mono (show (0 : ℚ) ≤ ((n * 1000 : ℕ) : ℚ) from Nat.cast_nonneg _)
      (show ((n * 1000 : ℕ) : ℚ) ≤ fl (fl (random * D) + n) * 1000 by push_cast; linarith)
    rw [fl_natCast _ (by omega)] at this
    push_cast at this
    exact this
  · have := fl_mono (show 0 ≤ fl (fl (random * D) + n) * 1000 by linarith)
      (show fl (fl (random * D) + n) * 1000 ≤ ((m * 1000 : ℕ) : ℚ) by push_cast; linarith)
    rw [fl_natCast _ hm] at this
    push_cast at this
    exact this

/-! ## The journeys: claims C1 to C6 -/

/-- C1: when the login step returns `success: false`, each of `customerJourney`,
`vendorJourney` and `riderJourney` returns `{ success: false, error: 'Login
failed', step: 'login' }`, and the login call is the only event of the run: no
later step is invoked. -/
theorem login_failure_aborts_journey (cenv : CustomerEnv) (venv : VendorEnv) (renv : RiderEnv)
    (w : World) (lr : LoginResult) (hs : lr.success = false) :
    (cenv.customerLogin = .ok lr →
      customerJourney cenv w =
        (.ok { success := false, error := some "Login failed", step := some "login" },
         { w with events := w.events ++ [Event.call .customerLogin] })) ∧
    (venv.vendorLogin = .ok lr →
      vendorJourney venv w =
        (.ok { success := false, error := some "Login failed", step := some "login" },
         { w with events := w.events ++ [Event.call .vendorLogin] })) ∧
    (renv.riderLogin = .ok lr →
      riderJourney renv w =
        (.ok { success := false, error := some "Login failed", step := some "login" },
         { w with events := w.events ++ [Event.call .riderLogin] })) := by
  refine ⟨fun h => ?_, fun h => ?_, fun h => ?_⟩
  · simp [customerJourney, callFn, customerJourneyBody, tryCatch, customerJourneyTry, step,
      returnIf, h, hs]
  · simp [vendorJourney, callFn, vendorJourneyBody, tryCatch, vendorJourneyTry, step,
      returnIf, h, hs]
  · simp [riderJourney, callFn, riderJourneyBody, tryCatch, riderJourneyTry, step,
      returnIf, h, hs]

/-- C1 at three concrete runs whose login answers `{ success: false, error:
'Unauthorized' }`. -/
theorem login_failure_aborts_journey_witness :
    customerJourney customerEnvLoginFails {} =
        (.ok { success := false, error := some "Login failed", step := some "login" },
         { events := [Event.call .customerLogin] }) ∧
    vendorJourney vendorEnvLoginFails {} =
        (.ok { success := false, error := some "Login failed", step := some "login" },
         { events := [Event.call .vendorLogin] }) ∧
    riderJourney riderEnvLoginFails {} =
        (.ok { success := false, error := some "Login failed", step := some "login" },
         { events := [Event.call .riderLogin] }) :=
  have h := login_failure_aborts_journey customerEnvLoginFails vendorEnvLoginFails
    riderEnvLoginFails {} { success := false, error := some "Unauthorized" } rfl
  ⟨h.1 rfl, h.2.1 rfl, h.2.2 rfl⟩

/-- C2, the defect: the customer and the vendor journey never get as far as
their optional last step.  On every run in which the steps before the order
placement succeed, `customerJourney` returns `{ success: false, duration,
timestamp }`: `placeOrder` is imported by name from a module that exports it only
as default, so the call in line 89 throws and the `catch` block resets the
success flag.  In the same way `vendorJourney` returns that object on every run
in which its earlier steps succeed, because the optional step itself, the call
of `viewOrders` in line 111, throws; on no run at all does `vendorJourney`
report success.  The rider journey, whose steps on this path are bound imports,
behaves as claimed: with an available assignment and the earlier steps
succeeding it returns `success: true` whatever the final `updateLocation`
reports. -/
theorem journeys_fail_before_optional_step (cenv : CustomerEnv) (venv : VendorEnv)
    (renv : RiderEnv) (w : World) :
    (customerStepsSucceed cenv = true →
      (customerJourney cenv w).1 =
        .ok { success := false,
              duration := some (cenv.journeyEndTime - cenv.journeyStartTime),
              timestamp := some cenv.isoTimestamp }) ∧
    (vendorStepsSucceed venv = true →
      (vendorJourney venv w).1 =
        .ok { success := false,
              duration := some (venv.journeyEndTime - venv.journeyStartTime),
              timestamp := some venv.isoTimestamp }) ∧
    journeySucceeded (vendorJourney venv w) = false ∧
    (0 ≤ renv.random → renv.random < 1 → riderStepsSucceed renv = true →
      journeySucceeded (riderJourney renv w) = true) :=
  ⟨fun h => journey_of_throw _ _ _ _ recordCustomerJourneyMetrics (fun _ _ _ _ => ⟨_, rfl⟩) w
      (customerJourneyTry_throws cenv w h),
   fun h => journey_of_throw _ _ _ _ recordVendorJourneyMetrics (fun _ _ _ _ => ⟨_, rfl⟩) w
      (vendorJourneyTry_throws venv w h),
   journey_fails_of_try _ _ _ _ recordVendorJourneyMetrics (fun _ _ _ _ => ⟨_, rfl⟩)
      (vendorJourneyTry_fails venv) w,
   fun h0 h1 h => riderJourney_succeeds renv w h0 h1 h⟩

/-- C2 at the failing inputs: a customer run and a vendor run in which every
step the journey can call succeeds; and a rider run whose final `updateLocation`
reports `success: false`. -/
theorem journeys_fail_before_optional_step_witness :
    (customerJourney customerEnvOptionalFails {}).1 =
      .ok { success := false, duration := some 60000,
            timestamp := some "2024-01-01T00:01:01.000Z" } ∧
    (vendorJourney vendorEnvOptionalFails {}).1 =
      .ok { success := false, duration := some 90000,
            timestamp := some "2024-01-01T00:01:31.000Z" } ∧
    riderEnvOptionalFails.updateLocation = .ok { success := false } ∧
    journeySucceeded (riderJourney riderEnvOptionalFails {}) = true :=
  have h := journeys_fail_before_optional_step customerEnvOptionalFails
    vendorEnvOptionalFails riderEnvOptionalFails {}
  ⟨h.1 (by decide), h.2.1 (by decide), rfl,
   h.2.2.2 (by decide) (by decide) (by decide)⟩

/-- C3, the defect: `customerJourney` returns `success: false` on every run.  The
sixth condition cannot be met: the call of `placeOrder` in line 89 throws, since
the name is imported from a module that exports the function only as default,
and every earlier way out of the `try` block is a failure object or an
exception. -/
theorem customerJourney_never_succeeds (env : CustomerEnv) (w : World) :
    journeySucceeded (customerJourney env w) = false :=
  journey_fails_of_try _ _ _ _ recordCustomerJourneyMetrics (fun _ _ _ _ => ⟨_, rfl⟩)
    (customerJourneyTry_fails env) w

/-- C4, the defect: whenever `customerJourney` returns the object of a failing
step (the object names a `step`), that object has no `duration` and no
`timestamp`: the `return` inside the `try` block leaves the function before the
elapsed time is computed. -/
theorem customer_step_failure_has_no_duration (env : CustomerEnv) (w : World)
    (r : JourneyResult) (h : (customerJourney env w).1 = .ok r) (hstep : r.step.isSome = true) :
    r.duration = none ∧ r.timestamp = none := by
  obtain ⟨r', hr, -, hshape⟩ := customerJourney_shape env w
  rw [h] at hr
  cases hr
  rcases hshape with hf | ⟨b, rfl⟩
  · exact hf.2
  · simp at hstep

/-- C4 at the failing input: the cart review returns `success: false`; the
journey returns the step name `cart_review` and neither duration nor timestamp. -/
theorem customer_step_failure_has_no_duration_witness :
    ∃ r, (customerJourney customerEnvCartReviewFails {}).1 = .ok r ∧ r.success = false ∧
      r.step = some "cart_review" ∧ r.duration = none ∧ r.timestamp = none :=
  have h : (customerJourney customerEnvCartReviewFails {}).1 =
      .ok { success := false, error := some "Cart review failed",
            step := some "cart_review" } := by
    simp [customerJourney, callFn, customerJourneyBody, customerJourneyTry, tryCatch, step,
      deref, think, emit, returnIf, jsReturn, customerEnvCartReviewFails,
      customerEnvOptionalFails, randomIndex]
  ⟨_, h, rfl, rfl, customer_step_failure_has_no_duration customerEnvCartReviewFails {} _ h rfl⟩

/-- C5: no step exception escapes a journey.  Each journey call returns an
object, and when a step raised during the call that object has `success: false`
together with the duration and the timestamp. -/
theorem journeys_convert_step_exceptions (cenv : CustomerEnv) (venv : VendorEnv)
    (renv : RiderEnv) (w : World) :
    (∃ r, (customerJourney cenv w).1 = .ok r ∧
      ((∃ s, Event.raised s ∈ newEvents w (customerJourney cenv w)) →
        r = { success := false,
              duration := some (cenv.journeyEndTime - cenv.journeyStartTime),
              timestamp := some cenv.isoTimestamp })) ∧
    (∃ r, (vendorJourney venv w).1 = .ok r ∧
      ((∃ s, Event.raised s ∈ newEvents w (vendorJourney venv w)) →
        r = { success := false,
              duration := some (venv.journeyEndTime - venv.journeyStartTime),
              timestamp := some venv.isoTimestamp })) ∧
    (∃ r, (riderJourney renv w).1 = .ok r ∧
      ((∃ s, Event.raised s ∈ newEvents w (riderJourney renv w)) →
        r = { success := false,
              duration := some (renv.journeyEndTime - renv.journeyStartTime),
              timestamp := some renv.isoTimestamp })) := by
  refine ⟨?_, ?_, ?_⟩
  · obtain ⟨r, h1, h2, -⟩ := customerJourney_shape cenv w
    exact ⟨r, h1, h2⟩
  · obtain ⟨r, h1, h2, -⟩ := vendorJourney_shape venv w
    exact ⟨r, h1, h2⟩
  · obtain ⟨r, h1, h2, -⟩ := riderJourney_shape renv w
    exact ⟨r, h1, h2⟩

/-- C5 at three concrete runs in which a step throws (the menu view, the order
details, the delivery flow). -/
theorem journeys_convert_step_exceptions_witness :
    (customerJourney customerEnvMenuThrows {}).1 =
      .ok { success := false, duration := some 60000,
            timestamp := some "2024-01-01T00:01:01.000Z" } ∧
    (vendorJourney vendorEnvDetailsThrows {}).1 =
      .ok { success := false, duration := some 90000,
            timestamp := some "2024-01-01T00:01:31.000Z" } ∧
    (riderJourney riderEnvDeliveryThrows {}).1 =
      .ok { success := false, duration := some 120000,
            timestamp := some "2024-01-01T00:02:01.000Z" } := by
  have h := journeys_convert_step_exceptions customerEnvMenuThrows vendorEnvDetailsThrows
    riderEnvDeliveryThrows {}
  obtain ⟨⟨rc, hc1, hc2⟩, ⟨rv, hv1, hv2⟩, ⟨rr, hr1, hr2⟩⟩ := h
  refine ⟨?_, ?_, ?_⟩
  · rw [hc1, hc2 ⟨StepName.viewMenu, ?_⟩]
    · rfl
    · simp [newEvents, customerJourney, callFn, customerJourneyBody, customerJourneyTry,
        tryCatch, step, deref, think, emit, returnIf, jsReturn, recordCustomerJourneyMetrics,
        customerEnvMenuThrows, customerEnvOptionalFails, randomIndex]
  · rw [hv1, hv2 ⟨StepName.getOrderDetails, ?_⟩]
    · rfl
    · simp [newEvents, vendorJourney, callFn, vendorJourneyBody, vendorJourneyTry,
        tryCatch, step, deref, think, emit, returnIf, jsWhen, jsReturn,
        recordVendorJourneyMetrics, vendorEnvDetailsThrows, vendorEnvOptionalFails, randomIndex]
  · rw [hr1, hr2 ⟨StepName.completeDeliveryFlow, ?_⟩]
    · rfl
    · simp [newEvents, riderJourney, callFn, riderJourneyBody, riderJourneyTry,
        tryCatch, step, deref, think, emit, returnIf, jsWhen, jsReturn,
        recordRiderJourneyMetrics, riderEnvDeliveryThrows, riderEnvOptionalFails, randomIndex]

/-- C6, the defect: a journey that returns the object of a failing step adds no
sample to its journey-time Trend (here the login fails in each journey), while
a journey that completes (the rider run), or whose `try` block is left by an
exception, adds exactly one. -/
theorem step_failure_records_no_journey_time :
    (customerJourney customerEnvLoginFails {}).2.metrics.customerJourneyTime = [] ∧
    (vendorJourney vendorEnvLoginFails {}).2.metrics.vendorJourneyTime = [] ∧
    (riderJourney riderEnvLoginFails {}).2.metrics.riderJourneyTime = [] ∧
    (customerJourney customerEnvOptionalFails {}).2.metrics.customerJourneyTime = [60000] ∧
    (customerJourney customerEnvMenuThrows {}).2.metrics.customerJourneyTime = [60000] ∧
    (riderJourney riderEnvOptionalFails {}).1 =
      .ok { success := true, duration := some 120000,
            timestamp := some "2024-01-01T00:02:01.000Z" } ∧
    (riderJourney riderEnvOptionalFails {}).2.metrics.riderJourneyTime = [120000] := by
  refine ⟨?_, ?_, ?_, ?_, ?_, ?_, ?_⟩
  · simp [customerJourney, callFn, customerJourneyBody, customerJourneyTry, tryCatch, step,
      returnIf, customerEnvLoginFails]
  · simp [vendorJourney, callFn, vendorJourneyBody, vendorJourneyTry, tryCatch, step,
      returnIf, vendorEnvLoginFails]
  · simp [riderJourney, callFn, riderJourneyBody, riderJourneyTry, tryCatch, step,
      returnIf, riderEnvLoginFails]
  · simp [customerJourney, callFn, customerJourneyBody, customerJourneyTry, tryCatch, step,
      deref, think, emit, returnIf, jsReturn, recordCustomerJourneyMetrics, callUndefined,
      jsThrow, customerEnvOptionalFails, randomIndex]
  · simp [customerJourney, callFn, customerJourneyBody, customerJourneyTry, tryCatch, step,
      deref, think, emit, returnIf, jsReturn, recordCustomerJourneyMetrics,
      customerEnvMenuThrows, customerEnvOptionalFails, randomIndex]
  · simp [riderJourney, callFn, riderJourneyBody, riderJourneyTry, tryCatch, step,
      deref, think, emit, returnIf, jsWhen, jsReturn, recordRiderJourneyMetrics,
      riderEnvOptionalFails, randomIndex]
  · simp [riderJourney, callFn, riderJourneyBody, riderJourneyTry, tryCatch, step,
      deref, think, emit, returnIf, jsWhen, jsReturn, recordRiderJourneyMetrics,
      riderEnvOptionalFails, randomIndex]


/-! ## The iteration functions: claim C7 -/

/-- A default function whose whole body is `try { body } catch (error) {
console.error(...) }` returns normally, whatever `body` does. -/
theorem iteration_tryCatch_returns (body : JsM Unit Unit) (message : String) (w : World) :
    (iteration (tryCatch body (fun _error => emit (Event.consoleError message))) w).1 =
      .ok () := by
  unfold iteration callFn tryCatch
  rcases body w with ⟨c, w1⟩
  cases c <;> simp [emit]

/-- C7: the default function of the load, stress, spike and smoke tests returns
normally for every random draw (or VU number), every world and every behaviour
of the three journeys: each journey may return any object, return `undefined`
or throw. -/
theorem iteration_never_throws (random : ℚ) (vu : Nat)
    (customerJourney vendorJourney riderJourney : JourneyFn) (w : World) :
    (iteration (loadTestDefault random customerJourney vendorJourney riderJourney) w).1 = .ok () ∧
    (iteration (stressTestDefault random customerJourney vendorJourney riderJourney) w).1 = .ok () ∧
    (iteration (spikeTestDefault random customerJourney vendorJourney riderJourney) w).1 = .ok () ∧
    (iteration (smokeTestDefault vu customerJourney vendorJourney riderJourney) w).1 = .ok () :=
  ⟨iteration_tryCatch_returns _ _ w, iteration_tryCatch_returns _ _ w,
   iteration_tryCatch_returns _ _ w, iteration_tryCatch_returns _ _ w⟩


/-! ## The token store: claims C8 to C10 -/

@[simp] theorem Tokens.get_set_same (t : Tokens) (k : UserType) (v : Token) :
    (t.set k v).get k = v := by
  cases k <;> rfl

theorem Tokens.get_set_other (t : Tokens) (k k' : UserType) (v : Token) (h : k' ≠ k) :
    (t.set k v).get k' = t.get k' := by
  cases k <;> cases k' <;> first | rfl | exact absurd rfl h

/-- C8 as stated fails: with no customer token cached and the draw `0 < 0.1`,
`ensureValidToken` returns `false` and leaves the world untouched: no call of
`refreshToken` is traced, whereas a call of `refreshToken` in the same world
leaves its trace. -/
theorem ensureValidToken_claim_counterexample :
    ensureValidToken 0 { status := 200, token := some "new" } .customer {} = (.ok false, {}) ∧
    (refreshToken { status := 200, token := some "new" } .customer {}).2.events =
      [Event.call .refreshToken, Event.consoleError "No token found"] := by
  constructor
  · simp [ensureValidToken, callFn, ensureValidTokenBody, getToken, returnIf, Tokens.get, truthy]
  · simp [refreshToken, callFn, refreshTokenBody, getToken, jsWhen, emit, jsReturn, Tokens.get,
      truthy]

/-- C8, amended: `ensureValidToken` is decided by the cached token and the draw
`r`.  With a token cached and `r >= 0.1` it returns `true` and leaves the world
(trace, token store) unchanged; with a token cached and `r < 0.1` it behaves as
the call `refreshToken(baseUrl, userType)` and returns its result; with no token
cached it returns `false` and leaves the world unchanged, without calling
`refreshToken`. -/
theorem ensureValidToken_cases (random : ℚ) (response : Response) (userType : UserType)
    (w : World) :
    (truthy (w.tokens.get userType) = true → 1 / 10 ≤ random →
      ensureValidToken random response userType w = (.ok true, w)) ∧
    (truthy (w.tokens.get userType) = true → random < 1 / 10 →
      ensureValidToken random response userType w = refreshToken response userType w) ∧
    (truthy (w.tokens.get userType) = false →
      ensureValidToken random response userType w = (.ok false, w)) := by
  refine ⟨fun hc hr => ?_, fun hc hr => ?_, fun hc => ?_⟩
  · have hr' : (10 : ℚ)⁻¹ ≤ random := by simpa using hr
    simp [ensureValidToken, callFn, ensureValidTokenBody, getToken, returnIf, jsWhen, jsReturn,
      hc, hr'.not_lt]
  · simp only [ensureValidToken, callFn, ensureValidTokenBody, getToken, returnIf, jsWhen,
      jsReturn, bind_apply, hc, hr, invoke]
    rcases h : refreshToken response userType w with ⟨c, w1⟩
    cases c <;> simp [h]
  · simp [ensureValidToken, callFn, ensureValidTokenBody, getToken, returnIf, hc]

/-- C8, amended, at concrete inputs: a cached customer token `old`; the draw
`1/2` leaves the world alone, the draw `0` hands over to `refreshToken`; with no
vendor token cached the vendor call returns `false`. -/
theorem ensureValidToken_cases_witness :
    ensureValidToken (1 / 2) { status := 200, token := some "new" } .customer
        { tokens := { customer := some "old" } } =
      (.ok true, { tokens := { customer := some "old" } }) ∧
    ensureValidToken 0 { status := 200, token := some "new" } .customer
        { tokens := { customer := some "old" } } =
      refreshToken { status := 200, token := some "new" } .customer
        { tokens := { customer := some "old" } } ∧
    ensureValidToken 0 { status := 200, token := some "new" } .vendor
        { tokens := { customer := some "old" } } =
      (.ok false, { tokens := { customer := some "old" } }) :=
  ⟨(ensureValidToken_cases (1 / 2) { status := 200, token := some "new" } .customer
      { tokens := { customer := some "old" } }).1 (by decide) (by norm_num),
   (ensureValidToken_cases 0 { status := 200, token := some "new" } .customer
      { tokens := { customer := some "old" } }).2.1 (by decide) (by norm_num),
   (ensureValidToken_cases 0 { status := 200, token := some "new" } .vendor
      { tokens := { customer := some "old" } }).2.2 (by decide)⟩

/-- C9, the defect: with a token cached, `refreshToken` throws a
`ReferenceError` at the call of `http.post` in line 159, whatever the server
would answer: it returns neither `true` nor `false`, sends no request and leaves
the whole token store as it was, so a response of status 200 does not replace
the cached token. -/
theorem refreshToken_throws (response : Response) (userType : UserType) (w : World)
    (h : truthy (w.tokens.get userType) = true) :
    refreshToken response userType w =
      (.error "ReferenceError", { w with events := w.events ++ [Event.call .refreshToken] }) := by
  simp [refreshToken, callFn, refreshTokenBody, getToken, jsWhen, emit, httpUnbound, jsThrow, h]

/-- C9 at the failing input: the customer token `old` is cached and the server
would answer 200 with the token `new`. -/
theorem refreshToken_throws_witness :
    (refreshToken { status := 200, token := some "new" } .customer
        { tokens := { customer := some "old" } }).1 = .error "ReferenceError" ∧
    (refreshToken { status := 200, token := some "new" } .customer
        { tokens := { customer := some "old" } }).2.tokens.get .customer = some "old" := by
  rw [refreshToken_throws { status := 200, token := some "new" } .customer
    { tokens := { customer := some "old" } } (by decide)]
  exact ⟨rfl, rfl⟩

/-- C10, the defect: each of `loginCustomer`, `loginVendor` and `loginRider`
throws a `ReferenceError` at its call of `http.post` (lines 35, 77, 119), whatever
the server would answer: no request is sent, no result object is returned and no
token slot is written, also for a response of status 200. -/
theorem login_throws (response : Response) (w : World) :
    loginCustomer response w = (.error "ReferenceError", w) ∧
    loginVendor response w = (.error "ReferenceError", w) ∧
    loginRider response w = (.error "ReferenceError", w) := by
  refine ⟨?_, ?_, ?_⟩ <;>
    simp [loginCustomer, loginVendor, loginRider, callFn, loginCustomerBody, loginVendorBody,
      loginRiderBody, httpUnbound, jsThrow]

/-! ## The token store, continued: claims C11 and C14 -/

/-- C11: `logout(kind)` returns `true` and only empties the slot of `kind`: the
world changes in that slot alone, the slots of the other kinds keep their
tokens, afterwards `getAuthHeaders(kind)` returns the empty object (no
`Authorization` header) and `ensureValidToken(kind)` returns `false`, and a
second `logout(kind)` changes nothing. -/
theorem logout_clears_own_slot (userType : UserType) (w : World) (random : ℚ)
    (response : Response) :
    logout userType w = (.ok true, { w with tokens := w.tokens.set userType none }) ∧
    (logout userType w).2.tokens.get userType = none ∧
    (∀ k, k ≠ userType → (logout userType w).2.tokens.get k = w.tokens.get k) ∧
    (∃ headers, (getAuthHeaders userType (logout userType w).2).1 = .ok headers ∧
      headers = [] ∧ JsObject.get headers "Authorization" = none) ∧
    (ensureValidToken random response userType (logout userType w).2).1 = .ok false ∧
    logout userType (logout userType w).2 = (.ok true, (logout userType w).2) := by
  have h : logout userType w = (.ok true, { w with tokens := w.tokens.set userType none }) := by
    simp [logout, callFn, logoutBody, setToken, jsReturn]
  refine ⟨h, ?_, ?_, ⟨[], ?_, rfl, rfl⟩, ?_, ?_⟩
  · simp [h]
  · intro k hk
    simp [h, Tokens.get_set_other _ _ _ _ hk]
  · simp [h, getAuthHeaders, callFn, getAuthHeadersBody, getToken, jsWhen, emit, jsReturn,
      truthy]
  · simp [h, ensureValidToken, callFn, ensureValidTokenBody, getToken, returnIf, truthy]
  · rw [h]
    cases userType <;>
      simp [logout, callFn, logoutBody, setToken, jsReturn, Tokens.set]

/-- C11 at a concrete store holding a customer and a vendor token: logging the
customer out keeps the vendor token. -/
theorem logout_clears_own_slot_witness :
    (logout .customer { tokens := { customer := some "c", vendor := some "v" } }).2.tokens.get
        .vendor = some "v" ∧
    (logout .customer { tokens := { customer := some "c", vendor := some "v" } }).2.tokens.get
        .customer = none :=
  have h := logout_clears_own_slot .customer
    { tokens := { customer := some "c", vendor := some "v" } } 0 { status := 200 }
  ⟨h.2.2.1 .vendor (by decide), h.2.1⟩

/-- C14 as stated fails: the server would answer a login request with status 201,
inside `[200, 300)`, and a token; no login function reports success and the
token store stays empty.  Nor would the statements that follow the request
report success for that response: they test `status === 200`. -/
theorem login_status_range_counterexample :
    200 ≤ ({ status := 201, token := some "jwt" } : Response).status ∧
    ({ status := 201, token := some "jwt" } : Response).status < 300 ∧
    loginSucceeds (loginCustomer { status := 201, token := some "jwt" } {}).1 = false ∧
    loginSucceeds (loginVendor { status := 201, token := some "jwt" } {}).1 = false ∧
    loginSucceeds (loginRider { status := 201, token := some "jwt" } {}).1 = false ∧
    (loginCustomer { status := 201, token := some "jwt" } {}).2.tokens = {} ∧
    (callFn (loginCustomerAfterRequest { status := 201, token := some "jwt" }) {}).1 =
      .ok { success := false, error := some "" } := by
  refine ⟨by decide, by decide, ?_, ?_, ?_, ?_, ?_⟩ <;>
    simp [loginSucceeds, loginCustomer, loginVendor, loginRider, callFn, loginCustomerBody,
      loginVendorBody, loginRiderBody, loginCustomerAfterRequest, readJson, httpUnbound,
      jsThrow, getToken, setToken, jsWhen, emit, jsReturn]

/-- C14, amended: a login reports success and stores a token only for a response
of status exactly 200.  For every response of another status, the other statuses
in `[200, 300)` included, `loginCustomer`, `loginVendor` and `loginRider` report
no success and leave the token store unchanged; and the statements that follow
the request decide by `status === 200`: for a body that parses they return
`success: true` exactly when the status is 200, and they write a token slot
only then. -/
theorem login_success_only_on_200 (response : Response) (w : World) :
    (response.status ≠ 200 →
      (loginSucceeds (loginCustomer response w).1 = false ∧
        (loginCustomer response w).2.tokens = w.tokens) ∧
      (loginSucceeds (loginVendor response w).1 = false ∧
        (loginVendor response w).2.tokens = w.tokens) ∧
      (loginSucceeds (loginRider response w).1 = false ∧
        (loginRider response w).2.tokens = w.tokens)) ∧
    (response.notJson = none →
      (loginSucceeds (callFn (loginCustomerAfterRequest response) w).1 = true ↔
        response.status = 200) ∧
      (loginSucceeds (callFn (loginVendorAfterRequest response) w).1 = true ↔
        response.status = 200) ∧
      (loginSucceeds (callFn (loginRiderAfterRequest response) w).1 = true ↔
        response.status = 200)) ∧
    (response.status ≠ 200 →
      (callFn (loginCustomerAfterRequest response) w).2.tokens = w.tokens ∧
      (callFn (loginVendorAfterRequest response) w).2.tokens = w.tokens ∧
      (callFn (loginRiderAfterRequest response) w).2.tokens = w.tokens) := by
  refine ⟨fun hs => ?_, fun hj => ?_, fun hs => ?_⟩
  · simp [loginSucceeds, loginCustomer, loginVendor, loginRider, callFn, loginCustomerBody,
      loginVendorBody, loginRiderBody, httpUnbound, jsThrow]
  · by_cases hs : response.status = 200 <;>
      simp [loginSucceeds, callFn, loginCustomerAfterRequest, loginVendorAfterRequest,
        loginRiderAfterRequest, readJson, getToken, setToken, jsWhen, emit, jsReturn, hs, hj]
  · cases hj : response.notJson <;>
      simp [callFn, loginCustomerAfterRequest, loginVendorAfterRequest,
        loginRiderAfterRequest, readJson, jsThrow, getToken, setToken, jsWhen, emit, jsReturn,
        hs, hj]

/-- C14, amended, at concrete inputs: a response of status 201 carrying a token,
and the test applied to a response of status 200. -/
theorem login_success_only_on_200_witness :
    loginSucceeds (loginCustomer { status := 201, token := some "jwt" } {}).1 = false ∧
    (loginCustomer { status := 201, token := some "jwt" } {}).2.tokens = {} ∧
    loginSucceeds
      (callFn (loginCustomerAfterRequest { status := 200, token := some "jwt" }) {}).1 = true :=
  ⟨((login_success_only_on_200 { status := 201, token := some "jwt" } {}).1 (by decide)).1.1,
   ((login_success_only_on_200 { status := 201, token := some "jwt" } {}).1 (by decide)).1.2,
   ((login_success_only_on_200 { status := 200, token := some "jwt" } {}).2.1 rfl).1.2 rfl⟩

/-! ## The API client: claims C12 and C13 -/

theorem getAuthHeaders_eq (userType : UserType) (w : World) :
    getAuthHeaders userType w =
      if truthy (w.tokens.get userType) then
        (.ok [("Authorization", "Bearer " ++ tokenText (w.tokens.get userType)),
              ("Content-Type", "application/json")], w)
      else (.ok [], { w with events := w.events ++ [Event.consoleError "No token found"] }) := by
  cases hc : truthy (w.tokens.get userType) <;>
    simp [getAuthHeaders, callFn, getAuthHeadersBody, getToken, jsWhen, emit, jsReturn, hc]

/-- The first statements of a client method either compute the headers or throw
the `ReferenceError` of `refreshToken`; they trace no request. -/
theorem requestHeaders_outcome {ρ : Type} (env : ApiEnv) (userType : Option UserType)
    (w : World) :
    ∃ l, (∀ url, Event.http url ∉ l) ∧
      ((∃ headers, (requestHeaders env userType : JsM ρ Headers) w =
          (.normal headers, { w with events := w.events ++ l })) ∨
       (requestHeaders env userType : JsM ρ Headers) w =
          (.throw "ReferenceError", { w with events := w.events ++ l })) := by
  cases userType with
  | none =>
    exact ⟨[], by simp,
      Or.inl ⟨[("Content-Type", "application/json")], by simp [requestHeaders]⟩⟩
  | some u =>
    cases hc : truthy (w.tokens.get u)
    · refine ⟨[Event.consoleError "No token found"], by simp,
        Or.inl ⟨[("Content-Type", "application/json")], ?_⟩⟩
      simp [requestHeaders, invoke, ensureValidToken, callFn, ensureValidTokenBody, getToken,
        returnIf, getAuthHeaders_eq, hc, JsObject.spread]
    · by_cases hr : env.random < 1 / 10
      · refine ⟨[Event.call .refreshToken], by simp, Or.inr ?_⟩
        have hr' : env.random < (10 : ℚ)⁻¹ := by simpa using hr
        simp [requestHeaders, invoke, ensureValidToken, callFn, ensureValidTokenBody, getToken,
          returnIf, jsWhen, refreshToken, refreshTokenBody, emit, httpUnbound, jsThrow, hc, hr']
      · refine ⟨[], by simp,
          Or.inl ⟨[("Content-Type", "application/json"),
            ("Authorization", "Bearer " ++ tokenText (w.tokens.get u))], ?_⟩⟩
        have hr' : ¬ env.random < (10 : ℚ)⁻¹ := by simpa using hr
        simp [requestHeaders, invoke, ensureValidToken, callFn, ensureValidTokenBody, getToken,
          returnIf, jsWhen, jsReturn, getAuthHeaders_eq, hc, hr', JsObject.spread,
          JsObject.setKey]

/-- A client method whose first statements are followed by a call of the unbound
`http` throws a `ReferenceError`. -/
theorem client_call_throws (headersBlock : JsM ApiResult Headers) (w : World) (l : List Event)
    (h : (∃ headers, headersBlock w = (.normal headers, { w with events := w.events ++ l })) ∨
      headersBlock w = (.throw "ReferenceError", { w with events := w.events ++ l }))
    (response : Headers → HttpResponse) (method endpoint : String) :
    callFn (do
      let hs ← headersBlock
      let response ← httpUnbound (response hs)
      let result ← invoke (handleResponse response method endpoint)
      jsReturn result) w =
      (.error "ReferenceError", { w with events := w.events ++ l }) := by
  rcases h with ⟨headers, h⟩ | h <;> simp [callFn, h, httpUnbound, jsThrow]

/-- C12, the defect: every client method (`get`, `post`, `put`, `patch`,
`delete`) throws a `ReferenceError`, for every `userType`, payload and `params`
and every state of the token store: the methods call `http.get`, `http.post`,
... (lines 23, 51, 76, 101, 117) in a module that does not import `http`.  No
request is handed to the HTTP layer, so no request carries any header. -/
theorem client_methods_throw (env : ApiEnv) (baseUrl endpoint : String)
    (payload : Option String) (userType : Option UserType) (params : RequestParams)
    (w : World) :
    ∃ l, (∀ url, Event.http url ∉ l) ∧
      ApiClient.get env baseUrl endpoint userType params w =
        (.error "ReferenceError", { w with events := w.events ++ l }) ∧
      ApiClient.post env baseUrl endpoint payload userType params w =
        (.error "ReferenceError", { w with events := w.events ++ l }) ∧
      ApiClient.put env baseUrl endpoint payload userType params w =
        (.error "ReferenceError", { w with events := w.events ++ l }) ∧
      ApiClient.patch env baseUrl endpoint payload userType params w =
        (.error "ReferenceError", { w with events := w.events ++ l }) ∧
      ApiClient.delete env baseUrl endpoint userType params w =
        (.error "ReferenceError", { w with events := w.events ++ l }) := by
  obtain ⟨l, hl, h⟩ := requestHeaders_outcome (ρ := ApiResult) env userType w
  refine ⟨l, hl, ?_, ?_, ?_, ?_, ?_⟩
  · exact client_call_throws _ w l h
      (fun hs => env.http
        { method := "GET", url := baseUrl ++ endpoint, headers := withParams hs params })
      "GET" endpoint
  · exact client_call_throws _ w l h
      (fun hs => env.http
        { method := "POST", url := baseUrl ++ endpoint, headers := withParams hs params,
          body := requestBody payload })
      "POST" endpoint
  · exact client_call_throws _ w l h
      (fun hs => env.http
        { method := "PUT", url := baseUrl ++ endpoint, headers := withParams hs params,
          body := requestBody payload })
      "PUT" endpoint
  · exact client_call_throws _ w l h
      (fun hs => env.http
        { method := "PATCH", url := baseUrl ++ endpoint, headers := withParams hs params,
          body := requestBody payload })
      "PATCH" endpoint
  · exact client_call_throws _ w l h
      (fun hs => env.http
        { method := "DELETE", url := baseUrl ++ endpoint, headers := withParams hs params })
      "DELETE" endpoint

/-- C13, the defect: `handleResponse` calls `response.json()` for every response.
When that call throws (an empty body, a body that is not JSON) the exception
escapes `handleResponse` and no object is returned, whatever the status; when
the body parses, the returned object has `success` true if and only if
`200 <= status < 300` and carries the response's `status`, `body`, `headers` and
`timings`. -/
theorem handleResponse_needs_json_body (response : HttpResponse) (method endpoint : String)
    (w : World) :
    (∀ e, response.json = .throws e →
      (handleResponse response method endpoint w).1 = .error e) ∧
    (∀ document, response.json = .parsed document →
      ∃ r, (handleResponse response method endpoint w).1 = .ok r ∧
        (r.success = true ↔ 200 ≤ response.status ∧ response.status < 300) ∧
        r.status = response.status ∧ r.body = response.body ∧
        r.headers = response.headers ∧ r.timings = response.timings) := by
  constructor
  · intro e he
    by_cases h : response.status ≥ 400 <;>
      simp [handleResponse, callFn, handleResponseBody, emit, jsWhen, jsThrow, h, he]
  · intro document hd
    refine ⟨{ status := response.status, body := response.body, json := document,
              headers := response.headers, timings := response.timings,
              success := decide (response.status ≥ 200) && decide (response.status < 300) },
      ?_, by simp, rfl, rfl, rfl, rfl⟩
    by_cases h : response.status ≥ 400 <;>
      simp [handleResponse, callFn, handleResponseBody, emit, jsWhen, jsReturn, h, hd]

/-- C13 at the failing input: a 204 response, whose body is empty. -/
theorem handleResponse_needs_json_body_witness :
    200 ≤ responseNoContent.status ∧ responseNoContent.status < 300 ∧
    (handleResponse responseNoContent "DELETE" "/customer/cart/clear" {}).1 =
      .error "GoError: unexpected end of JSON input" :=
  ⟨by decide, by decide,
   (handleResponse_needs_json_body responseNoContent "DELETE" "/customer/cart/clear" {}).1 _
     rfl⟩

/-! ## Thresholds: claims C15 and C16 -/

theorem getThresholds_cases (t : Option String) :
    getThresholds t = getThresholds (some "smoke") ∨
    getThresholds t = getThresholds (some "stress") ∨
    getThresholds t = getThresholds (some "spike") ∨
    getThresholds t = baseThresholds := by
  unfold getThresholds
  by_cases h1 : t.getD "load" = "smoke"
  · left; simp [h1]
  by_cases h2 : t.getD "load" = "stress"
  · right; left; simp [h2]
  by_cases h3 : t.getD "load" = "spike"
  · right; right; left; simp [h3]
  right; right; right; simp [h1, h2, h3]

/-- C15: for every test type, every entry of `getThresholds(t)` names a k6
built-in (`http_req_duration`, `http_req_failed`) or a Rate or Trend declared in
`metrics.js`; its `rate` expressions sit on a Rate metric and its `p(95)` /
`p(99)` expressions on a Trend metric. -/
theorem thresholds_refer_to_existing_metrics (t : Option String) :
    ∀ entry ∈ getThresholds t, entryWellFormed entry := by
  rcases getThresholds_cases t with h | h | h | h <;> rw [h] <;> decide

/-- C15 at the `http_req_failed` entry of the stress table. -/
theorem thresholds_refer_to_existing_metrics_witness :
    metricKind "http_req_failed" = some .rate ∧
    entryWellFormed ("http_req_failed", [⟨.rate, .lt, 10 / 100⟩]) :=
  ⟨by decide,
   thresholds_refer_to_existing_metrics (some "stress") _ (by
    simp [getThresholds, JsObject.spread, JsObject.setKey, baseThresholds])⟩

/-- C16: every table returned by `getThresholds` has the 13 keys of the base
table, in the same order; the `smoke`, `stress` and `spike` tables differ from
the base table in their listed entries only, which hold the listed values;
`'load'`, `'soak'`, an omitted argument and every string other than `'smoke'`,
`'stress'`, `'spike'` give exactly the base table. -/
theorem thresholds_tables (t : Option String) :
    ((getThresholds t).keys = baseThresholds.keys ∧ (getThresholds t).keys.length = 13) ∧
    ((getThresholds (some "smoke")).without smokeKeys = baseThresholds.without smokeKeys ∧
      smokeKeys.map (JsObject.get (getThresholds (some "smoke"))) =
        [some [⟨.p95, .lt, 1000⟩, ⟨.p99, .lt, 2000⟩], some [⟨.p95, .lt, 15000⟩],
         some [⟨.p95, .lt, 10000⟩], some [⟨.p95, .lt, 12000⟩]]) ∧
    ((getThresholds (some "stress")).without stressKeys = baseThresholds.without stressKeys ∧
      stressKeys.map (JsObject.get (getThresholds (some "stress"))) =
        [some [⟨.p95, .lt, 5000⟩, ⟨.p99, .lt, 10000⟩], some [⟨.rate, .lt, 10 / 100⟩],
         some [⟨.rate, .gt, 85 / 100⟩], some [⟨.p95, .lt, 60000⟩],
         some [⟨.p95, .lt, 30000⟩], some [⟨.p95, .lt, 40000⟩]]) ∧
    ((getThresholds (some "spike")).without spikeKeys = baseThresholds.without spikeKeys ∧
      spikeKeys.map (JsObject.get (getThresholds (some "spike"))) =
        [some [⟨.p95, .lt, 3000⟩, ⟨.p99, .lt, 8000⟩], some [⟨.rate, .lt, 8 / 100⟩],
         some [⟨.p95, .lt, 45000⟩], some [⟨.p95, .lt, 20000⟩], some [⟨.p95, .lt, 25000⟩]]) ∧
    getThresholds (some "load") = baseThresholds ∧
    getThresholds (some "soak") = baseThresholds ∧
    getThresholds none = baseThresholds ∧
    (∀ s : String, s ≠ "smoke" → s ≠ "stress" → s ≠ "spike" →
      getThresholds (some s) = baseThresholds) := by
  refine ⟨?_, ⟨rfl, rfl⟩, ⟨rfl, rfl⟩, ⟨rfl, rfl⟩, rfl, rfl, rfl, ?_⟩
  · rcases getThresholds_cases t with h | h | h | h <;> rw [h] <;> exact ⟨rfl, rfl⟩
  · intro s h1 h2 h3
    simp [getThresholds, h1, h2, h3]

/-- C16 at a test type the `switch` does not name. -/
theorem thresholds_tables_witness : getThresholds (some "endurance") = baseThresholds :=
  (thresholds_tables none).2.2.2.2.2.2.2 "endurance" (by decide) (by decide) (by decide)


/-! ## The performance grade: claim C17 -/

/-- C17 as stated fails: `reportBest` and `reportSlowJourneys` agree on
`errorRate`, `p95ResponseTime` and the three business success rates, and are
graded `A` and `B`. -/
theorem grade_claim_counterexample :
    reportBest.errorRate = reportSlowJourneys.errorRate ∧
    reportBest.p95ResponseTime = reportSlowJourneys.p95ResponseTime ∧
    reportBest.orderSuccessRate = reportSlowJourneys.orderSuccessRate ∧
    reportBest.loginSuccessRate = reportSlowJourneys.loginSuccessRate ∧
    reportBest.deliveryCompletionRate = reportSlowJourneys.deliveryCompletionRate ∧
    assessPerformance reportBest = .A ∧ assessPerformance reportSlowJourneys = .B :=
  ⟨rfl, rfl, rfl, rfl, rfl, by decide, by decide⟩

/-- C17, amended: the grade is a function of the error rate, the p95 latency,
the three business success rates and the three average journey times: two
reports that agree on these eight fields get the same grade. -/
theorem grade_depends_on_graded_fields (r1 r2 : Report)
    (h1 : r1.errorRate = r2.errorRate) (h2 : r1.p95ResponseTime = r2.p95ResponseTime)
    (h3 : r1.orderSuccessRate = r2.orderSuccessRate)
    (h4 : r1.loginSuccessRate = r2.loginSuccessRate)
    (h5 : r1.deliveryCompletionRate = r2.deliveryCompletionRate)
    (h6 : r1.avgCustomerJourneyTime = r2.avgCustomerJourneyTime)
    (h7 : r1.avgVendorJourneyTime = r2.avgVendorJourneyTime)
    (h8 : r1.avgRiderJourneyTime = r2.avgRiderJourneyTime) :
    assessPerformance r1 = assessPerformance r2 := by
  simp only [assessPerformance, performanceScore, h1, h2, h3, h4, h5, h6, h7, h8]

/-- C17, amended, at two reports that differ in the request count only. -/
theorem grade_depends_on_graded_fields_witness :
    assessPerformance reportBest = assessPerformance { reportBest with totalRequests := 1000 } :=
  grade_depends_on_graded_fields reportBest { reportBest with totalRequests := 1000 }
    rfl rfl rfl rfl rfl rfl rfl rfl


/-! ## Think time: claim C18 -/

/-- C18 as stated fails: at the draw `1 - 2^-53`, the largest binary64 value
below 1, the sum `r * 4 + 1` lies halfway between two binary64 values and rounds
to 5, so `generateDelay(1, 5)` and the default call `generateDelay()` return
exactly 5000, which is not below `max * 1000`. -/
theorem generateDelay_strict_bound_counterexample :
    (0 : ℚ) ≤ 1 - 1 / 2 ^ 53 ∧ (1 - 1 / 2 ^ 53 : ℚ) < 1 ∧
    fl (1 - 1 / 2 ^ 53) = 1 - 1 / 2 ^ 53 ∧ (1 : ℚ) < 5 ∧
    generateDelay (1 - 1 / 2 ^ 53) 1 5 = 5 * 1000 ∧
    ¬ generateDelay (1 - 1 / 2 ^ 53) 1 5 < 5 * 1000 ∧
    ¬ generateDelayDefault (1 - 1 / 2 ^ 53) < 5000 := by
  have h := generateDelay_top
  refine ⟨by norm_num, by norm_num, ?_, by norm_num, by rw [h]; norm_num,
    by rw [h]; norm_num, by unfold generateDelayDefault; rw [h]; norm_num⟩
  exact fl_eq_self_of _ (-1) 9007199254740991 (by norm_num)
    (by rw [abs_of_nonneg (by norm_num)]; norm_num)
    (by rw [abs_of_nonneg (by norm_num)]; norm_num) (by norm_num)

/-- C18, amended: for whole numbers of seconds `min <= max` with
`max * 1000 < 2^53` and every draw `r` in `[0, 1)`, `generateDelay(min, max)`
lies between `min * 1000` and `max * 1000`, both bounds included; with the
defaults it lies in `[1000, 5000]`. -/
theorem generateDelay_bounds (random : ℚ) (minSeconds maxSeconds : ℕ) (h0 : 0 ≤ random)
    (h1 : random < 1) (hle : minSeconds ≤ maxSeconds) (hmax : maxSeconds * 1000 < 2 ^ 53) :
    (minSeconds : ℚ) * 1000 ≤ generateDelay random minSeconds maxSeconds ∧
    generateDelay random minSeconds maxSeconds ≤ (maxSeconds : ℚ) * 1000 ∧
    1000 ≤ generateDelayDefault random ∧ generateDelayDefault random ≤ 5000 := by
  have h := generateDelay_between random minSeconds maxSeconds h0 h1 hle hmax
  have hd := generateDelay_between random 1 5 h0 h1 (by norm_num) (by norm_num)
  unfold generateDelayDefault
  norm_num at hd
  exact ⟨h.1, h.2, hd.1, hd.2⟩

/-- C18 at the draw `1/2` with `generateDelay(2, 4)`: three seconds, within the
bounds 2000 and 4000. -/
theorem generateDelay_bounds_witness :
    generateDelay (1 / 2) 2 4 = 3000 ∧
    ((2 : ℕ) : ℚ) * 1000 ≤ generateDelay (1 / 2) ((2 : ℕ) : ℚ) ((4 : ℕ) : ℚ) ∧
    generateDelay (1 / 2) ((2 : ℕ) : ℚ) ((4 : ℕ) : ℚ) ≤ ((4 : ℕ) : ℚ) * 1000 := by
  have h := generateDelay_bounds (1 / 2) 2 4 (by norm_num) (by norm_num) (by norm_num)
    (by norm_num)
  refine ⟨?_, h.1, h.2.1⟩
  unfold generateDelay
  rw [show (4 : ℚ) - 2 = ((2 : ℕ) : ℚ) by norm_num, fl_natCast 2 (by norm_num),
    show (1 / 2 : ℚ) * ((2 : ℕ) : ℚ) = ((1 : ℕ) : ℚ) by norm_num, fl_natCast 1 (by norm_num),
    show ((1 : ℕ) : ℚ) + 2 = ((3 : ℕ) : ℚ) by norm_num, fl_natCast 3 (by norm_num),
    show ((3 : ℕ) : ℚ) * 1000 = ((3000 : ℕ) : ℚ) by norm_num, fl_natCast 3000 (by norm_num)]
  norm_num

/-! ## Ramp profiles: claim C19 -/

/-- C19: each shipped profile (smoke, load, stress, spike) is a non-empty list of
stages with positive durations and non-negative targets whose last stage has
target 0; the peak targets are 10, 1500, 5000 and 3000. -/
theorem shipped_profiles_well_formed :
    (wellFormedProfile smokeStages ∧ wellFormedProfile loadStages ∧
      wellFormedProfile stressStages ∧ wellFormedProfile spikeStages) ∧
    peakTarget smokeStages = 10 ∧ peakTarget loadStages = 1500 ∧
    peakTarget stressStages = 5000 ∧ peakTarget spikeStages = 3000 := by
  decide


/-! ## Metric recording: claim C20 -/

theorem countersLe_refl (m : Metrics) : countersLe m m :=
  ⟨le_refl _, le_refl _, le_refl _, le_refl _, le_refl _⟩

theorem countersLe_trans {a b c : Metrics} (h1 : countersLe a b) (h2 : countersLe b c) :
    countersLe a c :=
  ⟨h1.1.trans h2.1, h1.2.1.trans h2.2.1, h1.2.2.1.trans h2.2.2.1,
   h1.2.2.2.1.trans h2.2.2.2.1, h1.2.2.2.2.trans h2.2.2.2.2⟩

theorem countersLe_apply (m : Metrics) (c : MetricCall) : countersLe m (c.apply m) := by
  cases c with
  | auth d u s => simp [MetricCall.apply, recordAuthMetrics, countersLe]
  | order d a s =>
    simp only [MetricCall.apply, recordOrderMetrics, countersLe]
    split_ifs <;> simp
  | browsing d a =>
    simp only [MetricCall.apply, recordBrowsingMetrics, countersLe]
    split_ifs <;> simp

theorem countersMatchRates_apply (m : Metrics) (c : MetricCall) (h : CountersMatchRates m) :
    CountersMatchRates (c.apply m) := by
  obtain ⟨h1, h2⟩ := h
  cases c with
  | auth d u s => simpa [MetricCall.apply, recordAuthMetrics, CountersMatchRates] using ⟨h1, h2⟩
  | order d a s =>
    simp only [MetricCall.apply, recordOrderMetrics, CountersMatchRates]
    split_ifs <;> simp_all
  | browsing d a =>
    simp only [MetricCall.apply, recordBrowsingMetrics, CountersMatchRates]
    split_ifs <;> simp_all

theorem countersLe_runCalls (calls : List MetricCall) (m : Metrics) :
    countersLe m (runCalls m calls) := by
  induction calls generalizing m with
  | nil => exact countersLe_refl m
  | cons c cs ih => exact countersLe_trans (countersLe_apply m c) (ih (c.apply m))

theorem countersMatchRates_runCalls (calls : List MetricCall) (m : Metrics)
    (h : CountersMatchRates m) : CountersMatchRates (runCalls m calls) := by
  induction calls generalizing m with
  | nil => exact h
  | cons c cs ih => exact ih (c.apply m) (countersMatchRates_apply m c h)

/-- C20: after any sequence of recording calls no Counter is below its earlier
value (from any starting metrics), and, starting from empty metrics,
`orders_placed` equals the number of `true` samples of `order_success_rate` and
`deliveries_completed` the number of `true` samples of
`delivery_completion_rate`. -/
theorem recording_keeps_counters_consistent (calls : List MetricCall) (m : Metrics) :
    countersLe m (runCalls m calls) ∧
    (runCalls {} calls).ordersPlaced = (runCalls {} calls).orderSuccessRate.count true ∧
    (runCalls {} calls).deliveriesCompleted =
      (runCalls {} calls).deliveryCompletionRate.count true :=
  ⟨countersLe_runCalls calls m,
   countersMatchRates_runCalls calls {} ⟨rfl, rfl⟩⟩


/-! ## Journey selection by weight: claim C23 -/

theorem iteration_marked (random : ℚ) (durationCheck label message : String) (limit : Int)
    (hl : 0 < limit) (w : World) :
    callsOf (newEvents w (iteration (tryCatch (do
        let result ← weightedJourney random (markedJourney .customerLogin)
          (markedJourney .vendorLogin) (markedJourney .riderLogin)
        let r ← checkJourney result durationCheck limit
        checkTimestamp r
        reportFailure label r)
      (fun _error => emit (Event.consoleError message))) w)) =
      [if random < 6004799503160661 / 2 ^ 53 then StepName.customerLogin
       else if random < 7205759403792793 / 2 ^ 53 then StepName.vendorLogin
       else StepName.riderLogin] := by
  simp only [weightedJourney]
  rw [vendorCut_eq, CUSTOMER_WEIGHT_eq]
  by_cases h1 : random < 6004799503160661 / 2 ^ 53
  · simp [h1, iteration, callFn, tryCatch, invoke, markedJourney, checkJourney, deref, emit,
      checkTimestamp, reportFailure, jsWhen, newEvents, callsOf, hl]
  · by_cases h2 : random < 7205759403792793 / 2 ^ 53
    · simp [h1, h2, iteration, callFn, tryCatch, invoke, markedJourney, checkJourney, deref,
        emit, checkTimestamp, reportFailure, jsWhen, newEvents, callsOf, hl]
    · simp [h1, h2, iteration, callFn, tryCatch, invoke, markedJourney, checkJourney, deref,
        emit, checkTimestamp, reportFailure, jsWhen, newEvents, callsOf, hl]

/-- C23 as stated fails: `1000 / 1500` is the binary64 value
`6004799503160661 / 2^53` (0.6666666666666666), which is below `2/3`; at a draw
equal to it the comparison `random < CUSTOMER_WEIGHT` is false and the load-test
iteration runs the vendor journey, not the customer journey.  Likewise the
binary64 sum `CUSTOMER_WEIGHT + VENDOR_WEIGHT` is `7205759403792793 / 2^53`
(0.7999999999999999), below `4/5`, and a draw equal to it runs the rider
journey. -/
theorem weights_cut_point_counterexample :
    ((0 : ℚ) ≤ 6004799503160661 / 2 ^ 53 ∧ (6004799503160661 / 2 ^ 53 : ℚ) < 2 / 3 ∧
      fl (6004799503160661 / 2 ^ 53) = 6004799503160661 / 2 ^ 53) ∧
    (weightedJourney (6004799503160661 / 2 ^ 53) (markedJourney .customerLogin)
        (markedJourney .vendorLogin) (markedJourney .riderLogin) :
        JsM Unit (Option JourneyResult)) = invoke (markedJourney .vendorLogin) ∧
    callsOf (newEvents {} (iteration (loadTestDefault (6004799503160661 / 2 ^ 53)
        (markedJourney .customerLogin) (markedJourney .vendorLogin)
        (markedJourney .riderLogin)) {})) = [StepName.vendorLogin] ∧
    ((2 / 3 : ℚ) ≤ 7205759403792793 / 2 ^ 53 ∧ (7205759403792793 / 2 ^ 53 : ℚ) < 4 / 5 ∧
      fl (7205759403792793 / 2 ^ 53) = 7205759403792793 / 2 ^ 53) ∧
    (weightedJourney (7205759403792793 / 2 ^ 53) (markedJourney .customerLogin)
        (markedJourney .vendorLogin) (markedJourney .riderLogin) :
        JsM Unit (Option JourneyResult)) = invoke (markedJourney .riderLogin) ∧
    callsOf (newEvents {} (iteration (loadTestDefault (7205759403792793 / 2 ^ 53)
        (markedJourney .customerLogin) (markedJourney .vendorLogin)
        (markedJourney .riderLogin)) {})) = [StepName.riderLogin] := by
  have f1 : fl (6004799503160661 / 2 ^ 53) = 6004799503160661 / 2 ^ 53 :=
    fl_eq_self_of _ (-1) 6004799503160661 (by norm_num)
      (by rw [abs_of_nonneg (by norm_num)]; norm_num)
      (by rw [abs_of_nonneg (by norm_num)]; norm_num) (by norm_num)
  have f2 : fl (7205759403792793 / 2 ^ 53) = 7205759403792793 / 2 ^ 53 :=
    fl_eq_self_of _ (-1) 7205759403792793 (by norm_num)
      (by rw [abs_of_nonneg (by norm_num)]; norm_num)
      (by rw [abs_of_nonneg (by norm_num)]; norm_num) (by norm_num)
  refine ⟨⟨by norm_num, by norm_num, f1⟩, ?_, ?_, ⟨by norm_num, by norm_num, f2⟩, ?_, ?_⟩
  · simp only [weightedJourney]
    rw [vendorCut_eq, CUSTOMER_WEIGHT_eq, if_neg (lt_irrefl _), if_pos (by norm_num)]
  · rw [loadTestDefault, iteration_marked _ _ _ _ 120000 (by decide) {}]
    rw [if_neg (lt_irrefl _), if_pos (by norm_num)]
  · simp only [weightedJourney]
    rw [vendorCut_eq, CUSTOMER_WEIGHT_eq, if_neg (by norm_num), if_neg (lt_irrefl _)]
  · rw [loadTestDefault, iteration_marked _ _ _ _ 120000 (by decide) {}]
    rw [if_neg (by norm_num), if_neg (lt_irrefl _)]

/-- C23, amended: the three weights are the binary64 quotients, the first being
`6004799503160661 / 2^53` and the binary64 sum of the first two
`7205759403792793 / 2^53`, and their binary64 sum is exactly 1; for every draw
the weighted choice invokes exactly one journey function, the customer journey
when `r` is below the first cut point, the vendor journey when `r` is from the
first cut point up to but excluding the second, the rider journey from the second
cut point on; an iteration of the load, stress and spike tests over journeys
that mark their call runs exactly that one journey; and for a binary64 draw
other than the two cut points themselves this is the partition at `2/3` and
`4/5`. -/
theorem weights_partition_iterations (random : ℚ)
    (customerJourney vendorJourney riderJourney : JourneyFn) (w : World) :
    (CUSTOMER_WEIGHT = 6004799503160661 / 2 ^ 53 ∧
      fl (CUSTOMER_WEIGHT + VENDOR_WEIGHT) = 7205759403792793 / 2 ^ 53 ∧
      fl (fl (CUSTOMER_WEIGHT + VENDOR_WEIGHT) + RIDER_WEIGHT) = 1) ∧
    ((random < 6004799503160661 / 2 ^ 53 →
        (weightedJourney random customerJourney vendorJourney riderJourney :
          JsM Unit (Option JourneyResult)) = invoke customerJourney) ∧
      (6004799503160661 / 2 ^ 53 ≤ random → random < 7205759403792793 / 2 ^ 53 →
        (weightedJourney random customerJourney vendorJourney riderJourney :
          JsM Unit (Option JourneyResult)) = invoke vendorJourney) ∧
      (7205759403792793 / 2 ^ 53 ≤ random →
        (weightedJourney random customerJourney vendorJourney riderJourney :
          JsM Unit (Option JourneyResult)) = invoke riderJourney)) ∧
    callsOf (newEvents w (iteration (loadTestDefault random (markedJourney .customerLogin)
        (markedJourney .vendorLogin) (markedJourney .riderLogin)) w)) =
      [if random < 6004799503160661 / 2 ^ 53 then StepName.customerLogin
       else if random < 7205759403792793 / 2 ^ 53 then StepName.vendorLogin
       else StepName.riderLogin] ∧
    callsOf (newEvents w (iteration (stressTestDefault random (markedJourney .customerLogin)
        (markedJourney .vendorLogin) (markedJourney .riderLogin)) w)) =
      [if random < 6004799503160661 / 2 ^ 53 then StepName.customerLogin
       else if random < 7205759403792793 / 2 ^ 53 then StepName.vendorLogin
       else StepName.riderLogin] ∧
    callsOf (newEvents w (iteration (spikeTestDefault random (markedJourney .customerLogin)
        (markedJourney .vendorLogin) (markedJourney .riderLogin)) w)) =
      [if random < 6004799503160661 / 2 ^ 53 then StepName.customerLogin
       else if random < 7205759403792793 / 2 ^ 53 then StepName.vendorLogin
       else StepName.riderLogin] ∧
    (fl random = random → random ≠ 6004799503160661 / 2 ^ 53 →
      random ≠ 7205759403792793 / 2 ^ 53 →
      (random < 6004799503160661 / 2 ^ 53 ↔ random < 2 / 3) ∧
      (random < 7205759403792793 / 2 ^ 53 ↔ random < 4 / 5)) := by
  refine ⟨⟨CUSTOMER_WEIGHT_eq, vendorCut_eq, weights_sum_eq⟩,
    ⟨fun h => ?_, fun h1 h2 => ?_, fun h => ?_⟩,
    iteration_marked random _ _ _ 120000 (by decide) w,
    iteration_marked random _ _ _ 300000 (by decide) w,
    iteration_marked random _ _ _ 180000 (by decide) w,
    double_draw_cuts random⟩
  · simp only [weightedJourney]
    rw [vendorCut_eq, CUSTOMER_WEIGHT_eq, if_pos h]
  · simp only [weightedJourney]
    rw [vendorCut_eq, CUSTOMER_WEIGHT_eq, if_neg (not_lt.2 h1), if_pos h2]
  · have h' : ¬ random < 6004799503160661 / 2 ^ 53 := not_lt.2 (le_trans (by norm_num) h)
    simp only [weightedJourney]
    rw [vendorCut_eq, CUSTOMER_WEIGHT_eq, if_neg h', if_neg (not_lt.2 h)]

/-- C23 at the draws `1/2`, `3/4` and `7/8`: the customer, the vendor and the
rider journey; `3/4` is a binary64 value between `2/3` and `4/5`. -/
theorem weights_partition_iterations_witness :
    (weightedJourney (1 / 2) (markedJourney .customerLogin) (markedJourney .vendorLogin)
        (markedJourney .riderLogin) : JsM Unit (Option JourneyResult)) =
      invoke (markedJourney .customerLogin) ∧
    (weightedJourney (3 / 4) (markedJourney .customerLogin) (markedJourney .vendorLogin)
        (markedJourney .riderLogin) : JsM Unit (Option JourneyResult)) =
      invoke (markedJourney .vendorLogin) ∧
    (weightedJourney (7 / 8) (markedJourney .customerLogin) (markedJourney .vendorLogin)
        (markedJourney .riderLogin) : JsM Unit (Option JourneyResult)) =
      invoke (markedJourney .riderLogin) ∧
    fl (3 / 4) = 3 / 4 ∧
    (((3 / 4 : ℚ) < 6004799503160661 / 2 ^ 53 ↔ (3 / 4 : ℚ) < 2 / 3) ∧
      ((3 / 4 : ℚ) < 7205759403792793 / 2 ^ 53 ↔ (3 / 4 : ℚ) < 4 / 5)) :=
  have f : fl (3 / 4) = 3 / 4 :=
    fl_eq_self_of _ (-1) 6755399441055744 (by norm_num)
      (by rw [abs_of_nonneg (by norm_num)]; norm_num)
      (by rw [abs_of_nonneg (by norm_num)]; norm_num) (by norm_num)
  ⟨(weights_partition_iterations (1 / 2) _ _ _ {}).2.1.1 (by norm_num),
   (weights_partition_iterations (3 / 4) _ _ _ {}).2.1.2.1 (by norm_num) (by norm_num),
   (weights_partition_iterations (7 / 8) _ _ _ {}).2.1.2.2 (by norm_num),
   f,
   (weights_partition_iterations (3 / 4) (markedJourney .customerLogin)
     (markedJourney .vendorLogin) (markedJourney .riderLogin) {}).2.2.2.2.2 f
     (by norm_num) (by norm_num)⟩

/-! ## The performance grade and report: claims C24 to C26 -/

theorem ite_sub_const (c : Prop) [Decidable c] (s k : Int) :
    (if c then s - k else s) = s - (if c then k else 0) := by
  split_ifs <;> simp

theorem ite_sub_two_level (c1 c2 : Prop) [Decidable c1] [Decidable c2] (s : Int) :
    (if c1 then s - 20 else s - (if c2 then 10 else 0)) =
      s - (if c1 then 20 else if c2 then 10 else 0) := by
  split_ifs <;> simp

/-- The score is 100 minus the eight deductions. -/
theorem performanceScore_eq (r : Report) :
    performanceScore r =
      100 - (if r.errorRate > 5 then 20 else if r.errorRate > 2 then 10 else 0)
        - (if r.p95ResponseTime > 5000 then 20 else if r.p95ResponseTime > 3000 then 10 else 0)
        - (if r.orderSuccessRate < 90 then 15 else 0)
        - (if r.loginSuccessRate < 95 then 10 else 0)
        - (if r.deliveryCompletionRate < 85 then 10 else 0)
        - (if r.avgCustomerJourneyTime > 45000 then 10 else 0)
        - (if r.avgVendorJourneyTime > 20000 then 5 else 0)
        - (if r.avgRiderJourneyTime > 25000 then 5 else 0) := by
  simp only [performanceScore, ite_sub_const, ite_sub_two_level]

theorem deduction_above_mono (x y limit : ℚ) (k : Int) (hk : 0 ≤ k) (h : x ≤ y) :
    (if x > limit then k else 0) ≤ (if y > limit then k else 0) := by
  split_ifs with h1 h2
  · exact le_refl _
  · exact absurd (lt_of_lt_of_le h1 h) h2
  · exact hk
  · exact le_refl _

theorem deduction_below_mono (x y limit : ℚ) (k : Int) (hk : 0 ≤ k) (h : y ≤ x) :
    (if x < limit then k else 0) ≤ (if y < limit then k else 0) := by
  split_ifs with h1 h2
  · exact le_refl _
  · exact absurd (lt_of_le_of_lt h h1) h2
  · exact hk
  · exact le_refl _

theorem deduction_two_level_mono (x y hi lo : ℚ) (h : x ≤ y) :
    (if x > hi then (20 : Int) else if x > lo then 10 else 0) ≤
      (if y > hi then (20 : Int) else if y > lo then 10 else 0) := by
  split_ifs <;> first
    | exact le_refl _
    | decide
    | (exfalso; linarith)

theorem performanceScore_mono (r1 r2 : Report) (h : noBetter r1 r2) :
    performanceScore r2 ≤ performanceScore r1 := by
  obtain ⟨h1, h2, h3, h4, h5, h6, h7, h8⟩ := h
  rw [performanceScore_eq r1, performanceScore_eq r2]
  have e1 := deduction_two_level_mono _ _ 5 2 h1
  have e2 := deduction_two_level_mono _ _ 5000 3000 h2
  have e3 := deduction_below_mono _ _ 90 15 (by decide) h6
  have e4 := deduction_below_mono _ _ 95 10 (by decide) h7
  have e5 := deduction_below_mono _ _ 85 10 (by decide) h8
  have e6 := deduction_above_mono _ _ 45000 10 (by decide) h3
  have e7 := deduction_above_mono _ _ 20000 5 (by decide) h4
  have e8 := deduction_above_mono _ _ 25000 5 (by decide) h5
  linarith

theorem gradeOfScore_mono (s1 s2 : Int) (h : s2 ≤ s1) :
    (if s2 ≥ 90 then Grade.A else if s2 ≥ 80 then .B else if s2 ≥ 70 then .C
      else if s2 ≥ 60 then .D else .F).rank ≤
    (if s1 ≥ 90 then Grade.A else if s1 ≥ 80 then .B else if s1 ≥ 70 then .C
      else if s1 ≥ 60 then .D else .F).rank := by
  split_ifs <;> first | decide | (exfalso; omega)

/-- C24: if the report `r2` is no better than `r1` in every graded field, the
grade of `r2` is no better than the grade of `r1` in the order
`A > B > C > D > F`. -/
theorem grade_monotone (r1 r2 : Report) (h : noBetter r1 r2) :
    (assessPerformance r2).rank ≤ (assessPerformance r1).rank := by
  unfold assessPerformance
  exact gradeOfScore_mono _ _ (performanceScore_mono r1 r2 h)

/-- C24 at `reportBest` and `reportSlowJourneys`: grades `A` and `B`. -/
theorem grade_monotone_witness :
    (assessPerformance reportSlowJourneys).rank ≤ (assessPerformance reportBest).rank ∧
    assessPerformance reportSlowJourneys = .B ∧ assessPerformance reportBest = .A :=
  ⟨grade_monotone reportBest reportSlowJourneys (by
      simp only [noBetter, reportBest, reportSlowJourneys]
      norm_num),
   by decide, by decide⟩
/-- C25: for every summary that has the HTTP metrics but lacks
`order_success_rate`, `login_success_rate` and `delivery_completion_rate`, the
report gives these three rates as 0 and its grade is never better than `D`; it
is exactly `D` when the error rate is at most 2 (percent), the p95 latency at
most 3000 ms and no journey-time metric is present. -/
theorem report_without_business_rates (data : Summary)
    (h1 : data.orderSuccessRate = none) (h2 : data.loginSuccessRate = none)
    (h3 : data.deliveryCompletionRate = none) :
    (generatePerformanceReport data).report.orderSuccessRate = 0 ∧
    (generatePerformanceReport data).report.loginSuccessRate = 0 ∧
    (generatePerformanceReport data).report.deliveryCompletionRate = 0 ∧
    (generatePerformanceReport data).performanceGrade.rank ≤ Grade.D.rank ∧
    ((generatePerformanceReport data).report.errorRate ≤ 2 →
      (generatePerformanceReport data).report.p95ResponseTime ≤ 3000 →
      data.customerJourneyTimeAvg = none → data.vendorJourneyTimeAvg = none →
      data.riderJourneyTimeAvg = none →
      (generatePerformanceReport data).performanceGrade = .D) := by
  have e1 : (reportOf data).orderSuccessRate = 0 := by simp [reportOf, valueOrZero, h1]
  have e2 : (reportOf data).loginSuccessRate = 0 := by simp [reportOf, valueOrZero, h2]
  have e3 : (reportOf data).deliveryCompletionRate = 0 := by simp [reportOf, valueOrZero, h3]
  have hs := performanceScore_eq (reportOf data)
  rw [e1, e2, e3] at hs
  norm_num at hs
  refine ⟨e1, e2, e3, ?_, ?_⟩
  · show (assessPerformance (reportOf data)).rank ≤ Grade.D.rank
    have hle : performanceScore (reportOf data) ≤ 65 := by
      rw [hs]
      split_ifs <;> norm_num
    simp only [assessPerformance]
    split_ifs <;> first | decide | (exfalso; omega)
  · intro he hp hc hv hr
    show assessPerformance (reportOf data) = .D
    have c1 : (reportOf data).avgCustomerJourneyTime = 0 := by simp [reportOf, valueOrZero, hc]
    have c2 : (reportOf data).avgVendorJourneyTime = 0 := by simp [reportOf, valueOrZero, hv]
    have c3 : (reportOf data).avgRiderJourneyTime = 0 := by simp [reportOf, valueOrZero, hr]
    have he' : (reportOf data).errorRate ≤ 2 := he
    have hp' : (reportOf data).p95ResponseTime ≤ 3000 := hp
    have h65 : performanceScore (reportOf data) = 65 := by
      rw [hs, c1, c2, c3]
      have a1 : ¬ (reportOf data).errorRate > 5 := by linarith
      have a2 : ¬ (reportOf data).errorRate > 2 := by linarith
      have a3 : ¬ (reportOf data).p95ResponseTime > 5000 := by linarith
      have a4 : ¬ (reportOf data).p95ResponseTime > 3000 := by linarith
      norm_num [a1, a2, a3, a4]
    simp only [assessPerformance, h65]
    decide

/-- C25 at a summary with the HTTP metrics only: grade `D`. -/
theorem report_without_business_rates_witness :
    (generatePerformanceReport summaryHttpOnly).report.orderSuccessRate = 0 ∧
    (generatePerformanceReport summaryHttpOnly).performanceGrade = .D :=
  have h := report_without_business_rates summaryHttpOnly rfl rfl rfl
  ⟨h.1, h.2.2.2.2 (by norm_num [generatePerformanceReport, reportOf, summaryHttpOnly])
    (by norm_num [generatePerformanceReport, reportOf, summaryHttpOnly]) rfl rfl rfl⟩

/-- C26: `generateRecommendations` never returns an empty list; it returns the
single message `Performance is within acceptable limits. Continue monitoring.`
if and only if none of the five conditions holds, and otherwise exactly the
messages of the conditions that hold, one each, in the order of the
conditions. -/
theorem recommendations_follow_conditions (report : Report) :
    generateRecommendations report ≠ [] ∧
    (generateRecommendations report =
        ["Performance is within acceptable limits. Continue monitoring."] ↔
      (¬ report.errorRate > 5 ∧ ¬ report.p95ResponseTime > 5000 ∧
       ¬ report.orderSuccessRate < 90 ∧ ¬ report.loginSuccessRate < 95 ∧
       ¬ report.avgCustomerJourneyTime > 45000)) ∧
    (¬ (¬ report.errorRate > 5 ∧ ¬ report.p95ResponseTime > 5000 ∧
        ¬ report.orderSuccessRate < 90 ∧ ¬ report.loginSuccessRate < 95 ∧
        ¬ report.avgCustomerJourneyTime > 45000) →
      generateRecommendations report = messagesThatApply report) := by
  unfold generateRecommendations messagesThatApply recommendationRules
  by_cases c1 : report.errorRate > 5 <;> by_cases c2 : report.p95ResponseTime > 5000 <;>
    by_cases c3 : report.orderSuccessRate < 90 <;> by_cases c4 : report.loginSuccessRate < 95 <;>
    by_cases c5 : report.avgCustomerJourneyTime > 45000 <;>
    simp [c1, c2, c3, c4, c5]

/-- C26 at `reportSlowJourneys`: only the customer journey condition holds. -/
theorem recommendations_follow_conditions_witness :
    generateRecommendations reportSlowJourneys =
      ["Customer journey is too slow. Optimize UI/UX and reduce API calls."] ∧
    generateRecommendations reportBest =
      ["Performance is within acceptable limits. Continue monitoring."] := by
  constructor
  · rw [(recommendations_follow_conditions reportSlowJourneys).2.2 (by
      simp only [reportSlowJourneys, reportBest]
      norm_num)]
    simp only [messagesThatApply, recommendationRules, reportSlowJourneys, reportBest]
    norm_num
  · exact (recommendations_follow_conditions reportBest).2.1.2 (by
      simp only [reportBest]
      norm_num)


/-! ## The multi-step flows: claims C27 and C28 -/

/-- The vendor `acceptOrder` never returns: its client call throws, or the call
of `sleep` in line 34 does, after the `accept` metric is recorded. -/
theorem acceptOrder_throws (response : Except Exn (Reply Order)) (w : World) :
    ∃ e, (acceptOrder response w).1 = .error e ∧
      (returned response = true → e = "ReferenceError") := by
  cases response <;>
    simp [acceptOrder, callFn, apiCall, modifyMetrics, sleepUnbound, jsThrow, returned]

/-- The customer `trackOrder` never returns: its client call throws, or the call
of `sleep` in line 31 does. -/
theorem trackOrder_throws (response : Except Exn (Reply Tracking)) (w : World) :
    ∃ e, (trackOrder response w).1 = .error e ∧
      (returned response = true → e = "ReferenceError") := by
  cases response <;>
    simp [trackOrder, callFn, apiCall, modifyMetrics, sleepUnbound, jsThrow, returned]

/-- The rider `updateOrderStatus`: with the client call returned, the sample is
recorded with the action `'deliver'` and then the call of `sleep` in line 30
throws. -/
theorem riderUpdateOrderStatus_ok (r : Reply Order) (w : World) :
    riderUpdateOrderStatus (.ok r) w =
      (.error "ReferenceError",
       { w with
         events := w.events ++ [Event.http "/rider/orders/:id/status"]
         metrics := recordOrderMetrics r.duration "deliver" r.success w.metrics }) := by
  simp [riderUpdateOrderStatus, callFn, apiCall, modifyMetrics, sleepUnbound, jsThrow]

theorem processOrderFlow_throws (env : ProcessOrderEnv) (w : World) :
    ∃ e, (processOrderFlow env w).1 = .error e ∧
      (returned env.accept = true → e = "ReferenceError") := by
  obtain ⟨e, he, hr⟩ := acceptOrder_throws env.accept w
  refine ⟨e, ?_, hr⟩
  rcases h : acceptOrder env.accept w with ⟨c, w1⟩
  rw [h] at he
  simp only at he
  subst he
  simp [processOrderFlow, callFn, processOrderFlowBody, invoke, h]

theorem completeOrderTrackingExperience_throws (env : TrackingEnv) (w : World) :
    ∃ e, (completeOrderTrackingExperience env w).1 = .error e ∧
      (returned env.initialTracking = true → e = "ReferenceError") := by
  obtain ⟨e, he, hr⟩ := trackOrder_throws env.initialTracking w
  refine ⟨e, ?_, hr⟩
  rcases h : trackOrder env.initialTracking w with ⟨c, w1⟩
  rw [h] at he
  simp only at he
  subst he
  simp [completeOrderTrackingExperience, callFn, completeOrderTrackingExperienceBody, invoke, h]

/-- The three outcomes of `completeDeliveryFlow`: the first client call throws;
the assignment is refused and the flow returns after one step; or the call of
`sleep` in line 139 throws.  In each of them the metrics are as before. -/
theorem completeDeliveryFlow_outcome (env : DeliveryEnv) (w : World) :
    (completeDeliveryFlow env w).2.metrics = w.metrics ∧
    ((completeDeliveryFlow env w).1 =
        .ok { steps := [{ step := "accept_assignment", success := false }],
              success := false } ∨
      ∃ e, (completeDeliveryFlow env w).1 = .error e) ∧
    (replyFails env.acceptAssignment = true →
      (completeDeliveryFlow env w).1 =
        .ok { steps := [{ step := "accept_assignment", success := false }],
              success := false }) ∧
    (replySucceeds env.acceptAssignment = true → returned env.pickupLocation = true →
      (completeDeliveryFlow env w).1 = .error "ReferenceError") := by
  obtain ⟨a, b, c, d, f, g⟩ := env
  rcases a with e | ⟨sa, da, ja⟩
  · simp [completeDeliveryFlow, callFn, completeDeliveryFlowBody, invoke, acceptAssignment,
      apiCall, replyFails, replySucceeds]
  cases sa
  · simp [completeDeliveryFlow, callFn, completeDeliveryFlowBody, invoke, acceptAssignment,
      apiCall, jsReturn, returnIf, replyFails, replySucceeds]
  rcases b with e | ⟨sb, db, jb⟩ <;>
    simp [completeDeliveryFlow, callFn, completeDeliveryFlowBody, invoke, acceptAssignment,
      updateLocation, apiCall, jsReturn, returnIf, sleepUnbound, jsThrow, replyFails,
      replySucceeds, returned]

/-- C27, the defect: no flow ever returns `success: true`.  `processOrderFlow`
and `completeOrderTrackingExperience` never return at all: their first step
(`acceptOrder`, `trackOrder`) calls `sleep`, which its module does not import,
so with every client call succeeding the flow throws a `ReferenceError`.
`completeDeliveryFlow` returns only when the assignment is refused, with
`success: false` and the one step `accept_assignment`; otherwise it throws at its
own call of `sleep` in line 139. -/
theorem flows_never_succeed (po : ProcessOrderEnv) (de : DeliveryEnv) (te : TrackingEnv)
    (w : World) :
    (flowSucceeded (processOrderFlow po w) = false ∧
      (po.allSucceed = true → (processOrderFlow po w).1 = .error "ReferenceError")) ∧
    (flowSucceeded (completeDeliveryFlow de w) = false ∧
      (de.allSucceed = true → (completeDeliveryFlow de w).1 = .error "ReferenceError") ∧
      (replyFails de.acceptAssignment = true →
        (completeDeliveryFlow de w).1 =
          .ok { steps := [{ step := "accept_assignment", success := false }],
                success := false })) ∧
    (flowSucceeded (completeOrderTrackingExperience te w) = false ∧
      (te.allSucceed = true →
        (completeOrderTrackingExperience te w).1 = .error "ReferenceError")) := by
  refine ⟨⟨?_, fun h => ?_⟩, ⟨?_, fun h => ?_, ?_⟩, ⟨?_, fun h => ?_⟩⟩
  · obtain ⟨e, he, -⟩ := processOrderFlow_throws po w
    simp [flowSucceeded, he]
  · obtain ⟨e, he, hr⟩ := processOrderFlow_throws po w
    have hret : returned po.accept = true := by
      rcases hpo : po.accept with e1 | r <;>
        simp [ProcessOrderEnv.allSucceed, replySucceeds, returned, hpo] at h ⊢
    rw [he, hr hret]
  · rcases (completeDeliveryFlow_outcome de w).2.1 with h | ⟨e, h⟩ <;>
      simp [flowSucceeded, h]
  · have hs : replySucceeds de.acceptAssignment = true ∧ returned de.pickupLocation = true := by
      rcases h1 : de.acceptAssignment with e1 | r1 <;>
        rcases h2 : de.pickupLocation with e2 | r2 <;>
        simp [DeliveryEnv.allSucceed, replySucceeds, returned, h1, h2] at h ⊢
      exact h.1.1.1.1.1
    exact (completeDeliveryFlow_outcome de w).2.2.2 hs.1 hs.2
  · exact (completeDeliveryFlow_outcome de w).2.2.1
  · obtain ⟨e, he, -⟩ := completeOrderTrackingExperience_throws te w
    simp [flowSucceeded, he]
  · obtain ⟨e, he, hr⟩ := completeOrderTrackingExperience_throws te w
    have hret : returned te.initialTracking = true := by
      rcases hte : te.initialTracking with e1 | r <;>
        simp [TrackingEnv.allSucceed, replySucceeds, returned, hte] at h ⊢
    rw [he, hr hret]

/-- C27 at the failing inputs: runs in which every client call answers 200, and a
delivery run whose assignment is refused. -/
theorem flows_never_succeed_witness :
    (processOrderFlow processOrderEnvOk {}).1 = .error "ReferenceError" ∧
    (completeDeliveryFlow deliveryEnvOk {}).1 = .error "ReferenceError" ∧
    (completeDeliveryFlow deliveryEnvRefused {}).1 =
      .ok { steps := [{ step := "accept_assignment", success := false }],
            success := false } ∧
    (completeOrderTrackingExperience trackingEnvOk {}).1 = .error "ReferenceError" :=
  ⟨(flows_never_succeed processOrderEnvOk deliveryEnvOk trackingEnvOk {}).1.2 (by decide),
   (flows_never_succeed processOrderEnvOk deliveryEnvOk trackingEnvOk {}).2.1.2.1 (by decide),
   (flows_never_succeed processOrderEnvOk deliveryEnvRefused trackingEnvOk {}).2.1.2.2
     (by decide),
   (flows_never_succeed processOrderEnvOk deliveryEnvOk trackingEnvOk {}).2.2.2 (by decide)⟩

/-- C28, the defect: no run of `completeDeliveryFlow` records a delivery.  The
metrics after the call are the metrics before it, for every outcome of the
client calls: with all of them succeeding the flow throws a `ReferenceError` at
the call of `sleep` in line 139, before the first status update.  A rider status
update by itself does record its sample with the action `'deliver'`, and then
throws at its own call of `sleep`. -/
theorem delivery_flow_records_no_delivery (env : DeliveryEnv) (w : World) :
    (completeDeliveryFlow env w).2.metrics = w.metrics ∧
    (env.allSucceed = true → (completeDeliveryFlow env w).1 = .error "ReferenceError") ∧
    (∀ (r : Reply Order) (w1 : World),
      (riderUpdateOrderStatus (.ok r) w1).1 = .error "ReferenceError" ∧
      (riderUpdateOrderStatus (.ok r) w1).2.metrics =
        { w1.metrics with
          deliveryCompletionRate := w1.metrics.deliveryCompletionRate ++ [r.success]
          deliveriesCompleted :=
            w1.metrics.deliveriesCompleted + (if r.success then 1 else 0) }) := by
  refine ⟨(completeDeliveryFlow_outcome env w).1, fun h => ?_, fun r w1 => ?_⟩
  · have hs : replySucceeds env.acceptAssignment = true ∧
        returned env.pickupLocation = true := by
      rcases h1 : env.acceptAssignment with e1 | r1 <;>
        rcases h2 : env.pickupLocation with e2 | r2 <;>
        simp [DeliveryEnv.allSucceed, replySucceeds, returned, h1, h2] at h ⊢
      exact h.1.1.1.1.1
    exact (completeDeliveryFlow_outcome env w).2.2.2 hs.1 hs.2
  · rw [riderUpdateOrderStatus_ok]
    cases hr : r.success <;> simp [recordOrderMetrics, hr]

/-- C28 at the failing input: the delivery run in which all six calls would
answer 200, started with empty metrics. -/
theorem delivery_flow_records_no_delivery_witness :
    deliveryEnvOk.allSucceed = true ∧
    (completeDeliveryFlow deliveryEnvOk {}).1 = .error "ReferenceError" ∧
    (completeDeliveryFlow deliveryEnvOk {}).2.metrics.deliveryCompletionRate = [] ∧
    (completeDeliveryFlow deliveryEnvOk {}).2.metrics.deliveriesCompleted = 0 :=
  ⟨by decide,
   (delivery_flow_records_no_delivery deliveryEnvOk {}).2.1 (by decide),
   by rw [(delivery_flow_records_no_delivery deliveryEnvOk {}).1],
   by rw [(delivery_flow_records_no_delivery deliveryEnvOk {}).1]⟩

/-! ## Journeys with nothing to process: claim C29 -/

/-- C29, the defect: when login succeeds and the first listing call succeeds with
an empty array, `vendorJourney` and `riderJourney` return `{ success: false,
duration, timestamp }`, not the `no_orders` / `no_assignments` object with
`success: true`.  The fallback call of line 44 cannot be made: `viewOrders` and
`viewAssignments` are imported by name from modules that export them only as
default, so the call throws and the `catch` block resets the success flag. -/
theorem empty_queue_fallback_throws (venv : VendorEnv) (renv : RiderEnv) (w : World) :
    (loginSucceeds venv.vendorLogin = true → ordersEmpty venv.viewPendingOrders = true →
      (vendorJourney venv w).1 =
        .ok { success := false,
              duration := some (venv.journeyEndTime - venv.journeyStartTime),
              timestamp := some venv.isoTimestamp }) ∧
    (loginSucceeds renv.riderLogin = true →
      assignmentsEmpty renv.viewAvailableAssignments = true →
      (riderJourney renv w).1 =
        .ok { success := false,
              duration := some (renv.journeyEndTime - renv.journeyStartTime),
              timestamp := some renv.isoTimestamp }) :=
  ⟨fun h1 h2 => journey_of_throw _ _ _ _ recordVendorJourneyMetrics (fun _ _ _ _ => ⟨_, rfl⟩) w
      (vendorJourneyTry_throws_no_orders venv w h1 h2),
   fun h1 h2 => journey_of_throw _ _ _ _ recordRiderJourneyMetrics (fun _ _ _ _ => ⟨_, rfl⟩) w
      (riderJourneyTry_throws_no_assignments renv w h1 h2)⟩

/-- C29 at the failing inputs: a vendor run with no pending order and a rider run
with no available assignment. -/
theorem empty_queue_fallback_throws_witness :
    (vendorJourney vendorEnvNoOrders {}).1 =
      .ok { success := false, duration := some 90000,
            timestamp := some "2024-01-01T00:01:31.000Z" } ∧
    (riderJourney riderEnvNoAssignments {}).1 =
      .ok { success := false, duration := some 120000,
            timestamp := some "2024-01-01T00:02:01.000Z" } :=
  ⟨(empty_queue_fallback_throws vendorEnvNoOrders riderEnvNoAssignments {}).1
      (by decide) (by decide),
   (empty_queue_fallback_throws vendorEnvNoOrders riderEnvNoAssignments {}).2
      (by decide) (by decide)⟩

/-! ## Order status updates: claim C30 -/

theorem generateStatusUpdate_terminal (random : ℚ) :
    generateStatusUpdate random "delivered" = some "delivered" ∧
    generateStatusUpdate random "cancelled" = some "cancelled" := by
  constructor <;> rfl

theorem generateStatusUpdate_successor (random : ℚ)
    (status : String) (successors : List String) (h0 : 0 ≤ random) (h1 : random < 1)
    (h : statusFlow.get status = some successors) (hne : successors ≠ []) :
    ∃ next ∈ successors, generateStatusUpdate random status = some next := by
  have hpos : 0 < successors.length := List.length_pos.mpr hne
  have hlt := randomIndex_lt random successors.length h0 h1 hpos
  refine ⟨successors[randomIndex random successors.length], List.getElem_mem _, ?_⟩
  simp only [generateStatusUpdate, h, if_neg hpos.ne.symm]
  exact List.getElem?_eq_getElem hlt

theorem generateStatusUpdate_single (random : ℚ)
    (status next : String) (h0 : 0 ≤ random) (h1 : random < 1)
    (h : statusFlow.get status = some [next]) :
    generateStatusUpdate random status = some next := by
  obtain ⟨t, ht, h2⟩ := generateStatusUpdate_successor random status [next] h0 h1 h
    (by simp)
  rw [h2]
  simpa using ht

theorem statusAfter_terminal (draws : List ℚ) :
    statusAfter draws "delivered" = some "delivered" ∧
    statusAfter draws "cancelled" = some "cancelled" := by
  induction draws with
  | nil => exact ⟨rfl, rfl⟩
  | cons r rest ih =>
    constructor
    · rw [statusAfter, (generateStatusUpdate_terminal r).1]
      exact ih.1
    · rw [statusAfter, (generateStatusUpdate_terminal r).2]
      exact ih.2

theorem statusAfter_six (r1 r2 r3 r4 r5 r6 : ℚ)
    (rest : List ℚ) (h : ∀ r ∈ [r1, r2, r3, r4, r5, r6], 0 ≤ r ∧ r < 1) :
    statusAfter (r1 :: r2 :: r3 :: r4 :: r5 :: r6 :: rest) "pending"
        = some "delivered" ∨
    statusAfter (r1 :: r2 :: r3 :: r4 :: r5 :: r6 :: rest) "pending"
        = some "cancelled" := by
  have e1 := h r1 (by simp)
  have e2 := h r2 (by simp)
  have e3 := h r3 (by simp)
  have e4 := h r4 (by simp)
  have e5 := h r5 (by simp)
  have e6 := h r6 (by simp)
  obtain ⟨t, ht, h1⟩ := generateStatusUpdate_successor r1 "pending"
    ["accepted", "cancelled"] e1.1 e1.2 rfl (by simp)
  have h2 := generateStatusUpdate_single r2 "accepted" "preparing" e2.1 e2.2 rfl
  have h3 := generateStatusUpdate_single r3 "preparing" "ready_for_pickup" e3.1 e3.2
    rfl
  have h4 := generateStatusUpdate_single r4 "ready_for_pickup" "picked_up" e4.1 e4.2
    rfl
  have h5 := generateStatusUpdate_single r5 "picked_up" "in_transit" e5.1 e5.2 rfl
  have h6 := generateStatusUpdate_single r6 "in_transit" "delivered" e6.1 e6.2 rfl
  simp only [List.mem_cons, List.mem_singleton, List.not_mem_nil, or_false] at ht
  rcases ht with rfl | rfl
  · left
    simp only [statusAfter, h1, h2, h3, h4, h5, h6]
    exact (statusAfter_terminal rest).1
  · right
    simp only [statusAfter, h1]
    exact (statusAfter_terminal _).2

theorem statusAfter_append (draws more : List ℚ)
    (status final : String) (h : statusAfter draws status = some final) :
    statusAfter (draws ++ more) status = statusAfter more final := by
  induction draws generalizing status with
  | nil =>
    simp only [statusAfter, Option.some.injEq] at h
    subst h
    rfl
  | cons r rest ih =>
    simp only [List.cons_append, statusAfter] at h ⊢
    cases hg : generateStatusUpdate r status with
    | none => rw [hg] at h; cases h
    | some next =>
      rw [hg] at h
      exact ih next h

/-- C30, the defect: an unknown status that names an inherited property is not
returned unchanged.  `'constructor'` is not a key of `statusFlow`, yet
`statusFlow['constructor']` is the inherited function `Object`: it is truthy, so
`|| []` does not apply, its `length` is 1, and `Object[0]` is `undefined`.  For
every draw `generateStatusUpdate('constructor')` is therefore `undefined`, and
so it is for `'hasOwnProperty'` and `'__proto__'`.  The rest of the claim holds:
the two final statuses and an unknown status that names nothing inherited are
returned as they are, a status with successors and a draw in `[0, 1)` give one
of the successors, and for every sequence of at least six draws in `[0, 1)` the
repeated application from `'pending'` ends in `'delivered'` or `'cancelled'` and
stays there. -/
theorem generateStatusUpdate_inherited_name :
    (statusFlow.get "constructor" = none ∧
      ∀ random : ℚ,
        generateStatusUpdate random "constructor" = none ∧
        generateStatusUpdate random "hasOwnProperty" = none ∧
        generateStatusUpdate random "__proto__" = none) ∧
    (∀ random : ℚ,
      generateStatusUpdate random "delivered" = some "delivered" ∧
      generateStatusUpdate random "cancelled" = some "cancelled") ∧
    (∀ (random : ℚ) (status : String), statusFlow.get status = none →
      objectPrototype.get status = none →
      generateStatusUpdate random status = some status) ∧
    (∀ (random : ℚ) (status : String) (successors : List String), 0 ≤ random → random < 1 →
      statusFlow.get status = some successors → successors ≠ [] →
      ∃ next ∈ successors, generateStatusUpdate random status = some next) ∧
    (∀ draws more : List ℚ, (∀ r ∈ draws, 0 ≤ r ∧ r < 1) → 6 ≤ draws.length →
      ∃ final, (final = "delivered" ∨ final = "cancelled") ∧
        statusAfter draws "pending" = some final ∧
        statusAfter (draws ++ more) "pending" = some final) := by
  refine ⟨⟨rfl, fun _ => ⟨rfl, rfl, rfl⟩⟩, generateStatusUpdate_terminal, ?_, ?_, ?_⟩
  · intro random status h1 h2
    simp only [generateStatusUpdate, h1, h2]
  · intro random status successors h0 h1 h hne
    exact generateStatusUpdate_successor random status successors h0 h1 h hne
  · intro draws more hr hlen
    rcases draws with _ | ⟨r1, _ | ⟨r2, _ | ⟨r3, _ | ⟨r4, _ | ⟨r5, _ | ⟨r6, rest⟩⟩⟩⟩⟩⟩ <;>
      simp at hlen
    have h6 : ∀ r ∈ [r1, r2, r3, r4, r5, r6], 0 ≤ r ∧ r < 1 := by
      intro r hmem
      apply hr
      simp only [List.mem_cons, List.mem_singleton, List.not_mem_nil, or_false] at hmem ⊢
      tauto
    rcases statusAfter_six r1 r2 r3 r4 r5 r6 rest h6 with h | h
    · refine ⟨"delivered", Or.inl rfl, h, ?_⟩
      rw [statusAfter_append _ more "pending" "delivered" h]
      exact (statusAfter_terminal more).1
    · refine ⟨"cancelled", Or.inr rfl, h, ?_⟩
      rw [statusAfter_append _ more "pending" "cancelled" h]
      exact (statusAfter_terminal more).2

/-- C30 at concrete inputs: the unknown status `'refunded'` is returned as it is,
and six draws from `'pending'`, the first of which selects `'accepted'`, end in a
final status that a seventh draw does not change. -/
theorem generateStatusUpdate_inherited_name_witness :
    generateStatusUpdate (1 / 2) "refunded" = some "refunded" ∧
    ∃ final, (final = "delivered" ∨ final = "cancelled") ∧
      statusAfter [1/4, 1/2, 0, 3/4, 1/3, 9/10] "pending" = some final ∧
      statusAfter ([1/4, 1/2, 0, 3/4, 1/3, 9/10] ++ [1/2]) "pending" = some final :=
  ⟨generateStatusUpdate_inherited_name.2.2.1 (1 / 2) "refunded" rfl rfl,
   generateStatusUpdate_inherited_name.2.2.2.2 [1/4, 1/2, 0, 3/4, 1/3, 9/10]
    [1/2] (by intro r hr; simp at hr; rcases hr with rfl | rfl | rfl | rfl | rfl | rfl <;>
      norm_num) (by decide)⟩

end GabsEats
